import Mathlib

/-! quake2vr: VR backends (vendor SDK renderer and OpenXR).

A shallow embedding of

* `src/client/renderer/r_vr_rift.c` : `Rift_CalculateState`, `Rift_Present`
* `src/client/vr/vr_openxr.cpp`     : `VrOpenXr::FrameStart`, `VrOpenXr::FrameEnd`

Floating-point values of the C code are embedded in an arbitrary linearly
ordered field `K` (exact arithmetic): the definitions run over `ℚ` and the
statements about `atan` and `π` are read over `ℝ`.
-/

namespace Quake2VR

/-! ## Part 1. Data model of `r_vr_rift.c` -/

section Rift

variable {K : Type} [LinearOrderedField K]

/-- The SDK type `ovrFovPort`: the four half-angle tangents of one eye. -/
structure ovrFovPort (K : Type) where
  UpTan : K
  DownTan : K
  LeftTan : K
  RightTan : K
deriving DecidableEq, Repr

/-- The SDK type `ovrVector3f`. -/
structure ovrVector3f (K : Type) where
  x : K
  y : K
  z : K
deriving DecidableEq, Repr

/-- The SDK type `ovrQuatf`. -/
structure ovrQuatf (K : Type) where
  x : K
  y : K
  z : K
  w : K
deriving DecidableEq, Repr

/-- The SDK type `ovrPosef`. -/
structure ovrPosef (K : Type) where
  Orientation : ovrQuatf K
  Position : ovrVector3f K
deriving DecidableEq, Repr

/-- The SDK type `ovrSizei`. -/
structure ovrSizei where
  w : Int
  h : Int
deriving DecidableEq, Repr

/-- The part of the SDK type `ovrEyeRenderDesc` that `r_vr_rift.c` reads
(the distorted viewport and the pixel density are never read there). -/
structure ovrEyeRenderDesc (K : Type) where
  Eye : Fin 2
  Fov : ovrFovPort K
  HmdToEyeViewOffset : ovrVector3f K
deriving DecidableEq, Repr

/-- The fields of the SDK descriptor `*hmd` that `Rift_CalculateState` reads. -/
structure ovrHmdDesc (K : Type) where
  DefaultEyeFov : Fin 2 → ovrFovPort K
  MaxEyeFov : Fin 2 → ovrFovPort K
  Resolution : ovrSizei

/-- One axis of a projection: `scale` and `offset`. -/
structure scaleOffset_t (K : Type) where
  scale : K
  offset : K
deriving DecidableEq, Repr

/-- The engine type `eyeScaleOffset_t`. -/
structure eyeScaleOffset_t (K : Type) where
  x : scaleOffset_t K
  y : scaleOffset_t K
deriving DecidableEq, Repr

/-- The engine type `vec3_t`. -/
structure vec3_t (K : Type) where
  v0 : K
  v1 : K
  v2 : K
deriving DecidableEq, Repr

/-- The macro `VectorSet(v, x, y, z)`: `v[0] = x, v[1] = y, v[2] = z`. -/
def VectorSet (x y z : K) : vec3_t K :=
  { v0 := x, v1 := y, v2 := z }

/-- Per-eye entry of `vr_param_t.renderParams`. -/
structure vr_eye_param_t (K : Type) where
  projection : eyeScaleOffset_t K
  viewOffset : vec3_t K
deriving DecidableEq, Repr

/-- The engine type `vr_param_t`, with the fields `Rift_CalculateState` writes.
A pointer `&renderInfo[eye].eyeFBO` is represented by the index `eye`. -/
structure vr_param_t (K : Type) where
  eyeFBO : Fin 2 → Fin 2
  renderParams : Fin 2 → vr_eye_param_t K
  aspect : K
  viewFovY : K
  viewFovX : K
  pixelScale : K

/-- The engine type `fbo_t` (size, texture name and status bits). -/
structure fbo_t where
  width : Int
  height : Int
  texture : Nat
  status : Nat
deriving DecidableEq, Repr

/-- The file-local type `ovr_eye_info_t` (`UVScaleOffset` is never used). -/
structure ovr_eye_info_t (K : Type) where
  eyeFBO : fbo_t
  renderTarget : ovrSizei
  eyeFov : ovrFovPort K
deriving DecidableEq, Repr

/-- What `r_vr_rift.c` takes from outside the file: the SDK descriptor
`*hmd`, the SDK query `ovrHmd_GetRenderDesc`, the C library `atanf`, the
constant `M_PI`, the cvar value `vr_rift_maxfov->value` and `vid.width`. -/
structure RiftEnv (K : Type) where
  hmd : ovrHmdDesc K
  ovrHmd_GetRenderDesc : Fin 2 → ovrFovPort K → ovrEyeRenderDesc K
  atanf : K → K
  M_PI : K
  vr_rift_maxfov_value : K
  vid_width : Int

/-- The globals of `r_vr_rift.c` that `Rift_CalculateState` writes:
`renderInfo[2]` and `eyeDesc[2]`. -/
structure RiftGlobals (K : Type) where
  renderInfo : Fin 2 → ovr_eye_info_t K
  eyeDesc : Fin 2 → ovrEyeRenderDesc K

/-- Modelled from the spec: the macro `max(a, b)` of the engine headers,
which are not under src/; the larger of the two values, written as the
usual C conditional. -/
def maxMacro (a b : K) : K :=
  if a > b then a else b

/-- Modelled from the spec: the macro `clamp(a, lo, hi)` of the engine
headers, which are not under src/; `a` clamped to `[lo, hi]`, the lower
bound tested first. -/
def clampMacro (a lo hi : K) : K :=
  if a < lo then lo else if a > hi then hi else a

/-- Modelled from the spec: the macro `RAD2DEG(a)` of the engine headers,
which are not under src/; the spec gives the conversion as `·180/π`. -/
def RAD2DEG (pi a : K) : K :=
  a * 180 / pi

/-- The field of view `Rift_CalculateState` selects for an eye (lines
117-124): the maximum FOV when `vr_rift_maxfov->value` is non-zero,
the default FOV otherwise. -/
def selectEyeFov (env : RiftEnv K) (eye : Fin 2) : ovrFovPort K :=
  if env.vr_rift_maxfov_value ≠ 0 then env.hmd.MaxEyeFov eye
  else env.hmd.DefaultEyeFov eye

/-- The locals and globals threaded through the `for (eye ...)` loop of
`Rift_CalculateState`. -/
structure CalcLoop (K : Type) where
  g : RiftGlobals K
  eyeFBO : Fin 2 → Fin 2
  renderParams : Fin 2 → vr_eye_param_t K

/-- One iteration of the loop of `Rift_CalculateState` (lines 116-139). -/
def Rift_CalculateState_eye (env : RiftEnv K) (s : CalcLoop K) (eye : Fin 2) :
    CalcLoop K :=
  -- renderInfo[eye].eyeFov = hmd->MaxEyeFov[eye] / hmd->DefaultEyeFov[eye]
  let renderInfo := Function.update s.g.renderInfo eye
    { s.g.renderInfo eye with eyeFov := selectEyeFov env eye }
  let fov := (renderInfo eye).eyeFov
  -- ovrState.eyeFBO[eye] = &renderInfo[eye].eyeFBO
  let eyeFBO := Function.update s.eyeFBO eye eye
  let xscale : K := 2 / (fov.LeftTan + fov.RightTan)
  let xoffset : K := (fov.LeftTan - fov.RightTan) * xscale * 0.5
  let yscale : K := 2 / (fov.UpTan + fov.DownTan)
  let yoffset : K := (fov.UpTan - fov.DownTan) * yscale * 0.5
  -- eyeDesc[eye] = ovrHmd_GetRenderDesc(hmd, eye, renderInfo[eye].eyeFov)
  let eyeDesc := Function.update s.g.eyeDesc eye (env.ovrHmd_GetRenderDesc eye fov)
  let viewOffset := VectorSet
    (-(eyeDesc eye).HmdToEyeViewOffset.x)
    (eyeDesc eye).HmdToEyeViewOffset.y
    (eyeDesc eye).HmdToEyeViewOffset.z
  { g := { renderInfo := renderInfo, eyeDesc := eyeDesc }
    eyeFBO := eyeFBO
    renderParams := Function.update s.renderParams eye
      { projection := { x := { scale := xscale, offset := xoffset }
                        y := { scale := yscale, offset := yoffset } }
        viewOffset := viewOffset } }

/-- The function `Rift_CalculateState` (lines 110-154): the new globals and
the value stored in `*state`. The local `ovrState` starts from the caller's
`junk` (an uninitialised C local); every field of it is overwritten. -/
def Rift_CalculateState (env : RiftEnv K) (g : RiftGlobals K) (junk : vr_param_t K) :
    RiftGlobals K × vr_param_t K :=
  let s := [(0 : Fin 2), 1].foldl (Rift_CalculateState_eye env)
    { g := g, eyeFBO := junk.eyeFBO, renderParams := junk.renderParams }
  let renderInfo := s.g.renderInfo
  let combinedTanHalfFovHorizontal :=
    maxMacro (maxMacro (renderInfo 0).eyeFov.LeftTan (renderInfo 0).eyeFov.RightTan)
             (maxMacro (renderInfo 1).eyeFov.LeftTan (renderInfo 1).eyeFov.RightTan)
  let combinedTanHalfFovVertical :=
    maxMacro (maxMacro (renderInfo 0).eyeFov.UpTan (renderInfo 0).eyeFov.DownTan)
             (maxMacro (renderInfo 1).eyeFov.UpTan (renderInfo 1).eyeFov.DownTan)
  let horizontalFullFovInRadians := 2 * env.atanf combinedTanHalfFovHorizontal
  let fovX := RAD2DEG env.M_PI horizontalFullFovInRadians
  let fovY := RAD2DEG env.M_PI (2 * env.atanf combinedTanHalfFovVertical)
  (s.g,
   { eyeFBO := s.eyeFBO
     renderParams := s.renderParams
     aspect := combinedTanHalfFovHorizontal / combinedTanHalfFovVertical
     viewFovY := fovY
     viewFovX := fovX
     pixelScale := (env.vid_width : K) / (env.hmd.Resolution.w : K) })

/-! ### `Rift_Present`: the tracking-loss value -/

/-- The engine type `vec4_t`. -/
structure vec4_t (K : Type) where
  v0 : K
  v1 : K
  v2 : K
  v3 : K
deriving DecidableEq, Repr

/-- A `vec_t m[4][4]` matrix, `m i j` standing for `m[i][j]`. -/
abbrev mat4_t (K : Type) := Fin 4 → Fin 4 → K

/-- The fields of the global `renderExport` that `Rift_Present` reads. -/
structure rift_render_export_t (K : Type) where
  positionTracked : Bool
  hasPositionLock : Bool
  cameraYaw : K
deriving DecidableEq, Repr

/-- The fields of the SDK global `trackingState` that `Rift_Present` reads
(`HeadPose` stands for `HeadPose.ThePose`). -/
structure ovrTrackingState (K : Type) where
  HeadPose : ovrPosef K
  CameraPose : ovrPosef K
  StatusFlags : Nat
deriving DecidableEq, Repr

/-- What `Rift_Present` takes from outside the file: the engine helpers
`VR_Rift_QuatToEuler`, `EulerToQuat`, `QuatToRotation` and `MatrixMultiply`
(defined in files that are not under src/, taken as parameters), the SDK
flag `ovrStatus_PositionConnected`, the cvar value
`vr_rift_trackingloss->value`, and the globals `renderExport`,
`trackingState` and `cameraFrustum`. -/
structure PresentEnv (K : Type) where
  VR_Rift_QuatToEuler : ovrQuatf K → vec3_t K
  EulerToQuat : vec3_t K → vec4_t K
  QuatToRotation : vec4_t K → mat4_t K
  MatrixMultiply : mat4_t K → mat4_t K → mat4_t K
  ovrStatus_PositionConnected : Nat
  vr_rift_trackingloss_value : K
  renderExport : rift_render_export_t K
  trackingState : ovrTrackingState K
  cameraFrustum : mat4_t K

/-- Lines 253-271 of `Rift_Present`: the head position relative to the
camera, taken through `cameraFrustum * rotation(camera)`; the result is the
local `out`. -/
def Rift_Present_out (env : PresentEnv K) : vec4_t K :=
  let camera := env.trackingState.CameraPose
  let head := env.trackingState.HeadPose
  let pos0 : K := -(head.Position.x - camera.Position.x)
  let pos1 : K := head.Position.y - camera.Position.y
  let pos2 : K := -(head.Position.z - camera.Position.z)
  let pos3 : K := 1
  let euler := env.VR_Rift_QuatToEuler camera.Orientation
  let quat := env.EulerToQuat euler
  let temp := env.QuatToRotation quat
  let fin := env.MatrixMultiply env.cameraFrustum temp
  let row (i : Fin 4) : K := fin i 0 * pos0 + fin i 1 * pos1 + fin i 2 * pos2 + fin i 3 * pos3
  { v0 := row 0, v1 := row 1, v2 := row 2, v3 := row 3 }

/-- Lines 248 and 273-282 of `Rift_Present`: the value of `desaturate` under
position lock, from the local `out` and `renderExport.cameraYaw`. -/
def Rift_Present_locked (out : vec4_t K) (cameraYaw : K) : K :=
  let yawDiff : K := (|cameraYaw| - 105) * 0.04
  let xBound : K := (|out.v0| - 0.6) * 6.25
  let yBound : K := (|out.v1| - 0.45) * 6.25
  let zBound : K := (|out.v2 - 0.5| - 0.5) * 10
  let yawDiff := clampMacro yawDiff 0 1
  let xBound := clampMacro xBound 0 1
  let yBound := clampMacro yBound 0 1
  let zBound := clampMacro zBound 0 1
  maxMacro (maxMacro (maxMacro xBound yBound) zBound) yawDiff

/-- The condition of line 246: position tracked, tracker connected
(`StatusFlags & ovrStatus_PositionConnected`) and
`vr_rift_trackingloss->value > 0`. -/
def trackingLossApplies (env : PresentEnv K) : Bool :=
  env.renderExport.positionTracked
    && (env.trackingState.StatusFlags &&& env.ovrStatus_PositionConnected != 0)
    && decide (env.vr_rift_trackingloss_value > 0)

/-- Lines 244-287 of `Rift_Present`: the final value of the local
`desaturate`. -/
def Rift_Present (env : PresentEnv K) : K :=
  if trackingLossApplies env then
    if env.renderExport.hasPositionLock then
      Rift_Present_locked (Rift_Present_out env) env.renderExport.cameraYaw
    else 1
  else 0

end Rift

/-! ## Part 2. The OpenXR backend, `vr_openxr.cpp`

The runtime is an oracle `rt : Nat → XrAnswer`: the `n`-th call made to the
outside world receives `rt n`. Every call is appended to a log together with
the answer it received. -/

/-- Result codes of `openxr.h` are integers; `XR_SUCCESS` is `0`. -/
def XR_SUCCESS : Int := 0

/-- The code `XR_EVENT_UNAVAILABLE` of `openxr.h`. -/
def XR_EVENT_UNAVAILABLE : Int := 4

/-- The macro `XR_FAILED(result)` of `openxr.h`: `(result) < 0`. -/
def XR_FAILED (result : Int) : Bool :=
  decide (result < 0)

/-- The enumeration `XrSessionState` of `openxr.h`. -/
inductive XrSessionState where
  | UNKNOWN | IDLE | READY | SYNCHRONIZED | VISIBLE | FOCUSED
  | STOPPING | LOSS_PENDING | EXITING
deriving DecidableEq, Repr

/-- The content of an `XrEventDataBuffer` as far as `FrameStart` looks at it:
the `type` tag and, for a session-state change, the new state. -/
inductive XrEvent where
  | SESSION_STATE_CHANGED (state : XrSessionState)
  | INSTANCE_LOSS_PENDING
  | otherType
deriving DecidableEq, Repr

/-- The fields of `XrFrameState` the backend reads. -/
structure XrFrameState where
  predictedDisplayTime : Int
  shouldRender : Bool
deriving DecidableEq, Repr

/-- An `XrView` (pose and fov of one eye), kept as an uninterpreted token. -/
abbrev XrView := Nat

/-- One `XrCompositionLayerProjectionView`: the view it renders and the eye
whose swapchain `m_xrSwapchain[eye]` backs it. -/
structure XrCompositionLayerProjectionView where
  view : XrView
  swapchain : Fin 2
deriving DecidableEq, Repr

/-- The `XrFrameEndInfo` passed to `xrEndFrame`: `layerCount` and the
projection views of the single layer the array `layers` points to. -/
structure XrFrameEndInfo where
  displayTime : Int
  layerCount : Nat
  projectionViews : List XrCompositionLayerProjectionView
deriving DecidableEq, Repr

/-- The calls `FrameStart` and `FrameEnd` make to the runtime, to
`NV_DX_interop2` and to Direct3D, followed by the calls of `Init` and
`Shutdown`. In the frame calls a swapchain is named by its eye: the
handle passed is `m_xrSwapchain[eye]`, which neither function writes.
`d3dFlipDraw eye target source` is the draw of lines 389-414 into
`m_d3dRenderBufferRtv[eye][target]` from
`m_d3dIntermediateBufferSrv[eye][source]`. The calls of `Init` and
`Shutdown` carry the handles and capacities they are given, and so do the
calls of `Enable` and of its helpers, which come last; there an adapter is
named by its index, and a size or format that may be without a value is an
`Option`. -/
inductive XrCall where
  | xrPollEvent
  | xrBeginSession
  | xrEndSession
  | xrWaitFrame
  | xrBeginFrame
  | xrAcquireSwapchainImage (eye : Fin 2)
  | xrWaitSwapchainImage (eye : Fin 2)
  | wglDXLockObjectsNV (eye : Fin 2) (index : Nat)
  | xrLocateViews (displayTime : Int)
  | wglDXUnlockObjectsNV (eye : Fin 2) (index : Nat)
  | d3dFlipDraw (eye : Fin 2) (target : Nat) (source : Nat)
  | xrReleaseSwapchainImage (eye : Fin 2)
  | xrEndFrame (endInfo : XrFrameEndInfo)
  | xrEnumerateInstanceExtensionProperties (capacity : Nat)
  | xrCreateInstance (extension : String)
  | xrGetSystem (inst : Nat)
  | xrEnumerateViewConfigurations (inst : Nat) (system : Nat) (capacity : Nat)
  | xrEnumerateEnvironmentBlendModes (inst : Nat) (system : Nat) (capacity : Nat)
  | xrDestroyInstance (inst : Nat)
  | xrDestroySession (session : Nat)
  | xrDestroySwapchain (swapchain : Nat)
  | wglDXUnregisterObjectNV (buffer : Nat)
  | glDeleteTextures (texture : Nat)
  | wglDXCloseDeviceNV
  | xrGetSystemProperties (inst : Nat) (system : Nat)
  | xrGetInstanceProcAddr (inst : Nat) (name : String)
  | xrGetD3D11GraphicsRequirementsKHR (inst : Nat) (systemId : Nat)
  | CreateDXGIFactory1
  | EnumAdapters (adapterIndex : Nat)
  | GetDesc (adapterIndex : Nat)
  | D3D11CreateDevice (adapter : Nat)
  | D3DCompile (entryPoint : String)
  | CreateVertexShader
  | CreatePixelShader
  | CreateSamplerState
  | CreateRasterizerState
  | wglDXOpenDeviceNV
  | xrCreateSession (inst : Nat) (systemId : Nat) (d3dBinding : Bool)
  | xrEnumerateViewConfigurationViews (inst : Nat) (system : Nat) (capacity : Nat)
  | xrCreateSwapchain (session : Nat) (format : Option Int) (width : Nat) (height : Option Nat)
  | xrEnumerateSwapchainImages (swapchain : Nat) (capacity : Nat)
  | CreateTexture2D (width : Option Nat) (height : Option Nat)
  | glGenTextures
  | glBindTexture (texture : Nat)
  | glTexParameteri (pname : Nat) (param : Nat)
  | glTexImage2D (width : Option Nat) (height : Option Nat)
  | wglDXRegisterObjectNV (d3dBuffer : Nat) (glBuffer : Nat)
  | CreateRenderTargetView (texture : Nat)
  | CreateShaderResourceView (d3dBuffer : Nat)
  | xrCreateReferenceSpace (session : Nat)
deriving DecidableEq, Repr

/-- What a call gives back: the result code and the output parameters (each
call reads only the ones it has). -/
structure XrAnswer where
  result : Int
  event : XrEvent
  imageIndex : Nat
  frameState : XrFrameState
  view0 : XrView
  view1 : XrView
  count : Nat := 0
  extensionNames : List String := []
  viewConfigurations : List Nat := []
  blendModes : List Nat := []
  handle : Nat := 0
  views : List (Nat × Nat) := []
  images : List Nat := []
deriving DecidableEq, Repr

/-- A call together with the answer it received. -/
structure LogEntry where
  call : XrCall
  answer : XrAnswer
deriving DecidableEq, Repr

/-- The members of `VrOpenXr` that `FrameStart` and `FrameEnd` read or
write, then the handles and buffer tables that `Init` and `Shutdown` use;
`0` stands for `XR_NULL_HANDLE`, the value the constructor gives. The last
four are written by `Enable`; the class gives them no initial value
(`none`), and of `m_xrSwapchainSize` the extent (width, height) is kept. -/
structure VrOpenXr where
  m_xrFrameState : XrFrameState
  m_xrViews : Fin 2 → XrView
  m_currentSwapchainImageIndex : Fin 2 → Nat
  m_useD3DInterop : Bool
  m_xrInstance : Nat := 0
  m_xrSession : Nat := 0
  m_xrSwapchain : Fin 2 → Nat := fun _ => 0
  m_dxglInteropRenderBuffer : Fin 2 → List Nat := fun _ => []
  m_glRenderBuffer : Fin 2 → List Nat := fun _ => []
  m_xrSwapchainFormat : Option Int := none
  m_xrSwapchainSize : Option Nat × Option Nat := (none, none)
  m_xrSpace : Option Nat := none
  m_dxglInterop : Option Nat := none

/-- The backend object and the log of the calls made so far. -/
structure Sys where
  vr : VrOpenXr
  log : List LogEntry

/-- How a member function is left: by `return`, by a `throw` of one of the
`ThrowIf...` macros, or not at all within the loop budget. -/
inductive Exit where
  | returned | threw | outOfFuel
deriving DecidableEq, Repr

/-- Make one call: it receives the next answer of the runtime and is logged. -/
def xr (rt : Nat → XrAnswer) (c : XrCall) (s : Sys) : XrAnswer × Sys :=
  (rt s.log.length, { s with log := s.log ++ [{ call := c, answer := rt s.log.length }] })

/-- The `while (true)` loop of `FrameStart` (lines 308-345), at most `fuel`
iterations. `none`: the loop was left by `break`; `some e`: the function was
left from inside the loop. -/
def FrameStart_events (rt : Nat → XrAnswer) : Nat → Sys → Option Exit × Sys
  | 0, s => (some Exit.outOfFuel, s)
  | fuel + 1, s =>
    let (poll, s) := xr rt XrCall.xrPollEvent s
    if poll.result = XR_EVENT_UNAVAILABLE then (none, s)
    else if XR_FAILED poll.result then (some Exit.threw, s)
    else
      match poll.event with
      | XrEvent.SESSION_STATE_CHANGED XrSessionState.READY =>
        let (r, s) := xr rt XrCall.xrBeginSession s
        if XR_FAILED r.result then (some Exit.threw, s)
        else FrameStart_events rt fuel s
      | XrEvent.SESSION_STATE_CHANGED XrSessionState.STOPPING =>
        let (r, s) := xr rt XrCall.xrEndSession s
        if XR_FAILED r.result then (some Exit.threw, s)
        else (some Exit.returned, s)
      | XrEvent.SESSION_STATE_CHANGED XrSessionState.EXITING => (some Exit.returned, s)
      | XrEvent.SESSION_STATE_CHANGED XrSessionState.LOSS_PENDING => (some Exit.returned, s)
      | XrEvent.SESSION_STATE_CHANGED _ => FrameStart_events rt fuel s
      | XrEvent.INSTANCE_LOSS_PENDING => (some Exit.returned, s)
      | XrEvent.otherType => FrameStart_events rt fuel s

/-- The body of the `for (eye ...)` loop of `FrameStart` (lines 356-365).
`none`: the iteration ran to its end. -/
def FrameStart_eye (rt : Nat → XrAnswer) (eye : Fin 2) (s : Sys) : Option Exit × Sys :=
  let (acq, s) := xr rt (XrCall.xrAcquireSwapchainImage eye) s
  if XR_FAILED acq.result then (some Exit.threw, s)
  else
    let s : Sys := { s with vr := { s.vr with
      m_currentSwapchainImageIndex :=
        Function.update s.vr.m_currentSwapchainImageIndex eye acq.imageIndex } }
    let (w, s) := xr rt (XrCall.xrWaitSwapchainImage eye) s
    if XR_FAILED w.result then (some Exit.threw, s)
    else if s.vr.m_useD3DInterop then
      (none, (xr rt (XrCall.wglDXLockObjectsNV eye (s.vr.m_currentSwapchainImageIndex eye)) s).2)
    else (none, s)

/-- The part of `FrameStart` after the event loop (lines 347-378): wait for
the frame, begin it, acquire and wait for one image per eye, locate the
views. -/
def FrameStart_frame (rt : Nat → XrAnswer) (s : Sys) : Exit × Sys :=
  let (w, s) := xr rt XrCall.xrWaitFrame s
  if XR_FAILED w.result then (Exit.threw, s)
  else
    let s : Sys := { s with vr := { s.vr with m_xrFrameState := w.frameState } }
    let (b, s) := xr rt XrCall.xrBeginFrame s
    if XR_FAILED b.result then (Exit.threw, s)
    else
      match FrameStart_eye rt 0 s with
      | (some e, s) => (e, s)
      | (none, s) =>
        match FrameStart_eye rt 1 s with
        | (some e, s) => (e, s)
        | (none, s) =>
          let (l, s) := xr rt (XrCall.xrLocateViews s.vr.m_xrFrameState.predictedDisplayTime) s
          if XR_FAILED l.result then (Exit.threw, s)
          else
            (Exit.returned, { s with vr := { s.vr with
              m_xrViews := fun eye => if eye = 0 then l.view0 else l.view1 } })

/-- The member function `VrOpenXr::FrameStart` (lines 306-379): the event
loop, then, unless the function was left from inside the loop, the frame. -/
def FrameStart (rt : Nat → XrAnswer) (fuel : Nat) (s : Sys) : Exit × Sys :=
  match FrameStart_events rt fuel s with
  | (some e, s) => (e, s)
  | (none, s) => FrameStart_frame rt s

/-- The body of the interop loop of `FrameEnd` (lines 386-414) for one eye:
unlock the interop buffer of the current image index, then the flip draw. -/
def FrameEnd_flip (rt : Nat → XrAnswer) (eye : Fin 2) (s : Sys) : Sys :=
  let index := s.vr.m_currentSwapchainImageIndex eye
  let s := (xr rt (XrCall.wglDXUnlockObjectsNV eye index) s).2
  (xr rt (XrCall.d3dFlipDraw eye index index) s).2

/-- The body of the release loop of `FrameEnd` (lines 427-433) for one eye.
`none`: the iteration ran to its end. -/
def FrameEnd_release (rt : Nat → XrAnswer) (eye : Fin 2) (s : Sys) : Option Exit × Sys :=
  let (r, s) := xr rt (XrCall.xrReleaseSwapchainImage eye) s
  if XR_FAILED r.result then (some Exit.threw, s) else (none, s)

/-- The member function `VrOpenXr::FrameEnd` (lines 382-445). -/
def FrameEnd (rt : Nat → XrAnswer) (s : Sys) : Exit × Sys :=
  let s := if s.vr.m_useD3DInterop then FrameEnd_flip rt 1 (FrameEnd_flip rt 0 s) else s
  let projectionViews : List XrCompositionLayerProjectionView :=
    [{ view := s.vr.m_xrViews 0, swapchain := 0 }, { view := s.vr.m_xrViews 1, swapchain := 1 }]
  match FrameEnd_release rt 0 s with
  | (some e, s) => (e, s)
  | (none, s) =>
    match FrameEnd_release rt 1 s with
    | (some e, s) => (e, s)
    | (none, s) =>
      -- endInfo.layerCount = m_xrFrameState.shouldRender ? 1 : 0;
      let endInfo : XrFrameEndInfo :=
        { displayTime := s.vr.m_xrFrameState.predictedDisplayTime
          layerCount := if s.vr.m_xrFrameState.shouldRender then 1 else 0
          projectionViews := projectionViews }
      -- endInfo.layerCount = 0;
      let endInfo : XrFrameEndInfo := { endInfo with layerCount := 0 }
      let (r, s) := xr rt (XrCall.xrEndFrame endInfo) s
      if XR_FAILED r.result then (Exit.threw, s) else (Exit.returned, s)

/-- The two frame entry points the engine calls through `hmd_openxr`:
`wrapper_frameStart` and `wrapper_frameEnd`. -/
inductive Op where
  | frameStart | frameEnd
deriving DecidableEq, Repr

/-- The wrappers `wrapper_frameStart` / `wrapper_frameEnd` (lines 734-740):
the member function is called with no `try` around it. -/
def wrapper (rt : Nat → XrAnswer) (fuel : Nat) (op : Op) (s : Sys) : Exit × Sys :=
  match op with
  | Op.frameStart => FrameStart rt fuel s
  | Op.frameEnd => FrameEnd rt s

/-- A sequence of wrapper calls made by the engine. An exception that leaves
a wrapper is caught by nothing (the callers are C code): the run ends there,
as it does when a call does not come back. -/
def runOps (rt : Nat → XrAnswer) (fuel : Nat) : List Op → Sys → Exit × Sys
  | [], s => (Exit.returned, s)
  | op :: ops, s =>
    match wrapper rt fuel op s with
    | (Exit.returned, s) => runOps rt fuel ops s
    | (e, s) => (e, s)

/-- The calls made by one `FrameStart` call entered in state `s`. -/
def FrameStart_calls (rt : Nat → XrAnswer) (fuel : Nat) (s : Sys) : List LogEntry :=
  (FrameStart rt fuel s).2.log.drop s.log.length

/-- The calls made by one `FrameEnd` call entered in state `s`. -/
def FrameEnd_calls (rt : Nat → XrAnswer) (s : Sys) : List LogEntry :=
  (FrameEnd rt s).2.log.drop s.log.length

/-! ### `Init`, the wrappers with a `try`, and `Shutdown` -/

/-- The handle value `XR_NULL_HANDLE` of `openxr.h`. -/
def XR_NULL_HANDLE : Nat := 0

/-- The value `XR_VIEW_CONFIGURATION_TYPE_PRIMARY_STEREO` of `openxr.h`. -/
def XR_VIEW_CONFIGURATION_TYPE_PRIMARY_STEREO : Nat := 2

/-- The value `XR_ENVIRONMENT_BLEND_MODE_OPAQUE` of `openxr.h`. -/
def XR_ENVIRONMENT_BLEND_MODE_OPAQUE : Nat := 1

/-- The extension name compared on line 80. -/
def XR_KHR_opengl_enable : String := "XR_KHR_opengl_enable"

/-- The extension name compared on line 78. -/
def XR_KHR_D3D11_enable : String := "XR_KHR_D3D11_enable"

/-- How a member function with an `int32_t` result is left: by `return`
with a value, or by a `throw`. -/
inductive IntExit where
  | returned (value : Int)
  | threw
deriving DecidableEq, Repr

/-- A `std::vector` of `size` elements, each initialised to `init`, after
the runtime has written `written` into it from the front (at most `size`
elements fit). -/
def filledVector {α : Type} (size : Nat) (init : α) (written : List α) : List α :=
  (written ++ List.replicate size init).take size

/-- The loop of lines 77-83 over the extension vector: the pair
`(hasOpenGlSupport, hasD3DSupport)`. -/
def Init_scanExtensions (extensions : List String) : Bool × Bool :=
  extensions.foldl
    (fun (flags : Bool × Bool) (extensionName : String) =>
      if extensionName = XR_KHR_D3D11_enable then (flags.1, true)
      else if extensionName = XR_KHR_opengl_enable then (true, flags.2)
      else flags)
    (false, false)

/-- The part of `Init` after the instance exists (lines 111-145): find the
system, then require the stereo view configuration and the opaque blend
mode, destroying the instance when one is missing. -/
def Init_system (rt : Nat → XrAnswer) (s : Sys) : IntExit × Sys :=
  let (sys, s) := xr rt (XrCall.xrGetSystem s.vr.m_xrInstance) s
  if XR_FAILED sys.result then (IntExit.threw, s)
  else
    let system := sys.handle
    let (vc, s) := xr rt (XrCall.xrEnumerateViewConfigurations s.vr.m_xrInstance system 0) s
    if XR_FAILED vc.result then (IntExit.threw, s)
    else
      let viewConfigurationsCount := vc.count
      let (vl, s) := xr rt (XrCall.xrEnumerateViewConfigurations s.vr.m_xrInstance system
        viewConfigurationsCount) s
      if XR_FAILED vl.result then (IntExit.threw, s)
      else
        let viewConfigurations := filledVector viewConfigurationsCount 0 vl.viewConfigurations
        let hasStereoSupport : Bool :=
          viewConfigurations.count XR_VIEW_CONFIGURATION_TYPE_PRIMARY_STEREO != 0
        if !hasStereoSupport then
          let s := (xr rt (XrCall.xrDestroyInstance s.vr.m_xrInstance) s).2
          (IntExit.returned 0, { s with vr := { s.vr with m_xrInstance := XR_NULL_HANDLE } })
        else
          let (bc, s) := xr rt (XrCall.xrEnumerateEnvironmentBlendModes s.vr.m_xrInstance
            system 0) s
          if XR_FAILED bc.result then (IntExit.threw, s)
          else
            let blendModesCount := bc.count
            let (bl, s) := xr rt (XrCall.xrEnumerateEnvironmentBlendModes s.vr.m_xrInstance
              system blendModesCount) s
            if XR_FAILED bl.result then (IntExit.threw, s)
            else
              let blendModes := filledVector blendModesCount 0 bl.blendModes
              let hasOpaqueBlendSupport : Bool :=
                blendModes.count XR_ENVIRONMENT_BLEND_MODE_OPAQUE != 0
              if !hasOpaqueBlendSupport then
                let s := (xr rt (XrCall.xrDestroyInstance s.vr.m_xrInstance) s).2
                (IntExit.returned 0, { s with vr := { s.vr with m_xrInstance := XR_NULL_HANDLE } })
              else (IntExit.returned 1, s)

/-- The member function `VrOpenXr::Init` (lines 68-146);
`WGLEW_NV_DX_interop2` is the flag of the GL extension loader. -/
def Init (rt : Nat → XrAnswer) (WGLEW_NV_DX_interop2 : Bool) (s : Sys) : IntExit × Sys :=
  let (ec, s) := xr rt (XrCall.xrEnumerateInstanceExtensionProperties 0) s
  if XR_FAILED ec.result then (IntExit.threw, s)
  else
    let extensionsCount := ec.count
    let (el, s) := xr rt (XrCall.xrEnumerateInstanceExtensionProperties extensionsCount) s
    if XR_FAILED el.result then (IntExit.threw, s)
    else
      let extensions := filledVector extensionsCount "" el.extensionNames
      let hasOpenGlSupport := (Init_scanExtensions extensions).1
      let hasD3DSupport := (Init_scanExtensions extensions).2
      if !hasOpenGlSupport && !WGLEW_NV_DX_interop2 then (IntExit.returned 0, s)
      else
        let create (extensionWanted : String) (s : Sys) : IntExit × Sys :=
          let (ci, s) := xr rt (XrCall.xrCreateInstance extensionWanted) s
          if XR_FAILED ci.result then (IntExit.threw, s)
          else Init_system rt { s with vr := { s.vr with m_xrInstance := ci.handle } }
        if hasOpenGlSupport then create XR_KHR_opengl_enable s
        else if hasD3DSupport then
          create XR_KHR_D3D11_enable { s with vr := { s.vr with m_useD3DInterop := true } }
        else (IntExit.returned 0, s)

/-- The wrapper `wrapper_init` (lines 707-714): an exception of `Init` is
caught and `0` is returned. -/
def wrapper_init (rt : Nat → XrAnswer) (WGLEW_NV_DX_interop2 : Bool) (s : Sys) : Int × Sys :=
  match Init rt WGLEW_NV_DX_interop2 s with
  | (IntExit.returned value, s) => (value, s)
  | (IntExit.threw, s) => (0, s)

/-- Log one call for each element of a list, in order. -/
def xrForEach (rt : Nat → XrAnswer) (call : Nat → XrCall) (items : List Nat) (s : Sys) : Sys :=
  items.foldl (fun s item => (xr rt (call item) s).2) s

/-- The body of the loop of `Shutdown` (lines 151-168) for one eye. -/
def Shutdown_eye (rt : Nat → XrAnswer) (s : Sys) (eye : Fin 2) : Sys :=
  let s := (xr rt (XrCall.xrDestroySwapchain (s.vr.m_xrSwapchain eye)) s).2
  if s.vr.m_useD3DInterop then
    let s := xrForEach rt XrCall.wglDXUnregisterObjectNV (s.vr.m_dxglInteropRenderBuffer eye) s
    let s : Sys := { s with vr := { s.vr with
      m_dxglInteropRenderBuffer := Function.update s.vr.m_dxglInteropRenderBuffer eye [] } }
    let s := xrForEach rt XrCall.glDeleteTextures (s.vr.m_glRenderBuffer eye) s
    { s with vr := { s.vr with
      m_glRenderBuffer := Function.update s.vr.m_glRenderBuffer eye [] } }
  else s

/-- The member function `VrOpenXr::Shutdown` (lines 149-188). -/
def Shutdown (rt : Nat → XrAnswer) (s : Sys) : Sys :=
  let s := [(0 : Fin 2), 1].foldl (Shutdown_eye rt) s
  let s := if s.vr.m_useD3DInterop then (xr rt XrCall.wglDXCloseDeviceNV s).2 else s
  let s := (xr rt (XrCall.xrDestroySession s.vr.m_xrSession) s).2
  let s : Sys := { s with vr := { s.vr with m_xrSession := XR_NULL_HANDLE } }
  let s := (xr rt (XrCall.xrDestroyInstance s.vr.m_xrInstance) s).2
  { s with vr := { s.vr with m_xrInstance := XR_NULL_HANDLE } }

/-! ### `Enable` and its helpers -/

/-- The macro `FAILED(hr)` of `winerror.h`: `(hr) < 0`. -/
def FAILED (hr : Int) : Bool :=
  decide (hr < 0)

/-- The code `DXGI_ERROR_NOT_FOUND` of `winerror.h` (`0x887A0002`), as the
signed 32-bit `HRESULT` it is. -/
def DXGI_ERROR_NOT_FOUND : Int := -2005270526

/-- The value `DXGI_FORMAT_R8G8B8A8_UNORM` of `dxgiformat.h`. -/
def DXGI_FORMAT_R8G8B8A8_UNORM : Int := 28

/-- The value `GL_TEXTURE_MIN_FILTER` of `gl.h`. -/
def GL_TEXTURE_MIN_FILTER : Nat := 0x2801

/-- The value `GL_LINEAR` of `gl.h`. -/
def GL_LINEAR : Nat := 0x2601

/-- The value `GL_TEXTURE_MAX_LEVEL` of `gl.h`. -/
def GL_TEXTURE_MAX_LEVEL : Nat := 0x813D

/-- The function name looked up on line 213. -/
def xrGetD3D11GraphicsRequirementsKHR_name : String := "xrGetD3D11GraphicsRequirementsKHR"

/-- The entry point of the vertex shader compiled on line 554. -/
def vsMain : String := "vsMain"

/-- The entry point of the pixel shader compiled on line 562. -/
def psMain : String := "psMain"

/-- The `while (true)` loop of `InitD3DResources` (lines 483-496), at most
`fuel` iterations, from `adapterIndex` on (a `UINT`). `some index`: the
adapter of that index has the requested LUID (`adapterValid`). An
`EnumAdapters` result other than `DXGI_ERROR_NOT_FOUND` is not looked at. -/
def InitD3DResources_adapters (rt : Nat → XrAnswer) (requestedAdapter : Nat) :
    Nat → Nat → Sys → Exit × Option Nat × Sys
  | 0, _, s => (Exit.outOfFuel, none, s)
  | fuel + 1, adapterIndex, s =>
    let (ea, s) := xr rt (XrCall.EnumAdapters adapterIndex) s
    if ea.result = DXGI_ERROR_NOT_FOUND then (Exit.returned, none, s)
    else
      let (gd, s) := xr rt (XrCall.GetDesc adapterIndex) s
      if FAILED gd.result then (Exit.threw, none, s)
      else if gd.handle = requestedAdapter then (Exit.returned, some adapterIndex, s)
      else InitD3DResources_adapters rt requestedAdapter fuel ((adapterIndex + 1) % 2 ^ 32) s

/-- The part of `InitD3DResources` after the adapter loop (lines 498-594):
the device, the two flip shaders, the sampler and the rasterizer state. The
COM objects created are not kept in the state; each creation is in the log. -/
def InitD3DResources_device (rt : Nat → XrAnswer) (adapter : Nat) (s : Sys) : Exit × Sys :=
  let (dev, s) := xr rt (XrCall.D3D11CreateDevice adapter) s
  if FAILED dev.result then (Exit.threw, s)
  else
    let (vs, s) := xr rt (XrCall.D3DCompile vsMain) s
    if FAILED vs.result then (Exit.threw, s)
    else
      let (cvs, s) := xr rt XrCall.CreateVertexShader s
      if FAILED cvs.result then (Exit.threw, s)
      else
        let (ps, s) := xr rt (XrCall.D3DCompile psMain) s
        if FAILED ps.result then (Exit.threw, s)
        else
          let (cps, s) := xr rt XrCall.CreatePixelShader s
          if FAILED cps.result then (Exit.threw, s)
          else
            let (smp, s) := xr rt XrCall.CreateSamplerState s
            if FAILED smp.result then (Exit.threw, s)
            else
              let (rs, s) := xr rt XrCall.CreateRasterizerState s
              if FAILED rs.result then (Exit.threw, s)
              else (Exit.returned, s)

/-- The member function `InitD3DResources` (lines 475-595);
`requestedAdapter` is the LUID to look for. -/
def InitD3DResources (rt : Nat → XrAnswer) (fuel : Nat) (requestedAdapter : Nat) (s : Sys) :
    Exit × Sys :=
  let (fac, s) := xr rt XrCall.CreateDXGIFactory1 s
  if FAILED fac.result then (Exit.threw, s)
  else
    match InitD3DResources_adapters rt requestedAdapter fuel 0 s with
    | (Exit.returned, some adapter, s) => InitD3DResources_device rt adapter s
    -- Throw("Cannot find adapter")
    | (Exit.returned, none, s) => (Exit.threw, s)
    | (exit, _, s) => (exit, s)

/-- The member function `InitD3DSwapchainImages` (lines 598-649): for each
swapchain image an interop texture, a GL texture, their registration and the
two views. Of the six `push_back`s the ones into
`m_dxglInteropRenderBuffer[eye]` and `m_glRenderBuffer[eye]` are kept. -/
def InitD3DSwapchainImages (rt : Nat → XrAnswer) (eye : Fin 2) : List Nat → Sys → Exit × Sys
  | [], s => (Exit.returned, s)
  | swapchainImage :: rest, s =>
    let (tx, s) := xr rt (XrCall.CreateTexture2D s.vr.m_xrSwapchainSize.1
      s.vr.m_xrSwapchainSize.2) s
    if FAILED tx.result then (Exit.threw, s)
    else
      let d3dBuffer := tx.handle
      let (gen, s) := xr rt XrCall.glGenTextures s
      let glBuffer := gen.handle
      let s := (xr rt (XrCall.glBindTexture glBuffer) s).2
      let s := (xr rt (XrCall.glTexParameteri GL_TEXTURE_MIN_FILTER GL_LINEAR) s).2
      let s := (xr rt (XrCall.glTexParameteri GL_TEXTURE_MAX_LEVEL 0) s).2
      let s := (xr rt (XrCall.glTexImage2D s.vr.m_xrSwapchainSize.1 s.vr.m_xrSwapchainSize.2) s).2
      let (reg, s) := xr rt (XrCall.wglDXRegisterObjectNV d3dBuffer glBuffer) s
      let interopBuffer := reg.handle
      if interopBuffer = 0 then (Exit.threw, s)
      else
        let (rtv, s) := xr rt (XrCall.CreateRenderTargetView swapchainImage) s
        if FAILED rtv.result then (Exit.threw, s)
        else
          let (srv, s) := xr rt (XrCall.CreateShaderResourceView d3dBuffer) s
          if FAILED srv.result then (Exit.threw, s)
          else
            InitD3DSwapchainImages rt eye rest { s with vr := { s.vr with
              m_dxglInteropRenderBuffer := Function.update s.vr.m_dxglInteropRenderBuffer eye
                (s.vr.m_dxglInteropRenderBuffer eye ++ [interopBuffer])
              m_glRenderBuffer := Function.update s.vr.m_glRenderBuffer eye
                (s.vr.m_glRenderBuffer eye ++ [glBuffer]) } }

/-- The member function `InitGLResources` (lines 652-659). -/
def InitGLResources (rt : Nat → XrAnswer) (s : Sys) : Exit × Sys :=
  if s.vr.m_useD3DInterop then
    let (dev, s) := xr rt XrCall.wglDXOpenDeviceNV s
    let s : Sys := { s with vr := { s.vr with m_dxglInterop := some dev.handle } }
    if dev.handle = 0 then (Exit.threw, s) else (Exit.returned, s)
  else (Exit.returned, s)

/-- Lines 208-220 of `Enable`: the graphics resources. -/
def Enable_graphics (rt : Nat → XrAnswer) (fuel : Nat) (systemId : Nat) (s : Sys) : Exit × Sys :=
  let r : Exit × Sys :=
    if s.vr.m_useD3DInterop then
      let (pa, s) := xr rt (XrCall.xrGetInstanceProcAddr s.vr.m_xrInstance
        xrGetD3D11GraphicsRequirementsKHR_name) s
      if XR_FAILED pa.result then (Exit.threw, s)
      else
        let (rq, s) := xr rt (XrCall.xrGetD3D11GraphicsRequirementsKHR s.vr.m_xrInstance
          systemId) s
        if XR_FAILED rq.result then (Exit.threw, s)
        else InitD3DResources rt fuel rq.handle s
    else (Exit.returned, s)
  match r with
  | (Exit.returned, s) => InitGLResources rt s
  | other => other

/-- The loop of lines 247-252 over the view vector: the preferred swapchain
width and height are those of the first view with a non-zero width;
`preferredSwapchainHeight` has no initial value (`none`). -/
def Enable_preferredSize (views : List (Nat × Nat)) : Nat × Option Nat :=
  views.foldl
    (fun (preferred : Nat × Option Nat) (view : Nat × Nat) =>
      if preferred.1 = 0 then (view.1, some view.2) else preferred)
    (0, none)

/-- The body of the swapchain loop of `Enable` (lines 254-287) for one eye.
`format` is `preferredSwapchainFormat`, which has a value only with
interop. -/
def Enable_eye (rt : Nat → XrAnswer) (format : Option Int) (width : Nat) (height : Option Nat)
    (s : Sys) (eye : Fin 2) : Exit × Sys :=
  let (sc, s) := xr rt (XrCall.xrCreateSwapchain s.vr.m_xrSession format width height) s
  if XR_FAILED sc.result then (Exit.threw, s)
  else
    let s : Sys := { s with vr := { s.vr with
      m_xrSwapchain := Function.update s.vr.m_xrSwapchain eye sc.handle
      m_xrSwapchainSize := (some width, height)
      m_xrSwapchainFormat := format } }
    let (ic, s) := xr rt (XrCall.xrEnumerateSwapchainImages (s.vr.m_xrSwapchain eye) 0) s
    if XR_FAILED ic.result then (Exit.threw, s)
    else
      let swapchainImagesCount := ic.count
      let (il, s) := xr rt (XrCall.xrEnumerateSwapchainImages (s.vr.m_xrSwapchain eye)
        swapchainImagesCount) s
      if XR_FAILED il.result then (Exit.threw, s)
      else
        let swapchainImages := filledVector swapchainImagesCount 0 il.images
        if s.vr.m_useD3DInterop then InitD3DSwapchainImages rt eye swapchainImages s
        else
          (Exit.returned, { s with vr := { s.vr with
            m_glRenderBuffer := Function.update s.vr.m_glRenderBuffer eye
              (s.vr.m_glRenderBuffer eye ++ swapchainImages) } })

/-- Lines 238-292 of `Enable`: the session, the two swapchains and the
reference space. -/
def Enable_create (rt : Nat → XrAnswer) (system systemId : Nat) (s : Sys) : Exit × Sys :=
  let preferredSwapchainFormat : Option Int :=
    if s.vr.m_useD3DInterop then some DXGI_FORMAT_R8G8B8A8_UNORM else none
  let (cs, s) := xr rt (XrCall.xrCreateSession s.vr.m_xrInstance systemId
    s.vr.m_useD3DInterop) s
  if XR_FAILED cs.result then (Exit.threw, s)
  else
    let s : Sys := { s with vr := { s.vr with m_xrSession := cs.handle } }
    let (vc, s) := xr rt (XrCall.xrEnumerateViewConfigurationViews s.vr.m_xrInstance system 0) s
    if XR_FAILED vc.result then (Exit.threw, s)
    else
      let viewsCount := vc.count
      let (vl, s) := xr rt (XrCall.xrEnumerateViewConfigurationViews s.vr.m_xrInstance system
        viewsCount) s
      if XR_FAILED vl.result then (Exit.threw, s)
      else
        let views := filledVector viewsCount (0, 0) vl.views
        let preferred := Enable_preferredSize views
        match Enable_eye rt preferredSwapchainFormat preferred.1 preferred.2 s 0 with
        | (Exit.returned, s) =>
          match Enable_eye rt preferredSwapchainFormat preferred.1 preferred.2 s 1 with
          | (Exit.returned, s) =>
            let (sp, s) := xr rt (XrCall.xrCreateReferenceSpace s.vr.m_xrSession) s
            if XR_FAILED sp.result then (Exit.threw, s)
            else (Exit.returned, { s with vr := { s.vr with m_xrSpace := some sp.handle } })
          | other => other
        | other => other

/-- The block of `Enable` that runs when there is no session yet (lines
197-293). -/
def Enable_session (rt : Nat → XrAnswer) (fuel : Nat) (s : Sys) : Exit × Sys :=
  let (sys, s) := xr rt (XrCall.xrGetSystem s.vr.m_xrInstance) s
  if XR_FAILED sys.result then (Exit.threw, s)
  else
    let system := sys.handle
    let (sp, s) := xr rt (XrCall.xrGetSystemProperties s.vr.m_xrInstance system) s
    if XR_FAILED sp.result then (Exit.threw, s)
    else
      let systemId := sp.handle
      match Enable_graphics rt fuel systemId s with
      | (Exit.returned, s) => Enable_create rt system systemId s
      | other => other

/-- The member function `VrOpenXr::Enable` (lines 191-298). `none`: the
adapter loop of `InitD3DResources` did not end within `fuel` iterations. -/
def Enable (rt : Nat → XrAnswer) (fuel : Nat) (s : Sys) : Option (IntExit × Sys) :=
  if s.vr.m_xrInstance = XR_NULL_HANDLE then some (IntExit.returned 0, s)
  else if s.vr.m_xrSession = XR_NULL_HANDLE then
    match Enable_session rt fuel s with
    | (Exit.returned, s) => some (IntExit.returned 1, s)
    | (Exit.threw, s) => some (IntExit.threw, s)
    | (Exit.outOfFuel, _) => none
  else some (IntExit.returned 1, s)

/-- The wrapper `wrapper_enable` (lines 720-728): an exception of `Enable`
is caught and `0` is returned. -/
def wrapper_enable (rt : Nat → XrAnswer) (fuel : Nat) (s : Sys) : Option (Int × Sys) :=
  (Enable rt fuel s).map (fun r =>
    match r with
    | (IntExit.returned value, s) => (value, s)
    | (IntExit.threw, s) => (0, s))

/-! ## Part 2b. The renderer state of `r_vr_rift.c`

The functions that own GPU resources. Calls into the SDK, the engine and GL
are appended to a log; what the SDK creates is an input. -/

section RiftRenderer

variable {K : Type} [LinearOrderedField K] [FloorRing K]

/-- The part of an `ovrGLTexture` the file reads: the size in its header and
the GL texture name `OGL.TexId`. -/
structure ovrGLTextureData where
  TextureSize : ovrSizei
  TexId : Nat
deriving DecidableEq, Repr

/-- The SDK type `ovrSwapTextureSet`; `id` names the runtime object that a
pointer to the set points to. -/
structure ovrSwapTextureSet where
  id : Nat
  Textures : List ovrGLTextureData
  TextureCount : Nat
  CurrentIndex : Nat
deriving DecidableEq, Repr

/-- The mirror texture behind the pointer `mirrorTexture`; `id` names the
runtime object. -/
structure ovrMirrorTexture where
  id : Nat
  TexId : Nat
deriving DecidableEq, Repr

/-- The SDK type `ovrRecti`: position and size. -/
structure ovrRecti where
  x : Int
  y : Int
  w : Int
  h : Int
deriving DecidableEq, Repr

/-- The fields of the global `swapLayer` (an `ovrLayerEyeFov`) the file
writes; a `ColorTexture` pointer is the `id` of the set it points to. -/
structure ovrLayerEyeFov (K : Type) where
  Flags : Nat
  LayerType : Nat
  ColorTexture : Fin 2 → Option Nat
  Viewport : Fin 2 → ovrRecti
  Fov : Fin 2 → ovrFovPort K
  RenderPose : Fin 2 → ovrPosef K

/-- The frame buffer objects of the file. -/
inductive FboRef where
  | swapFBO
  | eyeFBO (eye : Fin 2)
deriving DecidableEq, Repr

/-- The calls of `r_vr_rift.c` to the SDK, the engine and GL that the model
records. -/
inductive RiftCall where
  | ovrHmd_DestroySwapTextureSet (set : Nat)
  | ovrHmd_DestroyMirrorTexture (texture : Nat)
  | ovrHmd_CreateSwapTextureSetGL (width : Nat) (height : Nat)
  | ovrHmd_CreateMirrorTextureGL (width : Nat) (height : Nat)
  | R_DelFBO (fbo : FboRef)
  | R_GenFBOWithoutTexture (width : Int) (height : Int)
  | R_ResizeFBO (eye : Fin 2) (width : Int) (height : Int)
  | R_ClearFBO (eye : Fin 2)
  | R_BindFBO (fbo : FboRef)
  | glFramebufferTexture2DEXT (texture : Nat)
  | R_Clear
  | R_SetupBlit
  | R_TeardownBlit
  | glViewport (x : Int) (y : Int) (width : Int) (height : Int)
  | R_BlitWithGammaFlipped (texture : Nat)
  | R_BlitTextureToScreen (texture : Nat)
  | ovrHmd_SubmitFrame (colorTexture0 : Option Nat) (colorTexture1 : Option Nat)
      (currentIndex : Nat)
  | Cvar_SetInteger (value : Int)
  | Cvar_ForceSet
deriving DecidableEq, Repr

/-- What the renderer functions take from outside the file, on top of
`RiftEnv`: the SDK query `ovrHmd_GetFovTextureSize`; what the SDK creates at
the call logged at a given position (`none`: the creation fails and the
pointer is left as it was); the engine helpers `R_ResizeFBO`, `R_ClearFBO`,
`R_DelFBO` and `R_MakePerspectiveFromScale` and the value a cvar holds after
`Cvar_SetInteger` (files not under src/, taken as parameters); the
`FBO_...` status bits and GL format codes; the C library `tanf`; the camera frustum of `*hmd`; the head pose of
`trackingState`; and the engine settings `glConfig.arb_texture_float`,
`glConfig.render_width/height` and `R_AntialiasGetScale()`. -/
structure RendererEnv (K : Type) extends RiftEnv K where
  ovrHmd_GetFovTextureSize : Fin 2 → ovrFovPort K → K → ovrSizei
  createSwapTextureSet : Nat → Option ovrSwapTextureSet
  createMirrorTexture : Nat → Option ovrMirrorTexture
  R_ResizeFBO : Int → Int → fbo_t → fbo_t
  R_ClearFBO : fbo_t → fbo_t
  R_DelFBO : fbo_t → fbo_t
  R_MakePerspectiveFromScale : eyeScaleOffset_t K → K → K → mat4_t K
  Cvar_SetInteger : Int → K
  FBO_VALID : Nat
  FBO_GENERATED_DEPTH : Nat
  FBO_SRGB : Nat
  GL_SRGB8 : Nat
  GL_SRGB8_ALPHA8 : Nat
  tanf : K → K
  CameraFrustumHFovInRadians : K
  CameraFrustumVFovInRadians : K
  CameraFrustumNearZInMeters : K
  CameraFrustumFarZInMeters : K
  HeadPose : ovrPosef K
  arb_texture_float : Bool
  render_width : Int
  render_height : Int
  R_AntialiasGetScale : K

/-- The file-level variables of `r_vr_rift.c` that the renderer functions
read or write, the `modified` flag of the cvar `vr_rift_maxfov`, and the log
of the calls made so far. A null pointer is `none`; a pointer keeps its
value when the object it points to is destroyed. -/
structure RiftState (K : Type) where
  g : RiftGlobals K
  currentState : vr_param_t K
  swapFBO : fbo_t
  currentFBO : Nat
  swapTextures : Option ovrSwapTextureSet
  mirrorTexture : Option ovrMirrorTexture
  swapLayer : ovrLayerEyeFov K
  cameraFrustum : mat4_t K
  vr_rift_maxfov_modified : Bool
  log : List RiftCall

/-- The value of `ovrLayerType_EyeFov` in the SDK. -/
def ovrLayerType_EyeFov : Nat := 1

/-- The function `R_GenFBOWithoutTexture` (lines 72-107): the object written
to `*FBO`, of which `fbo_t` keeps the size, the texture name and the
status (the GL names of the new framebuffer and depth buffer are not kept). -/
def R_GenFBOWithoutTexture (env : RendererEnv K) (width height : Int) (format : Nat) : fbo_t :=
  { width := width
    height := height
    texture := 0
    status :=
      if format = env.GL_SRGB8 ∨ format = env.GL_SRGB8_ALPHA8 then
        (env.FBO_VALID ||| env.FBO_GENERATED_DEPTH) ||| env.FBO_SRGB
      else env.FBO_VALID ||| env.FBO_GENERATED_DEPTH }

/-- A C conversion of a floating-point value to an integer type: the
fraction is dropped (rounding toward zero). -/
def truncToInt (x : K) : Int :=
  if 0 ≤ x then ⌊x⌋ else ⌈x⌉

/-- The body of the loop of `Rift_SetOffscreenSize` (lines 192-206). -/
def Rift_SetOffscreenSize_eye (env : RendererEnv K) (ovrScale : K) (s : RiftState K)
    (i : Fin 2) : RiftState K :=
  -- ovrRecti viewport = { { i * swapFBO.width / 2.0, 0 }, { swapFBO.width / 2.0, swapFBO.height } }
  let viewport : ovrRecti :=
    { x := Int.tdiv ((i.val : Int) * s.swapFBO.width) 2, y := 0
      w := Int.tdiv s.swapFBO.width 2, h := s.swapFBO.height }
  let renderTarget := env.ovrHmd_GetFovTextureSize i (s.g.renderInfo i).eyeFov ovrScale
  let s : RiftState K := { s with g := { s.g with
    renderInfo := Function.update s.g.renderInfo i
      { s.g.renderInfo i with renderTarget := renderTarget } } }
  let s : RiftState K :=
    if renderTarget.w ≠ (s.g.renderInfo i).eyeFBO.width
        ∨ renderTarget.h ≠ (s.g.renderInfo i).eyeFBO.height then
      let resized := env.R_ResizeFBO renderTarget.w renderTarget.h (s.g.renderInfo i).eyeFBO
      let cleared := env.R_ClearFBO resized
      { s with
        g := { s.g with
          renderInfo := Function.update s.g.renderInfo i
            { s.g.renderInfo i with eyeFBO := cleared } }
        log := s.log ++ [RiftCall.R_ResizeFBO i renderTarget.w renderTarget.h,
                         RiftCall.R_ClearFBO i] }
    else s
  { s with swapLayer := { s.swapLayer with
      Viewport := Function.update s.swapLayer.Viewport i viewport
      ColorTexture := Function.update s.swapLayer.ColorTexture i
        (s.swapTextures.map (fun set => set.id))
      Fov := Function.update s.swapLayer.Fov i (s.g.renderInfo i).eyeFov } }

/-- Lines 163-179 of `Rift_SetOffscreenSize`: recompute the state, destroy
the swap texture set and the mirror texture when their pointers are not
null, create new ones, reset `currentFBO`. The result codes of the two
creations are not looked at. The uninitialised local of
`Rift_CalculateState` is stood for by the old `currentState`. -/
def Rift_SetOffscreenSize_recreate (env : RendererEnv K) (width height : Nat)
    (s : RiftState K) : RiftState K :=
  -- Rift_CalculateState(&currentState)
  let computed := Rift_CalculateState env.toRiftEnv s.g s.currentState
  let s : RiftState K := { s with g := computed.1, currentState := computed.2 }
  let s : RiftState K :=
    match s.swapTextures with
    | some set => { s with log := s.log ++ [RiftCall.ovrHmd_DestroySwapTextureSet set.id] }
    | none => s
  let s : RiftState K :=
    match s.mirrorTexture with
    | some texture => { s with log := s.log ++ [RiftCall.ovrHmd_DestroyMirrorTexture texture.id] }
    | none => s
  let s : RiftState K :=
    { s with
      swapTextures := (env.createSwapTextureSet s.log.length).orElse (fun _ => s.swapTextures)
      log := s.log ++ [RiftCall.ovrHmd_CreateSwapTextureSetGL width height] }
  let s : RiftState K :=
    { s with
      mirrorTexture := (env.createMirrorTexture s.log.length).orElse (fun _ => s.mirrorTexture)
      log := s.log ++ [RiftCall.ovrHmd_CreateMirrorTextureGL width height] }
  { s with currentFBO := 0 }

/-- The render-target scale of lines 165-168: the mean of `width` and
`height` relative to the resolution of the headset. -/
def Rift_SetOffscreenSize_scale (env : RendererEnv K) (width height : Nat) : K :=
  let w : K := (width : K) / (env.hmd.Resolution.w : K)
  let h : K := (height : K) / (env.hmd.Resolution.h : K)
  (w + h) / 2

/-- Lines 182-188 of `Rift_SetOffscreenSize`: the swap FBO is deleted and
generated again with the size of the first texture of the set, and the
header of `swapLayer` is filled in. -/
def Rift_SetOffscreenSize_swapFBO (env : RendererEnv K) (set : ovrSwapTextureSet)
    (s : RiftState K) : RiftState K :=
  -- R_DelFBO(&swapFBO)
  let s : RiftState K :=
    { s with swapFBO := env.R_DelFBO s.swapFBO
             log := s.log ++ [RiftCall.R_DelFBO FboRef.swapFBO] }
  let tex := set.Textures.getD 0 { TextureSize := { w := 0, h := 0 }, TexId := 0 }
  let s : RiftState K :=
    { s with swapFBO := R_GenFBOWithoutTexture env tex.TextureSize.w tex.TextureSize.h env.GL_SRGB8
             log := s.log ++ [RiftCall.R_GenFBOWithoutTexture tex.TextureSize.w tex.TextureSize.h] }
  { s with swapLayer := { s.swapLayer with Flags := 0, LayerType := ovrLayerType_EyeFov } }

/-- The render target that `Rift_SetOffscreenSize` asks the SDK for, for eye
`i` (line 194): `ovrHmd_GetFovTextureSize` at the selected FOV and scale. -/
def Rift_SetOffscreenSize_target (env : RendererEnv K) (width height : Nat) (i : Fin 2) :
    ovrSizei :=
  env.ovrHmd_GetFovTextureSize i (selectEyeFov env.toRiftEnv i)
    (Rift_SetOffscreenSize_scale env width height)

/-- The function `Rift_SetOffscreenSize` (lines 156-211). `none`: the null
pointer `swapTextures` is dereferenced on line 180. -/
def Rift_SetOffscreenSize (env : RendererEnv K) (width height : Nat) (s : RiftState K) :
    Option (RiftState K) :=
  let s := Rift_SetOffscreenSize_recreate env width height s
  match s.swapTextures with
  | none => none
  | some set =>
    some ([(0 : Fin 2), 1].foldl
      (Rift_SetOffscreenSize_eye env (Rift_SetOffscreenSize_scale env width height))
      (Rift_SetOffscreenSize_swapFBO env set s))

/-- The function `Rift_DrawToHMD` (lines 300-323). `none`: the null pointer
`swapTextures` is dereferenced, or the remainder on line 322 divides by
zero. `currentFBO` is a `uint32_t`. -/
def Rift_DrawToHMD (env : RendererEnv K) (s : RiftState K) : Option (RiftState K) :=
  match s.swapTextures with
  | none => none
  | some set =>
    -- ovrGLTextureData *tex = &swapTextures->Textures[currentFBO]
    let tex := set.Textures.getD s.currentFBO { TextureSize := { w := 0, h := 0 }, TexId := 0 }
    let swapLayer : ovrLayerEyeFov K :=
      { s.swapLayer with RenderPose := fun _ => env.HeadPose }
    -- swapTextures->CurrentIndex = currentFBO
    let set : ovrSwapTextureSet := { set with CurrentIndex := s.currentFBO }
    let log := s.log ++
      [RiftCall.R_BindFBO FboRef.swapFBO,
       RiftCall.glFramebufferTexture2DEXT tex.TexId,
       RiftCall.R_Clear,
       RiftCall.R_SetupBlit,
       RiftCall.glViewport 0 0 (Int.tdiv s.swapFBO.width 2) s.swapFBO.height,
       RiftCall.R_BlitWithGammaFlipped (s.g.renderInfo 0).eyeFBO.texture,
       RiftCall.glViewport (Int.tdiv s.swapFBO.width 2) 0 (Int.tdiv s.swapFBO.width 2)
         s.swapFBO.height,
       RiftCall.R_BlitWithGammaFlipped (s.g.renderInfo 0).eyeFBO.texture,
       RiftCall.R_TeardownBlit,
       RiftCall.glFramebufferTexture2DEXT 0,
       RiftCall.ovrHmd_SubmitFrame (swapLayer.ColorTexture 0) (swapLayer.ColorTexture 1)
         set.CurrentIndex]
    if set.TextureCount % 2 ^ 32 = 0 then none
    else
      some { s with
        swapLayer := swapLayer
        swapTextures := some set
        log := log
        currentFBO := ((s.currentFBO + 1) % 2 ^ 32) % (set.TextureCount % 2 ^ 32) }

/-- The blits of `Rift_Present` (lines 289-297) into `destination`. -/
def Rift_Present_blits (destination : fbo_t) (s : RiftState K) : List RiftCall :=
  [RiftCall.R_SetupBlit,
   RiftCall.glViewport 0 0 (Int.tdiv destination.width 2) destination.height,
   RiftCall.R_BlitTextureToScreen (s.g.renderInfo 0).eyeFBO.texture,
   RiftCall.glViewport (Int.tdiv destination.width 2) 0 (Int.tdiv destination.width 2)
     destination.height,
   RiftCall.R_BlitTextureToScreen (s.g.renderInfo 1).eyeFBO.texture,
   RiftCall.R_TeardownBlit]

/-- The loop shared by `Rift_Enable` (lines 341-345) and `Rift_Disable`
(lines 366-370), for one eye: delete the eye FBO when its status is set. -/
def Rift_deleteEyeFBO (env : RendererEnv K) (s : RiftState K) (i : Fin 2) : RiftState K :=
  if (s.g.renderInfo i).eyeFBO.status ≠ 0 then
    { s with
      g := { s.g with
        renderInfo := Function.update s.g.renderInfo i
          { s.g.renderInfo i with eyeFBO := env.R_DelFBO (s.g.renderInfo i).eyeFBO } }
      log := s.log ++ [RiftCall.R_DelFBO (FboRef.eyeFBO i)] }
  else s

/-- The function `Rift_Enable` (lines 332-355): the value returned and the
new state. -/
def Rift_Enable (env : RendererEnv K) (s : RiftState K) : Int × RiftState K :=
  if !env.arb_texture_float then (0, s)
  else
    let s := [(0 : Fin 2), 1].foldl (Rift_deleteEyeFBO env) s
    let camera : eyeScaleOffset_t K :=
      { x := { offset := 0, scale := 1 / env.tanf (env.CameraFrustumHFovInRadians * 0.5) }
        y := { offset := 0, scale := 1 / env.tanf (env.CameraFrustumVFovInRadians * 0.5) } }
    (1, { s with
      cameraFrustum := env.R_MakePerspectiveFromScale camera env.CameraFrustumNearZInMeters
        env.CameraFrustumFarZInMeters
      log := s.log ++ [RiftCall.Cvar_ForceSet] })

/-- The function `Rift_Disable` (lines 357-371). The two pointers are not
reset after the objects are destroyed. -/
def Rift_Disable (env : RendererEnv K) (s : RiftState K) : RiftState K :=
  let s : RiftState K :=
    match s.swapTextures with
    | some set => { s with log := s.log ++ [RiftCall.ovrHmd_DestroySwapTextureSet set.id] }
    | none => s
  let s : RiftState K :=
    match s.mirrorTexture with
    | some texture => { s with log := s.log ++ [RiftCall.ovrHmd_DestroyMirrorTexture texture.id] }
    | none => s
  [(0 : Fin 2), 1].foldl (Rift_deleteEyeFBO env) s

/-- The function `Rift_FrameStart` (lines 213-231): the environment (the
value of the cvar can change) and the new state; `none` when
`Rift_SetOffscreenSize` dereferences a null pointer. The arguments of
`Rift_SetOffscreenSize` are `float`s converted to `uint32_t`. -/
def Rift_FrameStart (env : RendererEnv K) (s : RiftState K) :
    Option (RendererEnv K × RiftState K) :=
  if s.vr_rift_maxfov_modified then
    let newValue : Int := if env.vr_rift_maxfov_value ≠ 0 then 1 else 0
    let (env, s) : RendererEnv K × RiftState K :=
      if newValue ≠ truncToInt env.vr_rift_maxfov_value then
        ({ env with vr_rift_maxfov_value := env.Cvar_SetInteger newValue },
         { s with log := s.log ++ [RiftCall.Cvar_SetInteger newValue] })
      else (env, s)
    -- changed = true; vr_rift_maxfov->modified = false
    let s : RiftState K := { s with vr_rift_maxfov_modified := false }
    let scale := env.R_AntialiasGetScale
    let w : K := (env.render_width : K) * scale
    let h : K := (env.render_height : K) * scale
    (Rift_SetOffscreenSize env ((truncToInt w).toNat % 2 ^ 32) ((truncToInt h).toNat % 2 ^ 32) s).map
      (fun s => (env, s))
  else some (env, s)

/-- Repeated `Rift_DrawToHMD` calls, one per frame. -/
def Rift_DrawToHMD_times (env : RendererEnv K) : Nat → RiftState K → Option (RiftState K)
  | 0, s => some s
  | n + 1, s => (Rift_DrawToHMD_times env n s).bind (Rift_DrawToHMD env)

end RiftRenderer

/-! ### Sample inputs -/

/-- A sample environment of `Rift_CalculateState`: an asymmetric default FOV
for the left eye, a symmetric one for the right eye, and wider maximum FOVs. -/
def sampleRiftEnv {K : Type} [LinearOrderedField K] (atanf : K → K) (pi maxfov : K) : RiftEnv K :=
  { hmd :=
      { DefaultEyeFov := fun eye =>
          if eye = 0 then { UpTan := 1, DownTan := 3, LeftTan := 1, RightTan := 1 / 2 }
          else { UpTan := 3 / 4, DownTan := 3 / 4, LeftTan := 1, RightTan := 1 }
        MaxEyeFov := fun eye =>
          if eye = 0 then { UpTan := 2, DownTan := 3, LeftTan := 2, RightTan := 1 }
          else { UpTan := 2, DownTan := 3, LeftTan := 1, RightTan := 2 }
        Resolution := { w := 2160, h := 1200 } }
    ovrHmd_GetRenderDesc := fun eye fov =>
      { Eye := eye, Fov := fov
        HmdToEyeViewOffset := { x := if eye = 0 then -4 else 4, y := 1, z := 2 } }
    atanf := atanf
    M_PI := pi
    vr_rift_maxfov_value := maxfov
    vid_width := 1080 }

/-- Sample globals of `r_vr_rift.c` before `Rift_CalculateState` runs. -/
def sampleRiftGlobals {K : Type} [LinearOrderedField K] : RiftGlobals K :=
  { renderInfo := fun _ =>
      { eyeFBO := { width := 0, height := 0, texture := 0, status := 0 }
        renderTarget := { w := 0, h := 0 }
        eyeFov := { UpTan := 0, DownTan := 0, LeftTan := 0, RightTan := 0 } }
    eyeDesc := fun eye =>
      { Eye := eye, Fov := { UpTan := 0, DownTan := 0, LeftTan := 0, RightTan := 0 }
        HmdToEyeViewOffset := { x := 0, y := 0, z := 0 } } }

/-- A sample content of the uninitialised local `ovrState`. -/
def sampleJunk {K : Type} [LinearOrderedField K] : vr_param_t K :=
  { eyeFBO := fun _ => 1
    renderParams := fun _ =>
      { projection := { x := { scale := 7, offset := 7 }, y := { scale := 7, offset := 7 } }
        viewOffset := { v0 := 7, v1 := 7, v2 := 7 } }
    aspect := 7, viewFovY := 7, viewFovX := 7, pixelScale := 7 }

/-- A sample environment of `Rift_Present`: the camera sits at the origin
with no rotation (the rotation helpers return the identity matrix,
`MatrixMultiply` is the matrix product and `cameraFrustum` is the identity),
position tracking is on with a lock, and the head is at `head` with the
camera yaw `yaw`. -/
def samplePresentEnv {K : Type} [LinearOrderedField K] (head : ovrVector3f K) (yaw : K) :
    PresentEnv K :=
  { VR_Rift_QuatToEuler := fun q => { v0 := q.x, v1 := q.y, v2 := q.z }
    EulerToQuat := fun e => { v0 := e.v0, v1 := e.v1, v2 := e.v2, v3 := 1 }
    QuatToRotation := fun _ i j => if i = j then 1 else 0
    MatrixMultiply := fun a b i j => a i 0 * b 0 j + a i 1 * b 1 j + a i 2 * b 2 j + a i 3 * b 3 j
    ovrStatus_PositionConnected := 0x20
    vr_rift_trackingloss_value := 1
    renderExport := { positionTracked := true, hasPositionLock := true, cameraYaw := yaw }
    trackingState :=
      { HeadPose := { Orientation := { x := 0, y := 0, z := 0, w := 1 }, Position := head }
        CameraPose := { Orientation := { x := 0, y := 0, z := 0, w := 1 }
                        Position := { x := 0, y := 0, z := 0 } }
        StatusFlags := 0x23 }
    cameraFrustum := fun i j => if i = j then 1 else 0 }

/-- A sample renderer environment over the sample headset: each creation
yields a set of two 2364 x 1464 textures (GL names 31 and 32) and a mirror
texture whose ids are derived from the position of the call; the eye targets
are 1182 x 1464; `R_ResizeFBO` sets the size, `R_ClearFBO` changes nothing,
`R_DelFBO` zeroes the object. -/
def sampleRendererEnv {K : Type} [LinearOrderedField K] (maxfov : K) : RendererEnv K :=
  { toRiftEnv := sampleRiftEnv (fun x => x) 3 maxfov
    ovrHmd_GetFovTextureSize := fun _ _ _ => { w := 1182, h := 1464 }
    createSwapTextureSet := fun n =>
      some { id := 100 + n
             Textures := [{ TextureSize := { w := 2364, h := 1464 }, TexId := 31 },
                          { TextureSize := { w := 2364, h := 1464 }, TexId := 32 }]
             TextureCount := 2
             CurrentIndex := 0 }
    createMirrorTexture := fun n => some { id := 200 + n, TexId := 40 }
    R_ResizeFBO := fun w h fbo => { fbo with width := w, height := h, status := 1 }
    R_ClearFBO := fun fbo => fbo
    R_DelFBO := fun _ => { width := 0, height := 0, texture := 0, status := 0 }
    R_MakePerspectiveFromScale := fun camera _ _ i j =>
      if i = j then (if i = 0 then camera.x.scale else camera.y.scale) else 0
    Cvar_SetInteger := fun value => (value : K)
    FBO_VALID := 1
    FBO_GENERATED_DEPTH := 4
    FBO_SRGB := 8
    GL_SRGB8 := 0x8C41
    GL_SRGB8_ALPHA8 := 0x8C43
    tanf := fun x => x
    CameraFrustumHFovInRadians := 1
    CameraFrustumVFovInRadians := 1
    CameraFrustumNearZInMeters := 1
    CameraFrustumFarZInMeters := 3
    HeadPose := { Orientation := { x := 0, y := 0, z := 0, w := 1 }
                  Position := { x := 0, y := 0, z := 0 } }
    arb_texture_float := true
    render_width := 2364
    render_height := 1464
    R_AntialiasGetScale := 1 }

/-- A sample renderer state before the first `Rift_SetOffscreenSize`: no
swap textures yet, the two eye FBOs initialised with the GL texture names 21
(left) and 22 (right), the cvar `vr_rift_maxfov` marked modified. -/
def sampleRiftState {K : Type} [LinearOrderedField K] : RiftState K :=
  { g :=
      { renderInfo := fun eye =>
          { eyeFBO := { width := 0, height := 0, texture := if eye = 0 then 21 else 22, status := 0 }
            renderTarget := { w := 0, h := 0 }
            eyeFov := { UpTan := 0, DownTan := 0, LeftTan := 0, RightTan := 0 } }
        eyeDesc := sampleRiftGlobals.eyeDesc }
    currentState := sampleJunk
    swapFBO := { width := 0, height := 0, texture := 0, status := 0 }
    currentFBO := 0
    swapTextures := none
    mirrorTexture := none
    swapLayer :=
      { Flags := 0, LayerType := 0, ColorTexture := fun _ => none
        Viewport := fun _ => { x := 0, y := 0, w := 0, h := 0 }
        Fov := fun _ => { UpTan := 0, DownTan := 0, LeftTan := 0, RightTan := 0 }
        RenderPose := fun _ => { Orientation := { x := 0, y := 0, z := 0, w := 1 }
                                 Position := { x := 0, y := 0, z := 0 } } }
    cameraFrustum := fun _ _ => 0
    vr_rift_maxfov_modified := true
    log := [] }

/-! ### Properties of call logs -/

/-- A session-state change to `STOPPING`, `EXITING` or `LOSS_PENDING`. -/
def isSessionStop : XrEvent → Bool
  | XrEvent.SESSION_STATE_CHANGED XrSessionState.STOPPING => true
  | XrEvent.SESSION_STATE_CHANGED XrSessionState.EXITING => true
  | XrEvent.SESSION_STATE_CHANGED XrSessionState.LOSS_PENDING => true
  | _ => false

/-- The events that end the session: a session-state change to `STOPPING`,
`EXITING` or `LOSS_PENDING`, and the instance-loss event. -/
def isStopEvent (event : XrEvent) : Bool :=
  isSessionStop event || decide (event = XrEvent.INSTANCE_LOSS_PENDING)

/-- The log entry is an `xrPollEvent` call that delivered an event: it
neither failed nor answered `XR_EVENT_UNAVAILABLE`. -/
def polledEvent (e : LogEntry) : Bool :=
  decide (e.call = XrCall.xrPollEvent) && !decide (e.answer.result = XR_EVENT_UNAVAILABLE)
    && !XR_FAILED e.answer.result

/-- The log entry is an `xrPollEvent` call that delivered a stop event. -/
def polledStop (e : LogEntry) : Bool :=
  polledEvent e && isStopEvent e.answer.event

/-- The log entry is an `xrPollEvent` call that delivered a session-state
change to `STOPPING`, `EXITING` or `LOSS_PENDING`. -/
def polledSessionStop (e : LogEntry) : Bool :=
  polledEvent e && isSessionStop e.answer.event

/-- The calls that request a frame: `xrWaitFrame`, `xrBeginFrame` and
`xrAcquireSwapchainImage`. -/
def isFrameRequest : XrCall → Bool
  | XrCall.xrWaitFrame => true
  | XrCall.xrBeginFrame => true
  | XrCall.xrAcquireSwapchainImage _ => true
  | _ => false

/-- Between any two `xrAcquireSwapchainImage` calls on the swapchain of
`eye` in the log there is an `xrReleaseSwapchainImage` call on it. -/
def AcquireReleaseDiscipline (eye : Fin 2) (log : List LogEntry) : Prop :=
  ∀ (a b c : List LogEntry) (x y : LogEntry), log = a ++ x :: (b ++ y :: c) →
    x.call = XrCall.xrAcquireSwapchainImage eye →
    y.call = XrCall.xrAcquireSwapchainImage eye →
    ∃ z ∈ b, z.call = XrCall.xrReleaseSwapchainImage eye

/-- Every frame request in the log comes after an `xrBeginSession` call (a
processed `READY` event) and after no polled `STOPPING`, `EXITING` or
`LOSS_PENDING` event. -/
def FramesOnlyWhileRunning (log : List LogEntry) : Prop :=
  ∀ (pre post : List LogEntry) (e : LogEntry), log = pre ++ e :: post →
    isFrameRequest e.call = true →
    (∃ r ∈ pre, r.call = XrCall.xrBeginSession) ∧ (∀ p ∈ pre, polledSessionStop p = false)

/-- No `wrapper_frameStart` call directly follows another one. -/
def noAdjacentFrameStarts : List Op → Bool
  | Op.frameStart :: Op.frameStart :: _ => false
  | _ :: rest => noAdjacentFrameStarts rest
  | [] => true

/-- Runs the acquire/release protocol of the swapchain of `eye` over a log:
`held` tells whether an image is acquired and not yet released; `none` when
an image is acquired while one is held. -/
def acquireMonitor (eye : Fin 2) : Bool → List LogEntry → Option Bool
  | held, [] => some held
  | held, e :: rest =>
    if e.call = XrCall.xrAcquireSwapchainImage eye then
      if held then none else acquireMonitor eye true rest
    else if e.call = XrCall.xrReleaseSwapchainImage eye then acquireMonitor eye false rest
    else acquireMonitor eye held rest

/-- What the event loop of `FrameStart` leaves in the log, for each way of
leaving it (`none`: by `break`): only event calls; a `break` comes right
after a poll that answered `XR_EVENT_UNAVAILABLE`, with no stop event polled
before; any other exit means no poll answered `XR_EVENT_UNAVAILABLE`; and a
polled stop event is the last thing polled, followed only by the
`xrEndSession` call of the `STOPPING` case, whose result decides between
`return` and `throw`. -/
def EventLoopSpec (exit : Option Exit) (ext : List LogEntry) : Prop :=
  (∀ e ∈ ext, e.call = XrCall.xrPollEvent ∨ e.call = XrCall.xrBeginSession
      ∨ e.call = XrCall.xrEndSession) ∧
  (exit = none →
    (∃ pre a, ext = pre ++ [{ call := XrCall.xrPollEvent, answer := a }]
      ∧ a.result = XR_EVENT_UNAVAILABLE) ∧
    ∀ p ∈ ext, polledStop p = false) ∧
  (exit ≠ none → ∀ p ∈ ext, p.call = XrCall.xrPollEvent →
    p.answer.result ≠ XR_EVENT_UNAVAILABLE) ∧
  (∀ p ∈ ext, polledStop p = true →
    (p.answer.event = XrEvent.SESSION_STATE_CHANGED XrSessionState.STOPPING →
      ∃ pre q, ext = pre ++ [p, q] ∧ q.call = XrCall.xrEndSession ∧
        exit = some (if XR_FAILED q.answer.result then Exit.threw else Exit.returned)) ∧
    (p.answer.event ≠ XrEvent.SESSION_STATE_CHANGED XrSessionState.STOPPING →
      (∃ pre, ext = pre ++ [p]) ∧ exit = some Exit.returned))

/-! ### Sample runtimes -/

/-- An answer with the given result code and event, image index `0`. -/
def answerOf (result : Int) (event : XrEvent) : XrAnswer :=
  { result := result, event := event, imageIndex := 0
    frameState := { predictedDisplayTime := 1000, shouldRender := true }
    view0 := 0, view1 := 1 }

/-- The runtime that gives the listed answers in order and then answers
`XR_SUCCESS` to everything. -/
def tapeOf (answers : List XrAnswer) (n : Nat) : XrAnswer :=
  answers.getD n (answerOf XR_SUCCESS XrEvent.otherType)

/-- The backend object before any frame call, with an empty log. -/
def freshBackend (useD3DInterop : Bool) : Sys :=
  { vr :=
      { m_xrFrameState := { predictedDisplayTime := 0, shouldRender := false }
        m_xrViews := fun _ => 0
        m_currentSwapchainImageIndex := fun _ => 0
        m_useD3DInterop := useD3DInterop }
    log := [] }

/-- The answer of an `xrPollEvent` call that finds the queue empty. -/
def noEvent : XrAnswer := answerOf XR_EVENT_UNAVAILABLE XrEvent.otherType

/-- The answer `XR_SUCCESS` without an event. -/
def success : XrAnswer := answerOf XR_SUCCESS XrEvent.otherType

/-- The answer of an `xrPollEvent` call that delivers a session-state change. -/
def stateChange (state : XrSessionState) : XrAnswer :=
  answerOf XR_SUCCESS (XrEvent.SESSION_STATE_CHANGED state)

/-- A failing answer: `XR_ERROR_RUNTIME_FAILURE` (`-2`). -/
def failure : XrAnswer := answerOf (-2) XrEvent.otherType

/-- A runtime with an empty event queue at two consecutive `FrameStart`
calls (each makes eight calls without interop), everything succeeding. -/
def idleRuntime : Nat → XrAnswer :=
  tapeOf [noEvent, success, success, success, success, success, success, success, noEvent]

/-- A runtime with an empty event queue at a `FrameStart` call, a `FrameEnd`
call (three calls) and a second `FrameStart` call, everything succeeding. -/
def frameLoopRuntime : Nat → XrAnswer :=
  tapeOf [noEvent, success, success, success, success, success, success, success,
    success, success, success, noEvent]

/-- A runtime that reports `READY`, then `STOPPING`, and whose queue is
empty at the next `FrameStart` call; every call succeeds. -/
def stoppedRuntime : Nat → XrAnswer :=
  tapeOf [stateChange XrSessionState.READY, success, stateChange XrSessionState.STOPPING,
    success, noEvent]

/-- A runtime that reports `STOPPING` and whose `xrEndSession` then fails. -/
def failingStopRuntime : Nat → XrAnswer :=
  tapeOf [stateChange XrSessionState.STOPPING, failure]

/-- A runtime with an empty event queue whose `xrWaitFrame` fails. -/
def failingWaitRuntime : Nat → XrAnswer :=
  tapeOf [noEvent, failure]

/-- A runtime whose first call fails. -/
def failingRuntime : Nat → XrAnswer :=
  tapeOf [failure]

/-- A runtime for `Init` that lists only `XR_KHR_D3D11_enable`, one view
configuration (primary stereo) and one blend mode (opaque); the instance
handle is `7` and the system id `9`. -/
def d3dOnlyRuntime : Nat → XrAnswer :=
  tapeOf
    [{ success with count := 1 },
     { success with extensionNames := [XR_KHR_D3D11_enable] },
     { success with handle := 7 },
     { success with handle := 9 },
     { success with count := 1 },
     { success with viewConfigurations := [XR_VIEW_CONFIGURATION_TYPE_PRIMARY_STEREO] },
     { success with count := 1 },
     { success with blendModes := [XR_ENVIRONMENT_BLEND_MODE_OPAQUE] }]

/-- A backend object on which `Enable` has created a session and two
swapchains (non-zero handles), with an empty log. -/
def enabledBackend : Sys :=
  { vr := { (freshBackend false).vr with
      m_xrInstance := 7, m_xrSession := 8, m_xrSwapchain := fun eye => if eye = 0 then 10 else 11 }
    log := [] }

/-! ### The pixels of a viewport, and sample runtimes for `Init` and `Enable` -/

/-- The pixel `(px, py)` lies in the rectangle `r`: from the position
(inclusive) to the position plus the size (exclusive) in both directions. -/
def ovrRecti_contains (r : ovrRecti) (px py : Int) : Prop :=
  r.x ≤ px ∧ px < r.x + r.w ∧ r.y ≤ py ∧ py < r.y + r.h

instance (r : ovrRecti) (px py : Int) : Decidable (ovrRecti_contains r px py) :=
  inferInstanceAs (Decidable (r.x ≤ px ∧ px < r.x + r.w ∧ r.y ≤ py ∧ py < r.y + r.h))

/-- The result code `XR_ERROR_FORM_FACTOR_UNAVAILABLE` of `openxr.h`: the
headset is not connected. -/
def XR_ERROR_FORM_FACTOR_UNAVAILABLE : Int := -51

/-- A runtime that lists `XR_KHR_opengl_enable` and creates instance `7`,
but whose first `xrGetSystem` fails because no headset is connected; from
the next call on the headset is there: system `9`, session `8`, two views of
1000 x 1100, swapchains `10` and `11` with one image each (`41`, `42`),
reference space `12`. -/
def unpluggedRuntime : Nat → XrAnswer :=
  tapeOf
    [{ success with count := 1 },
     { success with extensionNames := [XR_KHR_opengl_enable] },
     { success with handle := 7 },
     answerOf XR_ERROR_FORM_FACTOR_UNAVAILABLE XrEvent.otherType,
     { success with handle := 9 },
     { success with handle := 9 },
     { success with handle := 8 },
     { success with count := 2 },
     { success with views := [(1000, 1100), (1000, 1100)] },
     { success with handle := 10 },
     { success with count := 1 },
     { success with images := [41] },
     { success with handle := 11 },
     { success with count := 1 },
     { success with images := [42] },
     { success with handle := 12 }]

/-- A runtime that lists `XR_KHR_opengl_enable`, creates instance `7` and
finds system `9`, whose only view configuration is mono (`1`). -/
def monoRuntime : Nat → XrAnswer :=
  tapeOf
    [{ success with count := 1 },
     { success with extensionNames := [XR_KHR_opengl_enable] },
     { success with handle := 7 },
     { success with handle := 9 },
     { success with count := 1 },
     { success with viewConfigurations := [1] }]

/-! ## Part 3. Theorems about `r_vr_rift.c` -/

section RiftTheorems

variable {K : Type} [LinearOrderedField K]

theorem maxMacro_eq_max (a b : K) : maxMacro a b = max a b := by
  unfold maxMacro
  split_ifs with h
  · exact (max_eq_left (le_of_lt h)).symm
  · exact (max_eq_right (not_lt.mp h)).symm

theorem clampMacro_eq (a lo hi : K) (h : lo ≤ hi) :
    clampMacro a lo hi = min (max a lo) hi := by
  unfold clampMacro
  split_ifs with h1 h2
  · rw [max_eq_right (le_of_lt h1), min_eq_left h]
  · rw [max_eq_left (not_lt.mp h1), min_eq_right (le_of_lt h2)]
  · rw [max_eq_left (not_lt.mp h1), min_eq_left (not_lt.mp h2)]

theorem calculateState_eyeFov (env : RiftEnv K) (g : RiftGlobals K) (junk : vr_param_t K)
    (eye : Fin 2) :
    ((Rift_CalculateState env g junk).1.renderInfo eye).eyeFov = selectEyeFov env eye := by
  fin_cases eye <;> simp [Rift_CalculateState, Rift_CalculateState_eye, Function.update]

theorem calculateState_renderParams (env : RiftEnv K) (g : RiftGlobals K)
    (junk : vr_param_t K) (eye : Fin 2) :
    (Rift_CalculateState env g junk).2.renderParams eye =
      { projection :=
          { x := { scale := 2 / ((selectEyeFov env eye).LeftTan + (selectEyeFov env eye).RightTan)
                   offset := ((selectEyeFov env eye).LeftTan - (selectEyeFov env eye).RightTan)
                     * (2 / ((selectEyeFov env eye).LeftTan + (selectEyeFov env eye).RightTan)) * 0.5 }
            y := { scale := 2 / ((selectEyeFov env eye).UpTan + (selectEyeFov env eye).DownTan)
                   offset := ((selectEyeFov env eye).UpTan - (selectEyeFov env eye).DownTan)
                     * (2 / ((selectEyeFov env eye).UpTan + (selectEyeFov env eye).DownTan)) * 0.5 } }
        viewOffset :=
          VectorSet
            (-(env.ovrHmd_GetRenderDesc eye (selectEyeFov env eye)).HmdToEyeViewOffset.x)
            (env.ovrHmd_GetRenderDesc eye (selectEyeFov env eye)).HmdToEyeViewOffset.y
            (env.ovrHmd_GetRenderDesc eye (selectEyeFov env eye)).HmdToEyeViewOffset.z } := by
  fin_cases eye <;> simp [Rift_CalculateState, Rift_CalculateState_eye, Function.update]

end RiftTheorems

section RiftClaims

variable {K : Type} [LinearOrderedField K]

/-- C1. For either eye, with `fov` the maximum FOV of that eye when
`vr_rift_maxfov` is non-zero and its default FOV otherwise, and both tangent
sums non-zero, `Rift_CalculateState` stores `x.scale = 2 / (leftTan + rightTan)`
(so that `x.scale * (leftTan + rightTan) = 2`),
`x.offset = (leftTan - rightTan) * x.scale * 0.5`, and the same for `y` with
`upTan` and `downTan`, in exact arithmetic. -/
theorem Rift_CalculateState_projection (env : RiftEnv K) (g : RiftGlobals K)
    (junk : vr_param_t K) (eye : Fin 2) (fov : ovrFovPort K)
    (hfov : fov = if env.vr_rift_maxfov_value ≠ 0 then env.hmd.MaxEyeFov eye
                  else env.hmd.DefaultEyeFov eye)
    (hx : fov.LeftTan + fov.RightTan ≠ 0) (hy : fov.UpTan + fov.DownTan ≠ 0) :
    ((Rift_CalculateState env g junk).1.renderInfo eye).eyeFov = fov ∧
    ((Rift_CalculateState env g junk).2.renderParams eye).projection.x.scale
      = 2 / (fov.LeftTan + fov.RightTan) ∧
    ((Rift_CalculateState env g junk).2.renderParams eye).projection.x.scale
      * (fov.LeftTan + fov.RightTan) = 2 ∧
    ((Rift_CalculateState env g junk).2.renderParams eye).projection.x.offset
      = (fov.LeftTan - fov.RightTan)
        * ((Rift_CalculateState env g junk).2.renderParams eye).projection.x.scale * 0.5 ∧
    ((Rift_CalculateState env g junk).2.renderParams eye).projection.y.scale
      = 2 / (fov.UpTan + fov.DownTan) ∧
    ((Rift_CalculateState env g junk).2.renderParams eye).projection.y.scale
      * (fov.UpTan + fov.DownTan) = 2 ∧
    ((Rift_CalculateState env g junk).2.renderParams eye).projection.y.offset
      = (fov.UpTan - fov.DownTan)
        * ((Rift_CalculateState env g junk).2.renderParams eye).projection.y.scale * 0.5 := by
  have hsel : selectEyeFov env eye = fov := by rw [hfov]; rfl
  rw [calculateState_eyeFov, calculateState_renderParams, hsel]
  refine ⟨rfl, rfl, ?_, rfl, rfl, ?_, rfl⟩
  · exact div_mul_cancel₀ 2 hx
  · exact div_mul_cancel₀ 2 hy

/-- Witness of C1: the left eye of the sample headset with the default FOV
(`leftTan = 1`, `rightTan = 1/2`, `upTan = 1`, `downTan = 3`). -/
theorem Rift_CalculateState_projection_witness :
    ((Rift_CalculateState (sampleRiftEnv (fun x : ℚ => x) 3 0) sampleRiftGlobals
        sampleJunk).2.renderParams 0).projection
      = { x := { scale := 4 / 3, offset := 1 / 3 }, y := { scale := 1 / 2, offset := -1 / 2 } } := by
  have h := Rift_CalculateState_projection (sampleRiftEnv (fun x : ℚ => x) 3 0)
    sampleRiftGlobals sampleJunk 0
    { UpTan := 1, DownTan := 3, LeftTan := 1, RightTan := 1 / 2 }
    (by simp [sampleRiftEnv]) (by norm_num) (by norm_num)
  obtain ⟨-, h1, -, h2, h3, -, h4⟩ := h
  rw [h1] at h2
  rw [h3] at h4
  generalize ((Rift_CalculateState (sampleRiftEnv (fun x : ℚ => x) 3 0) sampleRiftGlobals
        sampleJunk).2.renderParams 0).projection = p at *
  obtain ⟨⟨a, b⟩, ⟨c, d⟩⟩ := p
  simp only at h1 h2 h3 h4
  subst h1 h2 h3 h4
  norm_num

/-- C2. When the selected FOV of an eye has positive tangent sums,
`leftTan = rightTan` and `upTan = downTan`, both projection offsets that
`Rift_CalculateState` stores for that eye are exactly `0` (and both scales
are positive). -/
theorem Rift_CalculateState_symmetric_offset (env : RiftEnv K) (g : RiftGlobals K)
    (junk : vr_param_t K) (eye : Fin 2)
    (hx : 0 < (selectEyeFov env eye).LeftTan + (selectEyeFov env eye).RightTan)
    (hy : 0 < (selectEyeFov env eye).UpTan + (selectEyeFov env eye).DownTan)
    (hlr : (selectEyeFov env eye).LeftTan = (selectEyeFov env eye).RightTan)
    (hud : (selectEyeFov env eye).UpTan = (selectEyeFov env eye).DownTan) :
    ((Rift_CalculateState env g junk).2.renderParams eye).projection.x.offset = 0 ∧
    ((Rift_CalculateState env g junk).2.renderParams eye).projection.y.offset = 0 ∧
    0 < ((Rift_CalculateState env g junk).2.renderParams eye).projection.x.scale ∧
    0 < ((Rift_CalculateState env g junk).2.renderParams eye).projection.y.scale := by
  rw [calculateState_renderParams]
  refine ⟨?_, ?_, div_pos two_pos hx, div_pos two_pos hy⟩
  · show ((selectEyeFov env eye).LeftTan - (selectEyeFov env eye).RightTan) * _ * _ = 0
    rw [hlr, sub_self, zero_mul, zero_mul]
  · show ((selectEyeFov env eye).UpTan - (selectEyeFov env eye).DownTan) * _ * _ = 0
    rw [hud, sub_self, zero_mul, zero_mul]

/-- Witness of C2: the right eye of the sample headset, whose default FOV is
symmetric (`1, 1` and `3/4, 3/4`). -/
theorem Rift_CalculateState_symmetric_offset_witness :
    ((Rift_CalculateState (sampleRiftEnv (fun x : ℚ => x) 3 0) sampleRiftGlobals
        sampleJunk).2.renderParams 1).projection.x.offset = 0 ∧
    ((Rift_CalculateState (sampleRiftEnv (fun x : ℚ => x) 3 0) sampleRiftGlobals
        sampleJunk).2.renderParams 1).projection.y.offset = 0 ∧
    0 < ((Rift_CalculateState (sampleRiftEnv (fun x : ℚ => x) 3 0) sampleRiftGlobals
        sampleJunk).2.renderParams 1).projection.x.scale ∧
    0 < ((Rift_CalculateState (sampleRiftEnv (fun x : ℚ => x) 3 0) sampleRiftGlobals
        sampleJunk).2.renderParams 1).projection.y.scale :=
  Rift_CalculateState_symmetric_offset (sampleRiftEnv (fun x : ℚ => x) 3 0)
    sampleRiftGlobals sampleJunk 1
    (by norm_num [selectEyeFov, sampleRiftEnv]) (by norm_num [selectEyeFov, sampleRiftEnv])
    (by simp [selectEyeFov, sampleRiftEnv]) (by simp [selectEyeFov, sampleRiftEnv])

/-- C3. For either eye, with `(x, y, z)` the `HmdToEyeViewOffset` that
`ovrHmd_GetRenderDesc` reports for that eye and its selected FOV,
`Rift_CalculateState` records that descriptor in `eyeDesc[eye]` and stores
the view offset `(-x, y, z)`: only the x axis changes sign. -/
theorem Rift_CalculateState_viewOffset (env : RiftEnv K) (g : RiftGlobals K)
    (junk : vr_param_t K) (eye : Fin 2) :
    (Rift_CalculateState env g junk).1.eyeDesc eye
      = env.ovrHmd_GetRenderDesc eye
          (if env.vr_rift_maxfov_value ≠ 0 then env.hmd.MaxEyeFov eye
           else env.hmd.DefaultEyeFov eye) ∧
    ((Rift_CalculateState env g junk).2.renderParams eye).viewOffset.v0
      = -((Rift_CalculateState env g junk).1.eyeDesc eye).HmdToEyeViewOffset.x ∧
    ((Rift_CalculateState env g junk).2.renderParams eye).viewOffset.v1
      = ((Rift_CalculateState env g junk).1.eyeDesc eye).HmdToEyeViewOffset.y ∧
    ((Rift_CalculateState env g junk).2.renderParams eye).viewOffset.v2
      = ((Rift_CalculateState env g junk).1.eyeDesc eye).HmdToEyeViewOffset.z := by
  have hd : (Rift_CalculateState env g junk).1.eyeDesc eye
      = env.ovrHmd_GetRenderDesc eye (selectEyeFov env eye) := by
    fin_cases eye <;> simp [Rift_CalculateState, Rift_CalculateState_eye, Function.update]
  rw [calculateState_renderParams, hd]
  exact ⟨rfl, rfl, rfl, rfl⟩

/-- C4. The combined FOV of `Rift_CalculateState`, read over the reals with
`atanf = arctan` and `M_PI = π`: with `mH` the maximum of the `LeftTan` and
`RightTan` of both eyes and `mV` the maximum of their `UpTan` and `DownTan`,
`viewFovX = 2·atan(mH)·180/π`, `viewFovY = 2·atan(mV)·180/π` and
`aspect = mH / mV`. -/
theorem Rift_CalculateState_combinedFov (env : RiftEnv ℝ) (g : RiftGlobals ℝ)
    (junk : vr_param_t ℝ) (mH mV : ℝ)
    (hatan : env.atanf = Real.arctan) (hpi : env.M_PI = Real.pi)
    (hH : mH = max (max (selectEyeFov env 0).LeftTan (selectEyeFov env 0).RightTan)
                   (max (selectEyeFov env 1).LeftTan (selectEyeFov env 1).RightTan))
    (hV : mV = max (max (selectEyeFov env 0).UpTan (selectEyeFov env 0).DownTan)
                   (max (selectEyeFov env 1).UpTan (selectEyeFov env 1).DownTan)) :
    (Rift_CalculateState env g junk).2.viewFovX = 2 * Real.arctan mH * 180 / Real.pi ∧
    (Rift_CalculateState env g junk).2.viewFovY = 2 * Real.arctan mV * 180 / Real.pi ∧
    (Rift_CalculateState env g junk).2.aspect = mH / mV := by
  have e0 := calculateState_eyeFov env g junk 0
  have e1 := calculateState_eyeFov env g junk 1
  have hX : (Rift_CalculateState env g junk).2.viewFovX
      = RAD2DEG env.M_PI (2 * env.atanf (maxMacro
          (maxMacro ((Rift_CalculateState env g junk).1.renderInfo 0).eyeFov.LeftTan
                    ((Rift_CalculateState env g junk).1.renderInfo 0).eyeFov.RightTan)
          (maxMacro ((Rift_CalculateState env g junk).1.renderInfo 1).eyeFov.LeftTan
                    ((Rift_CalculateState env g junk).1.renderInfo 1).eyeFov.RightTan))) := rfl
  have hY : (Rift_CalculateState env g junk).2.viewFovY
      = RAD2DEG env.M_PI (2 * env.atanf (maxMacro
          (maxMacro ((Rift_CalculateState env g junk).1.renderInfo 0).eyeFov.UpTan
                    ((Rift_CalculateState env g junk).1.renderInfo 0).eyeFov.DownTan)
          (maxMacro ((Rift_CalculateState env g junk).1.renderInfo 1).eyeFov.UpTan
                    ((Rift_CalculateState env g junk).1.renderInfo 1).eyeFov.DownTan))) := rfl
  have hA : (Rift_CalculateState env g junk).2.aspect
      = maxMacro
          (maxMacro ((Rift_CalculateState env g junk).1.renderInfo 0).eyeFov.LeftTan
                    ((Rift_CalculateState env g junk).1.renderInfo 0).eyeFov.RightTan)
          (maxMacro ((Rift_CalculateState env g junk).1.renderInfo 1).eyeFov.LeftTan
                    ((Rift_CalculateState env g junk).1.renderInfo 1).eyeFov.RightTan)
        / maxMacro
          (maxMacro ((Rift_CalculateState env g junk).1.renderInfo 0).eyeFov.UpTan
                    ((Rift_CalculateState env g junk).1.renderInfo 0).eyeFov.DownTan)
          (maxMacro ((Rift_CalculateState env g junk).1.renderInfo 1).eyeFov.UpTan
                    ((Rift_CalculateState env g junk).1.renderInfo 1).eyeFov.DownTan) := rfl
  rw [hX, hY, hA, e0, e1]
  simp only [maxMacro_eq_max, hatan, hpi, RAD2DEG]
  subst hH hV
  exact ⟨rfl, rfl, rfl⟩

/-- Witness of C4: the sample headset with the default FOV, where the
largest horizontal tangent is `1` and the largest vertical tangent is `3`. -/
theorem Rift_CalculateState_combinedFov_witness :
    (Rift_CalculateState (sampleRiftEnv Real.arctan Real.pi 0) sampleRiftGlobals
        sampleJunk).2.viewFovX = 2 * Real.arctan 1 * 180 / Real.pi ∧
    (Rift_CalculateState (sampleRiftEnv Real.arctan Real.pi 0) sampleRiftGlobals
        sampleJunk).2.viewFovY = 2 * Real.arctan 3 * 180 / Real.pi ∧
    (Rift_CalculateState (sampleRiftEnv Real.arctan Real.pi 0) sampleRiftGlobals
        sampleJunk).2.aspect = 1 / 3 :=
  Rift_CalculateState_combinedFov (sampleRiftEnv Real.arctan Real.pi 0) sampleRiftGlobals
    sampleJunk 1 3 rfl rfl
    (by norm_num [selectEyeFov, sampleRiftEnv]) (by norm_num [selectEyeFov, sampleRiftEnv])

/-- C5. Over the reals (`atanf = arctan`, `M_PI = π`): when the largest
horizontal half-angle tangent across both eyes is `1`, the `viewFovX` that
`Rift_CalculateState` reports is exactly `90`, hence within `1e-3` of `90`. -/
theorem Rift_CalculateState_fov90 (env : RiftEnv ℝ) (g : RiftGlobals ℝ)
    (junk : vr_param_t ℝ)
    (hatan : env.atanf = Real.arctan) (hpi : env.M_PI = Real.pi)
    (hH : max (max (selectEyeFov env 0).LeftTan (selectEyeFov env 0).RightTan)
              (max (selectEyeFov env 1).LeftTan (selectEyeFov env 1).RightTan) = 1) :
    (Rift_CalculateState env g junk).2.viewFovX = 90 ∧
    |(Rift_CalculateState env g junk).2.viewFovX - 90| ≤ 1e-3 := by
  have e0 := calculateState_eyeFov env g junk 0
  have e1 := calculateState_eyeFov env g junk 1
  have hX : (Rift_CalculateState env g junk).2.viewFovX
      = RAD2DEG env.M_PI (2 * env.atanf (maxMacro
          (maxMacro ((Rift_CalculateState env g junk).1.renderInfo 0).eyeFov.LeftTan
                    ((Rift_CalculateState env g junk).1.renderInfo 0).eyeFov.RightTan)
          (maxMacro ((Rift_CalculateState env g junk).1.renderInfo 1).eyeFov.LeftTan
                    ((Rift_CalculateState env g junk).1.renderInfo 1).eyeFov.RightTan))) := rfl
  have h90 : (Rift_CalculateState env g junk).2.viewFovX = 90 := by
    rw [hX, e0, e1]
    simp only [maxMacro_eq_max, hH, hatan, hpi, RAD2DEG, Real.arctan_one]
    have hp : Real.pi ≠ 0 := Real.pi_ne_zero
    field_simp
    ring
  refine ⟨h90, ?_⟩
  rw [h90]
  norm_num

/-- Witness of C5: the sample headset with the default FOV, whose largest
horizontal tangent is `1`. -/
theorem Rift_CalculateState_fov90_witness :
    (Rift_CalculateState (sampleRiftEnv Real.arctan Real.pi 0) sampleRiftGlobals
        sampleJunk).2.viewFovX = 90 ∧
    |(Rift_CalculateState (sampleRiftEnv Real.arctan Real.pi 0) sampleRiftGlobals
        sampleJunk).2.viewFovX - 90| ≤ 1e-3 :=
  Rift_CalculateState_fov90 (sampleRiftEnv Real.arctan Real.pi 0) sampleRiftGlobals
    sampleJunk rfl rfl (by norm_num [selectEyeFov, sampleRiftEnv])

/-- C6. The value of `desaturate` that `Rift_Present` computes lies in
`[0, 1]`: it is `0` unless the position is tracked, the tracker is connected
and `vr_rift_trackingloss > 0`; it is `1` when those hold without position
lock; and with position lock it is the maximum of the x, y, z and yaw terms,
each clamped to `[0, 1]`. -/
theorem Rift_Present_desaturate_range (env : PresentEnv K) :
    0 ≤ Rift_Present env ∧ Rift_Present env ≤ 1 ∧
    (¬ (env.renderExport.positionTracked = true
          ∧ env.trackingState.StatusFlags &&& env.ovrStatus_PositionConnected ≠ 0
          ∧ 0 < env.vr_rift_trackingloss_value) → Rift_Present env = 0) ∧
    (env.renderExport.positionTracked = true
        ∧ env.trackingState.StatusFlags &&& env.ovrStatus_PositionConnected ≠ 0
        ∧ 0 < env.vr_rift_trackingloss_value →
      (env.renderExport.hasPositionLock = false → Rift_Present env = 1) ∧
      (env.renderExport.hasPositionLock = true →
        Rift_Present env =
          max (max (max (min (max ((|(Rift_Present_out env).v0| - 0.6) * 6.25) 0) 1)
                        (min (max ((|(Rift_Present_out env).v1| - 0.45) * 6.25) 0) 1))
                   (min (max ((|(Rift_Present_out env).v2 - 0.5| - 0.5) * 10) 0) 1))
              (min (max ((|env.renderExport.cameraYaw| - 105) * 0.04) 0) 1))) := by
  have h01 : (0 : K) ≤ 1 := zero_le_one
  have happ : trackingLossApplies env = true ↔
      (env.renderExport.positionTracked = true
        ∧ env.trackingState.StatusFlags &&& env.ovrStatus_PositionConnected ≠ 0
        ∧ 0 < env.vr_rift_trackingloss_value) := by
    simp [trackingLossApplies, and_assoc]
  have hlocked : ∀ (out : vec4_t K) (yaw : K), Rift_Present_locked out yaw =
      max (max (max (min (max ((|out.v0| - 0.6) * 6.25) 0) 1)
                    (min (max ((|out.v1| - 0.45) * 6.25) 0) 1))
               (min (max ((|out.v2 - 0.5| - 0.5) * 10) 0) 1))
          (min (max ((|yaw| - 105) * 0.04) 0) 1) := by
    intro out yaw
    simp only [Rift_Present_locked, maxMacro_eq_max, clampMacro_eq _ _ _ h01]
  have hrange : ∀ (out : vec4_t K) (yaw : K),
      0 ≤ Rift_Present_locked out yaw ∧ Rift_Present_locked out yaw ≤ 1 := by
    intro out yaw
    rw [hlocked]
    refine ⟨?_, ?_⟩
    · exact le_max_of_le_right (le_min (le_max_right _ _) h01)
    · exact max_le (max_le (max_le (min_le_right _ _) (min_le_right _ _)) (min_le_right _ _))
        (min_le_right _ _)
  refine ⟨?_, ?_, ?_, ?_⟩
  · unfold Rift_Present
    split_ifs
    · exact (hrange _ _).1
    · exact h01
    · exact le_refl _
  · unfold Rift_Present
    split_ifs
    · exact (hrange _ _).2
    · exact le_refl _
    · exact h01
  · intro hn
    have : ¬ trackingLossApplies env = true := fun h => hn (happ.mp h)
    simp [Rift_Present, this]
  · intro ha
    have hap : trackingLossApplies env = true := happ.mpr ha
    refine ⟨?_, ?_⟩
    · intro hl
      simp [Rift_Present, hap, hl]
    · intro hl
      simp only [Rift_Present, hap, hl, if_true]
      exact hlocked _ _

/-- C7. With tracking-loss fading applying and position lock held in two
situations, if the projected head position of the second is at least as far
out on every axis (`|out[0]|`, `|out[1]|`, `|out[2] - 0.5|`) and its camera
yaw at least as large in absolute value, then the `desaturate` value of the
second is at least that of the first. -/
theorem Rift_Present_desaturate_mono (env env2 : PresentEnv K)
    (happ : trackingLossApplies env = true) (happ2 : trackingLossApplies env2 = true)
    (hlock : env.renderExport.hasPositionLock = true)
    (hlock2 : env2.renderExport.hasPositionLock = true)
    (hx : |(Rift_Present_out env).v0| ≤ |(Rift_Present_out env2).v0|)
    (hy : |(Rift_Present_out env).v1| ≤ |(Rift_Present_out env2).v1|)
    (hz : |(Rift_Present_out env).v2 - 0.5| ≤ |(Rift_Present_out env2).v2 - 0.5|)
    (hyaw : |env.renderExport.cameraYaw| ≤ |env2.renderExport.cameraYaw|) :
    Rift_Present env ≤ Rift_Present env2 := by
  have h01 : (0 : K) ≤ 1 := zero_le_one
  have hclamp : ∀ a b : K, a ≤ b → clampMacro a 0 1 ≤ clampMacro b 0 1 := by
    intro a b hab
    rw [clampMacro_eq _ _ _ h01, clampMacro_eq _ _ _ h01]
    exact min_le_min (max_le_max hab (le_refl _)) (le_refl _)
  have hterm : ∀ (a b c d : K), a ≤ b → 0 ≤ d → (a - c) * d ≤ (b - c) * d := by
    intro a b c d hab hd
    exact mul_le_mul_of_nonneg_right (sub_le_sub_right hab c) hd
  simp only [Rift_Present, happ, happ2, hlock, hlock2, if_true, Rift_Present_locked,
    maxMacro_eq_max]
  refine max_le_max (max_le_max (max_le_max ?_ ?_) ?_) ?_
  · exact hclamp _ _ (hterm _ _ _ _ hx (by norm_num))
  · exact hclamp _ _ (hterm _ _ _ _ hy (by norm_num))
  · exact hclamp _ _ (hterm _ _ _ _ hz (by norm_num))
  · exact hclamp _ _ (hterm _ _ _ _ hyaw (by norm_num))

/-- Witness of C7: the head at `x = -0.68` against the head at `x = -0.9`
(other coordinates and the yaw equal): the value rises from `1/2` to `1`. -/
theorem Rift_Present_desaturate_mono_witness :
    Rift_Present (samplePresentEnv ({ x := -0.68, y := 0, z := -0.5 } : ovrVector3f ℚ) 90)
      ≤ Rift_Present (samplePresentEnv ({ x := -0.9, y := 0, z := -0.5 } : ovrVector3f ℚ) 90) :=
  Rift_Present_desaturate_mono _ _ (by decide) (by decide) rfl rfl
    (by simp +decide [Rift_Present_out, samplePresentEnv]
        exact abs_le_abs_of_nonneg (by norm_num) (by norm_num))
    (by simp +decide [Rift_Present_out, samplePresentEnv])
    (by simp +decide [Rift_Present_out, samplePresentEnv])
    (le_refl _)

end RiftClaims

/-! ## Part 4. Theorems about `vr_openxr.cpp` -/

section XrLemmas

theorem acquireMonitor_append (eye : Fin 2) (l m : List LogEntry) (held : Bool) :
    acquireMonitor eye held (l ++ m)
      = (acquireMonitor eye held l).bind (fun h => acquireMonitor eye h m) := by
  induction l generalizing held with
  | nil => rfl
  | cons e rest ih =>
    simp only [List.cons_append, acquireMonitor]
    split_ifs <;> simp [ih]

/-- A log with no acquire and no release on the swapchain of `eye` leaves
the monitor where it was. -/
theorem acquireMonitor_quiet (eye : Fin 2) (l : List LogEntry) (held : Bool)
    (h : ∀ e ∈ l, e.call ≠ XrCall.xrAcquireSwapchainImage eye
      ∧ e.call ≠ XrCall.xrReleaseSwapchainImage eye) :
    acquireMonitor eye held l = some held := by
  induction l with
  | nil => rfl
  | cons e rest ih =>
    have he := h e (List.mem_cons_self _ _)
    simp only [acquireMonitor, he.1, he.2, if_false]
    exact ih (fun x hx => h x (List.mem_cons_of_mem _ hx))

theorem acquireMonitor_held_acquire (eye : Fin 2) (b c : List LogEntry) (y : LogEntry)
    (hy : y.call = XrCall.xrAcquireSwapchainImage eye) (r : Bool)
    (h : acquireMonitor eye true (b ++ y :: c) = some r) :
    ∃ z ∈ b, z.call = XrCall.xrReleaseSwapchainImage eye := by
  induction b with
  | nil => simp [acquireMonitor, hy] at h
  | cons e rest ih =>
    simp only [List.cons_append, acquireMonitor] at h
    by_cases h1 : e.call = XrCall.xrAcquireSwapchainImage eye
    · simp [h1] at h
    · by_cases h2 : e.call = XrCall.xrReleaseSwapchainImage eye
      · exact ⟨e, List.mem_cons_self _ _, h2⟩
      · simp only [h1, h2, if_false] at h
        obtain ⟨z, hz, hz2⟩ := ih h
        exact ⟨z, List.mem_cons_of_mem _ hz, hz2⟩

/-- A log the monitor accepts satisfies the acquire/release discipline. -/
theorem acquireMonitor_sound (eye : Fin 2) (log : List LogEntry) (held r : Bool)
    (h : acquireMonitor eye held log = some r) : AcquireReleaseDiscipline eye log := by
  intro a b c x y hlog hx hy
  subst hlog
  induction a generalizing held with
  | nil =>
    simp only [List.nil_append, acquireMonitor, hx, if_true] at h
    cases held with
    | true => simp at h
    | false =>
      simp only [Bool.false_eq_true, if_false] at h
      exact acquireMonitor_held_acquire eye b c y hy r h
  | cons e rest ih =>
    simp only [List.cons_append, acquireMonitor] at h
    split_ifs at h
    · exact ih _ h
    · exact ih _ h
    · exact ih _ h

theorem eventLoopSpec_nil (e : Exit) : EventLoopSpec (some e) [] := by
  refine ⟨?_, ?_, ?_, ?_⟩ <;> simp

/-- Entries that are neither a stop event nor an unavailable poll can be put
in front of a loop trace. -/
theorem eventLoopSpec_prepend (exit : Option Exit) (h rest : List LogEntry)
    (hspec : EventLoopSpec exit rest)
    (hh : ∀ e ∈ h, (e.call = XrCall.xrPollEvent ∨ e.call = XrCall.xrBeginSession
        ∨ e.call = XrCall.xrEndSession) ∧ polledStop e = false
        ∧ (e.call = XrCall.xrPollEvent → e.answer.result ≠ XR_EVENT_UNAVAILABLE)) :
    EventLoopSpec exit (h ++ rest) := by
  obtain ⟨s1, s2, s3, s4⟩ := hspec
  refine ⟨?_, ?_, ?_, ?_⟩
  · intro e he
    rcases List.mem_append.mp he with he | he
    · exact (hh e he).1
    · exact s1 e he
  · intro hx
    obtain ⟨⟨pre, a, hpre, ha⟩, hns⟩ := s2 hx
    refine ⟨⟨h ++ pre, a, ?_, ha⟩, ?_⟩
    · rw [hpre, List.append_assoc]
    · intro p hp
      rcases List.mem_append.mp hp with hp | hp
      · exact (hh p hp).2.1
      · exact hns p hp
  · intro hx p hp hc
    rcases List.mem_append.mp hp with hp | hp
    · exact (hh p hp).2.2 hc
    · exact s3 hx p hp hc
  · intro p hp hstop
    rcases List.mem_append.mp hp with hp | hp
    · rw [(hh p hp).2.1] at hstop
      exact absurd hstop (by simp)
    · obtain ⟨t1, t2⟩ := s4 p hp hstop
      refine ⟨?_, ?_⟩
      · intro hev
        obtain ⟨pre, q, hpre, hq⟩ := t1 hev
        exact ⟨h ++ pre, q, by rw [hpre, List.append_assoc], hq⟩
      · intro hev
        obtain ⟨⟨pre, hpre⟩, hx⟩ := t2 hev
        exact ⟨⟨h ++ pre, by rw [hpre, List.append_assoc]⟩, hx⟩

theorem polledStop_false_of_call (e : LogEntry) (h : e.call ≠ XrCall.xrPollEvent) :
    polledStop e = false := by
  simp [polledStop, polledEvent, h]

theorem polledStop_false_of_event (e : LogEntry) (h : isStopEvent e.answer.event = false) :
    polledStop e = false := by
  simp [polledStop, h]

theorem eventLoopSpec_break (a : XrAnswer) (h : a.result = XR_EVENT_UNAVAILABLE) :
    EventLoopSpec none [{ call := XrCall.xrPollEvent, answer := a }] := by
  refine ⟨?_, ?_, ?_, ?_⟩
  · intro e he
    rw [List.mem_singleton.mp he]
    exact Or.inl rfl
  · intro _
    refine ⟨⟨[], a, rfl, h⟩, ?_⟩
    intro p hp
    rw [List.mem_singleton.mp hp]
    simp [polledStop, polledEvent, h]
  · intro hx
    exact absurd rfl hx
  · intro p hp hs
    rw [List.mem_singleton.mp hp] at hs
    simp [polledStop, polledEvent, h] at hs

theorem eventLoopSpec_pollFailed (a : XrAnswer) (h1 : a.result ≠ XR_EVENT_UNAVAILABLE)
    (h2 : XR_FAILED a.result = true) :
    EventLoopSpec (some Exit.threw) [{ call := XrCall.xrPollEvent, answer := a }] := by
  refine ⟨?_, ?_, ?_, ?_⟩
  · intro e he
    rw [List.mem_singleton.mp he]
    exact Or.inl rfl
  · intro hx
    exact absurd hx (by simp)
  · intro _ p hp _
    rw [List.mem_singleton.mp hp]
    exact h1
  · intro p hp hs
    rw [List.mem_singleton.mp hp] at hs
    simp [polledStop, polledEvent, h2] at hs

theorem eventLoopSpec_stopping (a b : XrAnswer) (h1 : a.result ≠ XR_EVENT_UNAVAILABLE)
    (hev : a.event = XrEvent.SESSION_STATE_CHANGED XrSessionState.STOPPING) :
    EventLoopSpec (some (if XR_FAILED b.result then Exit.threw else Exit.returned))
      [{ call := XrCall.xrPollEvent, answer := a }, { call := XrCall.xrEndSession, answer := b }] := by
  refine ⟨?_, ?_, ?_, ?_⟩
  · intro e he
    simp only [List.mem_cons, List.mem_singleton, List.not_mem_nil, or_false] at he
    rcases he with he | he
    · rw [he]; exact Or.inl rfl
    · rw [he]; exact Or.inr (Or.inr rfl)
  · intro hx
    exact absurd hx (by simp)
  · intro _ p hp hc
    simp only [List.mem_cons, List.mem_singleton, List.not_mem_nil, or_false] at hp
    rcases hp with hp | hp
    · rw [hp]; exact h1
    · rw [hp] at hc; exact absurd hc (by simp)
  · intro p hp hs
    simp only [List.mem_cons, List.mem_singleton, List.not_mem_nil, or_false] at hp
    rcases hp with hp | hp
    · subst hp
      refine ⟨fun _ => ⟨[], _, rfl, rfl, rfl⟩, fun hne => absurd hev hne⟩
    · rw [hp, polledStop_false_of_call _ (by simp)] at hs
      exact absurd hs (by simp)

theorem eventLoopSpec_stopOther (a : XrAnswer) (h1 : a.result ≠ XR_EVENT_UNAVAILABLE)
    (hev : a.event ≠ XrEvent.SESSION_STATE_CHANGED XrSessionState.STOPPING) :
    EventLoopSpec (some Exit.returned) [{ call := XrCall.xrPollEvent, answer := a }] := by
  refine ⟨?_, ?_, ?_, ?_⟩
  · intro e he
    rw [List.mem_singleton.mp he]
    exact Or.inl rfl
  · intro hx
    exact absurd hx (by simp)
  · intro _ p hp _
    rw [List.mem_singleton.mp hp]
    exact h1
  · intro p hp _
    rw [List.mem_singleton.mp hp]
    exact ⟨fun h => absurd h hev, fun _ => ⟨⟨[], rfl⟩, rfl⟩⟩

theorem eventLoopSpec_readyFailed (a b : XrAnswer) (h1 : a.result ≠ XR_EVENT_UNAVAILABLE)
    (hev : a.event = XrEvent.SESSION_STATE_CHANGED XrSessionState.READY) :
    EventLoopSpec (some Exit.threw)
      [{ call := XrCall.xrPollEvent, answer := a }, { call := XrCall.xrBeginSession, answer := b }] := by
  have h := eventLoopSpec_prepend (some Exit.threw)
    [{ call := XrCall.xrPollEvent, answer := a }, { call := XrCall.xrBeginSession, answer := b }] []
    (eventLoopSpec_nil _) ?_
  · simpa using h
  · intro e he
    simp only [List.mem_cons, List.mem_singleton, List.not_mem_nil, or_false] at he
    rcases he with he | he
    · subst he
      exact ⟨Or.inl rfl, polledStop_false_of_event _ (by simp [hev, isStopEvent, isSessionStop]), fun _ => h1⟩
    · subst he
      exact ⟨Or.inr (Or.inl rfl), polledStop_false_of_call _ (by simp), fun h => absurd h (by simp)⟩

theorem FrameStart_events_spec (rt : Nat → XrAnswer) (fuel : Nat) (s : Sys) :
    ∃ ext, (FrameStart_events rt fuel s).2.log = s.log ++ ext
      ∧ (FrameStart_events rt fuel s).2.vr = s.vr
      ∧ EventLoopSpec (FrameStart_events rt fuel s).1 ext := by
  induction fuel generalizing s with
  | zero => exact ⟨[], by simp [FrameStart_events], rfl, eventLoopSpec_nil _⟩
  | succ n ih =>
    simp only [FrameStart_events, xr]
    generalize rt s.log.length = a
    generalize rt (s.log ++ [({ call := XrCall.xrPollEvent, answer := a } : LogEntry)]).length = b
    -- going round the loop once more after a harmless event
    have again : a.result ≠ XR_EVENT_UNAVAILABLE → isStopEvent a.event = false →
        ∃ ext, (FrameStart_events rt n
            { vr := s.vr, log := s.log ++ [{ call := XrCall.xrPollEvent, answer := a }] }).2.log
              = s.log ++ ext
          ∧ (FrameStart_events rt n
            { vr := s.vr, log := s.log ++ [{ call := XrCall.xrPollEvent, answer := a }] }).2.vr
              = s.vr
          ∧ EventLoopSpec (FrameStart_events rt n
            { vr := s.vr, log := s.log ++ [{ call := XrCall.xrPollEvent, answer := a }] }).1 ext := by
      intro h1 hns
      obtain ⟨ext, hlog, hvr, hspec⟩ := ih
        { vr := s.vr, log := s.log ++ [{ call := XrCall.xrPollEvent, answer := a }] }
      refine ⟨[{ call := XrCall.xrPollEvent, answer := a }] ++ ext, ?_, hvr, ?_⟩
      · rw [hlog, List.append_assoc]
      · refine eventLoopSpec_prepend _ _ _ hspec ?_
        intro e he
        rw [List.mem_singleton.mp he]
        exact ⟨Or.inl rfl, polledStop_false_of_event _ hns, fun _ => h1⟩
    by_cases h1 : a.result = XR_EVENT_UNAVAILABLE
    · rw [if_pos h1]
      exact ⟨[_], rfl, rfl, eventLoopSpec_break a h1⟩
    · rw [if_neg h1]
      by_cases h2 : XR_FAILED a.result = true
      · rw [if_pos h2]
        exact ⟨[_], rfl, rfl, eventLoopSpec_pollFailed a h1 h2⟩
      · rw [if_neg h2]
        split
        next hev =>
          by_cases h3 : XR_FAILED b.result = true
          · rw [if_pos h3]
            exact ⟨[_, _], List.append_assoc _ _ _, rfl, eventLoopSpec_readyFailed a b h1 hev⟩
          · rw [if_neg h3]
            obtain ⟨ext, hlog, hvr, hspec⟩ := ih
              { vr := s.vr, log := s.log ++ [{ call := XrCall.xrPollEvent, answer := a }]
                  ++ [{ call := XrCall.xrBeginSession, answer := b }] }
            refine ⟨[{ call := XrCall.xrPollEvent, answer := a },
              { call := XrCall.xrBeginSession, answer := b }] ++ ext, ?_, hvr, ?_⟩
            · rw [hlog]; simp
            · refine eventLoopSpec_prepend _ _ _ hspec ?_
              intro e he
              simp only [List.mem_cons, List.mem_singleton, List.not_mem_nil, or_false] at he
              rcases he with he | he
              · subst he
                exact ⟨Or.inl rfl, polledStop_false_of_event _ (by simp [hev, isStopEvent, isSessionStop]),
                  fun _ => h1⟩
              · subst he
                exact ⟨Or.inr (Or.inl rfl), polledStop_false_of_call _ (by simp),
                  fun h => absurd h (by simp)⟩
        next hev =>
          refine ⟨[{ call := XrCall.xrPollEvent, answer := a },
              { call := XrCall.xrEndSession, answer := b }], ?_, ?_, ?_⟩
          · split_ifs <;> simp
          · split_ifs <;> rfl
          · have := eventLoopSpec_stopping a b h1 hev
            split_ifs at this ⊢ <;> exact this
        next hev =>
          exact ⟨[_], rfl, rfl, eventLoopSpec_stopOther a h1 (by simp [hev])⟩
        next hev =>
          exact ⟨[_], rfl, rfl, eventLoopSpec_stopOther a h1 (by simp [hev])⟩
        next st hne1 hne2 hne3 hne4 hev =>
          refine again h1 ?_
          rw [hev]
          cases st <;> simp_all [isStopEvent, isSessionStop]
        next hev =>
          exact ⟨[_], rfl, rfl, eventLoopSpec_stopOther a h1 (by simp [hev])⟩
        next hev =>
          exact again h1 (by simp [hev, isStopEvent, isSessionStop])

/-- One iteration of the acquire loop: it logs no poll and no release, and
it moves the monitor of its own eye from "free" to "held". -/
theorem FrameStart_eye_spec (rt : Nat → XrAnswer) (eye : Fin 2) (s : Sys) :
    ∃ ext, (FrameStart_eye rt eye s).2.log = s.log ++ ext
      ∧ (∀ e ∈ ext, e.call ≠ XrCall.xrPollEvent)
      ∧ (∀ (eye2 : Fin 2) (h : Bool), acquireMonitor eye2 h ext
          = if eye2 = eye then (if h then none else some true) else some h) := by
  simp only [FrameStart_eye, xr]
  split_ifs <;>
    simp only [List.append_assoc, List.singleton_append, List.cons_append, List.nil_append] <;>
    refine ⟨_, rfl, ?_, ?_⟩
  all_goals first
    | (intro e he
       simp only [List.mem_cons, List.mem_singleton, List.not_mem_nil, or_false] at he
       rcases he with he | he | he <;> simp [he])
    | (intro e he
       simp only [List.mem_cons, List.mem_singleton, List.not_mem_nil, or_false] at he
       rcases he with he | he <;> simp [he])
    | (intro e he
       simp only [List.mem_cons, List.mem_singleton, List.not_mem_nil, or_false] at he
       simp [he])
    | (intro eye2 h
       by_cases heq : eye2 = eye
       · subst heq
         cases h <;> simp [acquireMonitor]
       · have heq2 : ¬ eye = eye2 := fun h => heq h.symm
         cases h <;> simp [acquireMonitor, heq, heq2])

/-- The calls of the frame part of `FrameStart`: `xrWaitFrame` first, no
poll after it, and the acquire/release monitor of either eye, started
"free", accepts them. -/
theorem FrameStart_frame_spec (rt : Nat → XrAnswer) (s : Sys) :
    ∃ rest, (FrameStart_frame rt s).2.log
        = s.log ++ { call := XrCall.xrWaitFrame, answer := rt s.log.length } :: rest
      ∧ (∀ e ∈ rest, e.call ≠ XrCall.xrPollEvent)
      ∧ (∀ eye, ∃ h, acquireMonitor eye false
          ({ call := XrCall.xrWaitFrame, answer := rt s.log.length } :: rest) = some h) := by
  simp only [FrameStart_frame, xr]
  by_cases hw : XR_FAILED (rt s.log.length).result = true
  · rw [if_pos hw]
    exact ⟨[], rfl, by simp, fun eye => ⟨false, by simp [acquireMonitor]⟩⟩
  · rw [if_neg hw]
    split_ifs with hb
    · exact ⟨[_], List.append_assoc _ _ _, by simp, fun eye => ⟨false, by simp [acquireMonitor]⟩⟩
    · generalize hs2 : ({ vr := { s.vr with m_xrFrameState := (rt s.log.length).frameState }
                          log := s.log ++ [{ call := XrCall.xrWaitFrame, answer := rt s.log.length }]
                            ++ [{ call := XrCall.xrBeginFrame
                                  answer := rt (s.log ++ [({ call := XrCall.xrWaitFrame
                                                             answer := rt s.log.length } : LogEntry)]).length }] }
                        : Sys) = s2
      have hlog2 : s2.log = s.log ++ [{ call := XrCall.xrWaitFrame, answer := rt s.log.length },
          { call := XrCall.xrBeginFrame
            answer := rt (s.log ++ [({ call := XrCall.xrWaitFrame
                                       answer := rt s.log.length } : LogEntry)]).length }] := by
        rw [← hs2]; simp
      obtain ⟨e0, hl0, hp0, hm0⟩ := FrameStart_eye_spec rt 0 s2
      rcases h0 : FrameStart_eye rt 0 s2 with ⟨x0, s3⟩
      rw [h0] at hl0
      simp only at hl0
      cases x0 with
      | some e =>
        refine ⟨{ call := XrCall.xrBeginFrame
                  answer := rt (s.log ++ [({ call := XrCall.xrWaitFrame
                                             answer := rt s.log.length } : LogEntry)]).length } :: e0,
          ?_, ?_, ?_⟩
        · simp only [hl0, hlog2]; simp
        · intro e he
          rcases List.mem_cons.mp he with he | he
          · simp [he]
          · exact hp0 e he
        · intro eye
          rw [show ∀ (a b : LogEntry) (l : List LogEntry), a :: b :: l = [a, b] ++ l from
            fun _ _ _ => rfl, acquireMonitor_append]
          fin_cases eye <;> simp [acquireMonitor, hm0]
      | none =>
        simp only
        obtain ⟨e1, hl1, hp1, hm1⟩ := FrameStart_eye_spec rt 1 s3
        rcases h1 : FrameStart_eye rt 1 s3 with ⟨x1, s4⟩
        rw [h1] at hl1
        simp only at hl1
        cases x1 with
        | some e =>
          refine ⟨{ call := XrCall.xrBeginFrame
                    answer := rt (s.log ++ [({ call := XrCall.xrWaitFrame
                                               answer := rt s.log.length } : LogEntry)]).length }
                    :: (e0 ++ e1), ?_, ?_, ?_⟩
          · simp only [hl1, hl0, hlog2]; simp
          · intro e he
            rcases List.mem_cons.mp he with he | he
            · simp [he]
            · rcases List.mem_append.mp he with he | he
              · exact hp0 e he
              · exact hp1 e he
          · intro eye
            rw [show ∀ (a b : LogEntry) (l : List LogEntry), a :: b :: l = [a, b] ++ l from
              fun _ _ _ => rfl]
            simp only [acquireMonitor_append]
            fin_cases eye <;> simp [acquireMonitor, hm0, hm1]
        | none =>
          simp only
          refine ⟨{ call := XrCall.xrBeginFrame
                    answer := rt (s.log ++ [({ call := XrCall.xrWaitFrame
                                               answer := rt s.log.length } : LogEntry)]).length }
                    :: (e0 ++ (e1 ++ [{ call := XrCall.xrLocateViews
                                                  s4.vr.m_xrFrameState.predictedDisplayTime
                                        answer := rt s4.log.length }])), ?_, ?_, ?_⟩
          · split_ifs <;> simp only [hl1, hl0, hlog2] <;> simp
          · intro e he
            rcases List.mem_cons.mp he with he | he
            · simp [he]
            · rcases List.mem_append.mp he with he | he
              · exact hp0 e he
              · rcases List.mem_append.mp he with he | he
                · exact hp1 e he
                · simp [List.mem_singleton.mp he]
          · intro eye
            rw [show ∀ (a b : LogEntry) (l : List LogEntry), a :: b :: l = [a, b] ++ l from
              fun _ _ _ => rfl]
            simp only [acquireMonitor_append]
            fin_cases eye <;> simp [acquireMonitor, hm0, hm1]

/-- The two shapes of what one `FrameStart` call logs: the event loop alone
when the function is left from inside it, or the event loop left by `break`
followed by the frame part. -/
theorem FrameStart_cases (rt : Nat → XrAnswer) (fuel : Nat) (s : Sys) :
    (∃ e, (FrameStart rt fuel s).1 = e
        ∧ (FrameStart rt fuel s).2.log = s.log ++ FrameStart_calls rt fuel s
        ∧ EventLoopSpec (some e) (FrameStart_calls rt fuel s)) ∨
    (∃ evs a rest,
        (FrameStart rt fuel s).2.log = s.log ++ FrameStart_calls rt fuel s
        ∧ FrameStart_calls rt fuel s = evs ++ { call := XrCall.xrWaitFrame, answer := a } :: rest
        ∧ EventLoopSpec none evs
        ∧ (∀ e ∈ rest, e.call ≠ XrCall.xrPollEvent)
        ∧ (∀ eye, ∃ h, acquireMonitor eye false
            ({ call := XrCall.xrWaitFrame, answer := a } :: rest) = some h)) := by
  obtain ⟨evs, hlog, -, hspec⟩ := FrameStart_events_spec rt fuel s
  rcases hev : FrameStart_events rt fuel s with ⟨x, s1⟩
  rw [hev] at hlog hspec
  simp only at hlog hspec
  cases x with
  | some e =>
    left
    have hF : FrameStart rt fuel s = (e, s1) := by simp only [FrameStart, hev]
    have hc : FrameStart_calls rt fuel s = evs := by
      simp [FrameStart_calls, hF, hlog]
    exact ⟨e, by rw [hF], by rw [hc, hF, hlog], by rw [hc]; exact hspec⟩
  | none =>
    right
    have hF : FrameStart rt fuel s = FrameStart_frame rt s1 := by simp only [FrameStart, hev]
    obtain ⟨rest, hl, hp, hm⟩ := FrameStart_frame_spec rt s1
    have hlog2 : (FrameStart rt fuel s).2.log
        = s.log ++ (evs ++ { call := XrCall.xrWaitFrame, answer := rt s1.log.length } :: rest) := by
      rw [hF, hl, hlog, List.append_assoc]
    have hc : FrameStart_calls rt fuel s
        = evs ++ { call := XrCall.xrWaitFrame, answer := rt s1.log.length } :: rest := by
      simp [FrameStart_calls, hlog2]
    exact ⟨evs, rt s1.log.length, rest, by rw [hc, hlog2], hc, hspec, hp, hm⟩

theorem FrameStart_log (rt : Nat → XrAnswer) (fuel : Nat) (s : Sys) :
    (FrameStart rt fuel s).2.log = s.log ++ FrameStart_calls rt fuel s := by
  rcases FrameStart_cases rt fuel s with ⟨_, _, h, _⟩ | ⟨_, _, _, h, _⟩ <;> exact h

/-- The monitor of either eye, started "free", accepts what one `FrameStart`
call logs. -/
theorem FrameStart_monitor (rt : Nat → XrAnswer) (fuel : Nat) (s : Sys) (eye : Fin 2) :
    ∃ h, acquireMonitor eye false (FrameStart_calls rt fuel s) = some h := by
  have quiet : ∀ (x : Option Exit) (evs : List LogEntry), EventLoopSpec x evs →
      acquireMonitor eye false evs = some false := by
    intro x evs hspec
    refine acquireMonitor_quiet eye evs false ?_
    intro e he
    rcases hspec.1 e he with h | h | h <;> simp [h]
  rcases FrameStart_cases rt fuel s with ⟨e, _, _, hspec⟩ | ⟨evs, a, rest, _, hc, hspec, _, hm⟩
  · exact ⟨false, quiet _ _ hspec⟩
  · rw [hc, acquireMonitor_append, quiet _ _ hspec]
    exact hm eye

theorem FrameEnd_release_spec (rt : Nat → XrAnswer) (eye : Fin 2) (s : Sys) :
    (FrameEnd_release rt eye s).2.log
        = s.log ++ [{ call := XrCall.xrReleaseSwapchainImage eye, answer := rt s.log.length }]
      ∧ (FrameEnd_release rt eye s).2.vr = s.vr
      ∧ ((FrameEnd_release rt eye s).1 = none
          ∨ (FrameEnd_release rt eye s).1 = some Exit.threw) := by
  simp only [FrameEnd_release, xr]
  split_ifs <;> simp

theorem FrameEnd_flip_spec (rt : Nat → XrAnswer) (s : Sys) :
    ∃ q, (if s.vr.m_useD3DInterop then FrameEnd_flip rt 1 (FrameEnd_flip rt 0 s) else s).log
        = s.log ++ q
      ∧ ∀ (eye : Fin 2) (h : Bool), acquireMonitor eye h q = some h := by
  simp only [FrameEnd_flip, xr]
  split_ifs
  · simp only [List.append_assoc, List.singleton_append, List.cons_append, List.nil_append]
    refine ⟨_, rfl, ?_⟩
    intro eye h
    simp [acquireMonitor]
  · exact ⟨[], by simp, fun eye h => rfl⟩

/-- What `FrameEnd` logs is accepted by the monitor of either eye from any
state, and leaves it "free" when `FrameEnd` returns. -/
theorem FrameEnd_monitor (rt : Nat → XrAnswer) (s : Sys) :
    ∃ ext, (FrameEnd rt s).2.log = s.log ++ ext
      ∧ ∀ (eye : Fin 2) (h : Bool), ∃ h2, acquireMonitor eye h ext = some h2
          ∧ ((FrameEnd rt s).1 = Exit.returned → h2 = false) := by
  obtain ⟨q, hq, hmq⟩ := FrameEnd_flip_spec rt s
  simp only [FrameEnd]
  generalize (if s.vr.m_useD3DInterop then FrameEnd_flip rt 1 (FrameEnd_flip rt 0 s) else s) = s0
    at hq ⊢
  obtain ⟨hl0, -, hx0⟩ := FrameEnd_release_spec rt 0 s0
  rcases h0 : FrameEnd_release rt 0 s0 with ⟨x0, s1⟩
  rw [h0] at hl0 hx0
  simp only at hl0 hx0
  rcases hx0 with hx0 | hx0
  · subst hx0
    simp only
    obtain ⟨hl1, -, hx1⟩ := FrameEnd_release_spec rt 1 s1
    rcases h1 : FrameEnd_release rt 1 s1 with ⟨x1, s2⟩
    rw [h1] at hl1 hx1
    simp only at hl1 hx1
    rcases hx1 with hx1 | hx1
    · subst hx1
      simp only [xr]
      refine ⟨q ++ [{ call := XrCall.xrReleaseSwapchainImage 0, answer := rt s0.log.length },
        { call := XrCall.xrReleaseSwapchainImage 1, answer := rt s1.log.length },
        { call := XrCall.xrEndFrame
            { displayTime := s2.vr.m_xrFrameState.predictedDisplayTime, layerCount := 0
              projectionViews := [{ view := s0.vr.m_xrViews 0, swapchain := 0 },
                                  { view := s0.vr.m_xrViews 1, swapchain := 1 }] }
          answer := rt s2.log.length }], ?_, ?_⟩
      · split_ifs <;> simp only [hl1, hl0, hq] <;> simp
      · intro eye h
        rw [acquireMonitor_append, hmq]
        fin_cases eye <;> simp [acquireMonitor]
    · subst hx1
      simp only
      refine ⟨q ++ [{ call := XrCall.xrReleaseSwapchainImage 0, answer := rt s0.log.length },
        { call := XrCall.xrReleaseSwapchainImage 1, answer := rt s1.log.length }], ?_, ?_⟩
      · simp only [hl1, hl0, hq]; simp
      · intro eye h
        rw [acquireMonitor_append, hmq]
        fin_cases eye <;> simp [acquireMonitor]
  · subst hx0
    simp only
    refine ⟨q ++ [{ call := XrCall.xrReleaseSwapchainImage 0, answer := rt s0.log.length }], ?_, ?_⟩
    · simp only [hl0, hq]; simp
    · intro eye h
      rw [acquireMonitor_append, hmq]
      fin_cases eye <;> simp [acquireMonitor]

theorem noAdjacentFrameStarts_tail (op : Op) (ops : List Op)
    (h : noAdjacentFrameStarts (op :: ops) = true) : noAdjacentFrameStarts ops = true := by
  cases op <;> cases ops with
  | nil => rfl
  | cons op2 rest => cases op2 <;> simp_all [noAdjacentFrameStarts]

theorem noAdjacentFrameStarts_head (ops : List Op)
    (h : noAdjacentFrameStarts (Op.frameStart :: ops) = true) :
    ops.head? ≠ some Op.frameStart := by
  cases ops with
  | nil => simp
  | cons op2 rest => cases op2 <;> simp_all [noAdjacentFrameStarts]

/-- Along a run with no two adjacent `FrameStart` calls the monitor of
either eye accepts the whole log. -/
theorem runOps_monitor (rt : Nat → XrAnswer) (fuel : Nat) (eye : Fin 2) (ops : List Op) :
    ∀ (s : Sys) (h0 : Bool), noAdjacentFrameStarts ops = true →
      acquireMonitor eye false s.log = some h0 →
      (h0 = false ∨ ops.head? ≠ some Op.frameStart) →
      ∃ h, acquireMonitor eye false (runOps rt fuel ops s).2.log = some h := by
  induction ops with
  | nil =>
    intro s h0 _ hm _
    exact ⟨h0, hm⟩
  | cons op ops ih =>
    intro s h0 hchain hm hfree
    -- the state after this wrapper call satisfies the monitor
    have hstep : ∃ h1, acquireMonitor eye false (wrapper rt fuel op s).2.log = some h1
        ∧ (op = Op.frameEnd → (wrapper rt fuel op s).1 = Exit.returned → h1 = false) := by
      cases op with
      | frameStart =>
        have hfalse : h0 = false := by
          rcases hfree with h | h
          · exact h
          · exact absurd rfl h
        subst hfalse
        obtain ⟨h1, hh1⟩ := FrameStart_monitor rt fuel s eye
        refine ⟨h1, ?_, fun h => absurd h (by simp)⟩
        simp only [wrapper]
        rw [FrameStart_log, acquireMonitor_append, hm]
        exact hh1
      | frameEnd =>
        obtain ⟨ext, hl, hmon⟩ := FrameEnd_monitor rt s
        obtain ⟨h2, hh2, hret⟩ := hmon eye h0
        refine ⟨h2, ?_, fun _ hr => hret hr⟩
        simp only [wrapper]
        rw [hl, acquireMonitor_append, hm]
        exact hh2
    obtain ⟨h1, hh1, hend⟩ := hstep
    rcases hw : wrapper rt fuel op s with ⟨x, s1⟩
    rw [hw] at hh1 hend
    simp only at hh1 hend
    simp only [runOps, hw]
    cases x with
    | returned =>
      simp only
      refine ih s1 h1 (noAdjacentFrameStarts_tail _ _ hchain) hh1 ?_
      cases op with
      | frameEnd => exact Or.inl (hend rfl rfl)
      | frameStart => exact Or.inr (noAdjacentFrameStarts_head _ hchain)
    | threw => exact ⟨h1, hh1⟩
    | outOfFuel => exact ⟨h1, hh1⟩

end XrLemmas

section XrClaims

/-- C8, as stated, fails: two `FrameStart` calls in a row (empty event
queue, every call succeeding) acquire the image of eye 0 twice (calls 3 and
11 of the log) with no release in between. -/
theorem FrameStart_twice_acquires_twice :
    ¬ AcquireReleaseDiscipline 0
      (runOps idleRuntime 4 [Op.frameStart, Op.frameStart] (freshBackend false)).2.log := by
  intro h
  have hb := h
    ((runOps idleRuntime 4 [Op.frameStart, Op.frameStart] (freshBackend false)).2.log.take 3)
    (((runOps idleRuntime 4 [Op.frameStart, Op.frameStart] (freshBackend false)).2.log.drop 4).take 7)
    ((runOps idleRuntime 4 [Op.frameStart, Op.frameStart] (freshBackend false)).2.log.drop 12)
    { call := XrCall.xrAcquireSwapchainImage 0, answer := success }
    { call := XrCall.xrAcquireSwapchainImage 0, answer := success }
    (by decide) rfl rfl
  revert hb
  decide

/-- C8, amended. In every run of `wrapper_frameStart` / `wrapper_frameEnd`
calls, started with an empty log, in which no `FrameStart` call directly
follows another one, between any two `xrAcquireSwapchainImage` calls on the
swapchain of an eye there is an `xrReleaseSwapchainImage` call on it. -/
theorem runOps_acquire_release (rt : Nat → XrAnswer) (fuel : Nat) (ops : List Op)
    (vr : VrOpenXr) (eye : Fin 2) (hops : noAdjacentFrameStarts ops = true) :
    AcquireReleaseDiscipline eye (runOps rt fuel ops { vr := vr, log := [] }).2.log := by
  obtain ⟨h, hm⟩ := runOps_monitor rt fuel eye ops { vr := vr, log := [] } false hops rfl
    (Or.inl rfl)
  exact acquireMonitor_sound eye _ false h hm

/-- Witness of C8 amended: `FrameStart`, `FrameEnd`, `FrameStart` with an
empty event queue; the log holds two acquires of eye 0 and a release between
them. -/
theorem runOps_acquire_release_witness :
    noAdjacentFrameStarts [Op.frameStart, Op.frameEnd, Op.frameStart] = true ∧
    AcquireReleaseDiscipline 0
      (runOps frameLoopRuntime 4 [Op.frameStart, Op.frameEnd, Op.frameStart]
        (freshBackend false)).2.log ∧
    ((runOps frameLoopRuntime 4 [Op.frameStart, Op.frameEnd, Op.frameStart]
        (freshBackend false)).2.log.map (fun e => e.call)).count
      (XrCall.xrAcquireSwapchainImage 0) = 2 :=
  ⟨by decide,
   runOps_acquire_release frameLoopRuntime 4 [Op.frameStart, Op.frameEnd, Op.frameStart]
     (freshBackend false).vr 0 (by decide),
   by decide⟩

/-- C9, as stated, fails. First run: one `FrameStart` call with an empty
event queue requests a frame although no `READY` event was ever processed.
Second run: `READY` and `STOPPING` are processed by a first `FrameStart`
call, and the next call, finding the queue empty, requests a frame. -/
theorem FrameStart_requests_frame_outside_running :
    ¬ FramesOnlyWhileRunning
        (runOps idleRuntime 4 [Op.frameStart] (freshBackend false)).2.log ∧
    ¬ FramesOnlyWhileRunning
        (runOps stoppedRuntime 4 [Op.frameStart, Op.frameStart] (freshBackend false)).2.log := by
  constructor
  · intro h
    have hb := (h
      ((runOps idleRuntime 4 [Op.frameStart] (freshBackend false)).2.log.take 1)
      ((runOps idleRuntime 4 [Op.frameStart] (freshBackend false)).2.log.drop 2)
      { call := XrCall.xrWaitFrame, answer := success }
      (by decide) rfl).1
    revert hb
    decide
  · intro h
    have hb := (h
      ((runOps stoppedRuntime 4 [Op.frameStart, Op.frameStart] (freshBackend false)).2.log.take 5)
      ((runOps stoppedRuntime 4 [Op.frameStart, Op.frameStart] (freshBackend false)).2.log.drop 6)
      { call := XrCall.xrWaitFrame, answer := success }
      (by decide) rfl).2
    revert hb
    decide

/-- C9, amended. `FrameStart` keeps no session state from call to call: a
call entered in any state requests a frame if and only if its own event
drain reached `XR_EVENT_UNAVAILABLE`; when it requests a frame, `xrWaitFrame`
is among its calls and no `STOPPING`, `EXITING`, `LOSS_PENDING`
or instance-loss event was polled in that call. -/
theorem FrameStart_frame_iff_drained (rt : Nat → XrAnswer) (fuel : Nat) (s : Sys) :
    ((∃ e ∈ FrameStart_calls rt fuel s, isFrameRequest e.call = true) ↔
      (∃ p ∈ FrameStart_calls rt fuel s,
        p.call = XrCall.xrPollEvent ∧ p.answer.result = XR_EVENT_UNAVAILABLE)) ∧
    ((∃ e ∈ FrameStart_calls rt fuel s, isFrameRequest e.call = true) →
      (∃ w ∈ FrameStart_calls rt fuel s, w.call = XrCall.xrWaitFrame) ∧
      (∀ p ∈ FrameStart_calls rt fuel s, polledStop p = false)) := by
  rcases FrameStart_cases rt fuel s with ⟨x, _, _, hspec⟩ | ⟨evs, a, rest, _, hc, hspec, hp, _⟩
  · -- left from inside the loop: no frame request, no unavailable poll
    have hno : ¬ ∃ e ∈ FrameStart_calls rt fuel s, isFrameRequest e.call = true := by
      rintro ⟨e, he, hreq⟩
      rcases hspec.1 e he with h | h | h <;> rw [h] at hreq <;> simp [isFrameRequest] at hreq
    refine ⟨⟨fun h => absurd h hno, ?_⟩, fun h => absurd h hno⟩
    rintro ⟨p, hp, hcall, hres⟩
    exact absurd hres (hspec.2.2.1 (by simp) p hp hcall)
  · obtain ⟨⟨pre, b, hpre, hb⟩, hns⟩ := hspec.2.1 rfl
    have hw : ∃ w ∈ FrameStart_calls rt fuel s, w.call = XrCall.xrWaitFrame :=
      ⟨{ call := XrCall.xrWaitFrame, answer := a }, by rw [hc]; simp, rfl⟩
    have hreq : ∃ e ∈ FrameStart_calls rt fuel s, isFrameRequest e.call = true :=
      ⟨{ call := XrCall.xrWaitFrame, answer := a }, by rw [hc]; simp, rfl⟩
    have hpoll : ∃ p ∈ FrameStart_calls rt fuel s,
        p.call = XrCall.xrPollEvent ∧ p.answer.result = XR_EVENT_UNAVAILABLE :=
      ⟨{ call := XrCall.xrPollEvent, answer := b }, by rw [hc, hpre]; simp, rfl, hb⟩
    refine ⟨⟨fun _ => hpoll, fun _ => hreq⟩, fun _ => ⟨hw, ?_⟩⟩
    intro p hpin
    rw [hc] at hpin
    rcases List.mem_append.mp hpin with h | h
    · exact hns p h
    · rcases List.mem_cons.mp h with h | h
      · exact polledStop_false_of_call p (by rw [h]; simp)
      · exact polledStop_false_of_call p (hp p h)

/-- C10, as stated, fails: when the runtime reports `STOPPING` and the
`xrEndSession` call that follows fails, `FrameStart` does not return: it
leaves by the `throw` of `ThrowIfXrFailed`. -/
theorem FrameStart_stopping_may_throw :
    (∃ p ∈ FrameStart_calls failingStopRuntime 4 (freshBackend false),
      polledStop p = true
        ∧ p.answer.event = XrEvent.SESSION_STATE_CHANGED XrSessionState.STOPPING) ∧
    (FrameStart failingStopRuntime 4 (freshBackend false)).1 = Exit.threw ∧
    (FrameStart failingStopRuntime 4 (freshBackend false)).1 ≠ Exit.returned := by
  decide

/-- C10, amended. In every `FrameStart` call, `xrWaitFrame` is called only
after an `xrPollEvent` call of that call answered `XR_EVENT_UNAVAILABLE`; and
if a polled event is a stop event (`STOPPING`, `EXITING`, `LOSS_PENDING`
or instance loss), the call makes no `xrWaitFrame`, `xrBeginFrame` or
`xrAcquireSwapchainImage` call: for `STOPPING` the poll is followed by
`xrEndSession` and nothing else, and `FrameStart` returns if that call
succeeds and throws if it fails; for the other stop events the poll is the
last call and `FrameStart` returns. -/
theorem FrameStart_drains_before_frame (rt : Nat → XrAnswer) (fuel : Nat) (s : Sys) :
    (∀ (pre post : List LogEntry) (w : LogEntry),
      FrameStart_calls rt fuel s = pre ++ w :: post → w.call = XrCall.xrWaitFrame →
      ∃ p ∈ pre, p.call = XrCall.xrPollEvent ∧ p.answer.result = XR_EVENT_UNAVAILABLE) ∧
    (∀ p ∈ FrameStart_calls rt fuel s, polledStop p = true →
      (∀ e ∈ FrameStart_calls rt fuel s, isFrameRequest e.call = false) ∧
      (p.answer.event = XrEvent.SESSION_STATE_CHANGED XrSessionState.STOPPING →
        ∃ pre q, FrameStart_calls rt fuel s = pre ++ [p, q] ∧ q.call = XrCall.xrEndSession ∧
          (FrameStart rt fuel s).1
            = if XR_FAILED q.answer.result then Exit.threw else Exit.returned) ∧
      (p.answer.event ≠ XrEvent.SESSION_STATE_CHANGED XrSessionState.STOPPING →
        (∃ pre, FrameStart_calls rt fuel s = pre ++ [p]) ∧
          (FrameStart rt fuel s).1 = Exit.returned)) := by
  rcases FrameStart_cases rt fuel s with ⟨x, hx, _, hspec⟩ | ⟨evs, a, rest, _, hc, hspec, hp, _⟩
  · obtain ⟨s1, _, _, s4⟩ := hspec
    refine ⟨?_, ?_⟩
    · intro pre post w hw hcall
      have hmem : w ∈ FrameStart_calls rt fuel s := by rw [hw]; simp
      rcases s1 w hmem with h | h | h <;> rw [h] at hcall <;> simp at hcall
    · intro p hpin hstop
      obtain ⟨t1, t2⟩ := s4 p hpin hstop
      refine ⟨?_, ?_, ?_⟩
      · intro e he
        rcases s1 e he with h | h | h <;> rw [h] <;> rfl
      · intro hev
        obtain ⟨pre, q, hpre, hq, hexit⟩ := t1 hev
        refine ⟨pre, q, hpre, hq, ?_⟩
        rw [hx]
        exact Option.some.inj hexit
      · intro hev
        obtain ⟨hpre, hexit⟩ := t2 hev
        refine ⟨hpre, ?_⟩
        rw [hx]
        exact Option.some.inj hexit
  · obtain ⟨s1, s2, _, _⟩ := hspec
    obtain ⟨⟨pre0, b, hpre0, hb⟩, hns⟩ := s2 rfl
    refine ⟨?_, ?_⟩
    · intro pre post w hw hcall
      rw [hc] at hw
      rcases List.append_eq_append_iff.mp hw with ⟨a2, hpre, _⟩ | ⟨c2, hevs, hrest⟩
      · refine ⟨{ call := XrCall.xrPollEvent, answer := b }, ?_, rfl, hb⟩
        rw [hpre, hpre0]; simp
      · cases c2 with
        | nil =>
          refine ⟨{ call := XrCall.xrPollEvent, answer := b }, ?_, rfl, hb⟩
          have : evs = pre := by simpa using hevs
          rw [← this, hpre0]; simp
        | cons y c3 =>
          have hy : w = y := by
            have := List.head_eq_of_cons_eq hrest
            exact this
          have hmem : w ∈ evs := by rw [hevs, hy]; simp
          rcases s1 w hmem with h | h | h <;> rw [h] at hcall <;> simp at hcall
    · intro p hpin hstop
      rw [hc] at hpin
      have : polledStop p = false := by
        rcases List.mem_append.mp hpin with h | h
        · exact hns p h
        · rcases List.mem_cons.mp h with h | h
          · exact polledStop_false_of_call p (by rw [h]; simp)
          · exact polledStop_false_of_call p (hp p h)
      rw [this] at hstop
      exact absurd hstop (by simp)

end XrClaims


section InitLemmas

theorem mem_filledVector {α : Type} [DecidableEq α] (size : Nat) (init x : α)
    (written : List α) (hfit : written.length ≤ size) (hx : x ≠ init) :
    x ∈ filledVector size init written ↔ x ∈ written := by
  unfold filledVector
  rw [List.take_append_eq_append_take, List.take_of_length_le hfit]
  constructor
  · intro h
    rcases List.mem_append.mp h with h | h
    · exact h
    · have := List.mem_of_mem_take h
      exact absurd (List.eq_of_mem_replicate this) hx
  · intro h
    exact List.mem_append_left _ h

theorem Init_scanExtensions_foldl (l : List String) (flags : Bool × Bool) :
    l.foldl
      (fun (flags : Bool × Bool) (extensionName : String) =>
        if extensionName = XR_KHR_D3D11_enable then (flags.1, true)
        else if extensionName = XR_KHR_opengl_enable then (true, flags.2)
        else flags) flags
      = (flags.1 || decide (XR_KHR_opengl_enable ∈ l),
         flags.2 || decide (XR_KHR_D3D11_enable ∈ l)) := by
  induction l generalizing flags with
  | nil => simp
  | cons name rest ih =>
    rw [List.foldl_cons, ih]
    have hne : XR_KHR_opengl_enable ≠ XR_KHR_D3D11_enable := by decide
    by_cases h1 : name = XR_KHR_D3D11_enable
    · subst h1
      simp [hne, hne.symm]
    · by_cases h2 : name = XR_KHR_opengl_enable
      · subst h2
        simp [hne, hne.symm]
      · have h1b : ¬ XR_KHR_D3D11_enable = name := fun h => h1 h.symm
        have h2b : ¬ XR_KHR_opengl_enable = name := fun h => h2 h.symm
        simp [h1, h2, h1b, h2b]

theorem Init_scanExtensions_eq (l : List String) :
    Init_scanExtensions l
      = (decide (XR_KHR_opengl_enable ∈ l), decide (XR_KHR_D3D11_enable ∈ l)) := by
  unfold Init_scanExtensions
  rw [Init_scanExtensions_foldl]
  simp

theorem count_ne_zero_filledVector (size x : Nat) (written : List Nat)
    (hfit : written.length ≤ size) (hx : x ≠ 0) :
    ((filledVector size 0 written).count x != 0) = decide (x ∈ written) := by
  have h := mem_filledVector size 0 x written hfit hx
  by_cases hm : x ∈ written
  · have : 0 < (filledVector size 0 written).count x := List.count_pos_iff.mpr (h.mpr hm)
    simp [hm, Nat.pos_iff_ne_zero.mp this]
  · have : (filledVector size 0 written).count x = 0 :=
      List.count_eq_zero.mpr (fun hc => hm (h.mp hc))
    simp [hm, this]

theorem tapeOf_ok (answers : List XrAnswer)
    (h : ∀ a ∈ answers, XR_FAILED a.result = false) (n : Nat) :
    XR_FAILED (tapeOf answers n).result = false := by
  unfold tapeOf
  by_cases hn : n < answers.length
  · rw [List.getD_eq_getElem _ _ hn]
    exact h _ (List.getElem_mem _)
  · rw [List.getD_eq_default _ _ (not_lt.mp hn)]
    rfl

end InitLemmas

section InitClaims

/-- C12. Assuming every runtime call succeeds (and each enumeration fits the
capacity announced by its first call), `Init` on an object with an empty log
returns `1` exactly when the runtime lists `XR_KHR_opengl_enable`, or lists
`XR_KHR_D3D11_enable` while the GL driver has `NV_DX_interop2`, and the
system lists the primary-stereo view configuration and the opaque blend
mode; otherwise it returns `0`. When it returns `1` the instance was created
with `XR_KHR_opengl_enable` if that is listed and with `XR_KHR_D3D11_enable`
and `m_useD3DInterop = true` otherwise. -/
theorem Init_returns_one_iff (rt : Nat → XrAnswer) (WGLEW_NV_DX_interop2 : Bool)
    (vr : VrOpenXr)
    (hok : ∀ n, XR_FAILED (rt n).result = false)
    (hext : (rt 1).extensionNames.length ≤ (rt 0).count)
    (hview : (rt 5).viewConfigurations.length ≤ (rt 4).count)
    (hblend : (rt 7).blendModes.length ≤ (rt 6).count) :
    ((Init rt WGLEW_NV_DX_interop2 { vr := vr, log := [] }).1 = IntExit.returned 1 ↔
      (XR_KHR_opengl_enable ∈ (rt 1).extensionNames
        ∨ (XR_KHR_D3D11_enable ∈ (rt 1).extensionNames ∧ WGLEW_NV_DX_interop2 = true))
      ∧ XR_VIEW_CONFIGURATION_TYPE_PRIMARY_STEREO ∈ (rt 5).viewConfigurations
      ∧ XR_ENVIRONMENT_BLEND_MODE_OPAQUE ∈ (rt 7).blendModes) ∧
    ((Init rt WGLEW_NV_DX_interop2 { vr := vr, log := [] }).1 ≠ IntExit.returned 1 →
      (Init rt WGLEW_NV_DX_interop2 { vr := vr, log := [] }).1 = IntExit.returned 0) ∧
    ((Init rt WGLEW_NV_DX_interop2 { vr := vr, log := [] }).1 = IntExit.returned 1 →
      (XR_KHR_opengl_enable ∈ (rt 1).extensionNames →
        (∃ e ∈ (Init rt WGLEW_NV_DX_interop2 { vr := vr, log := [] }).2.log,
          e.call = XrCall.xrCreateInstance XR_KHR_opengl_enable) ∧
        (Init rt WGLEW_NV_DX_interop2 { vr := vr, log := [] }).2.vr.m_useD3DInterop
          = vr.m_useD3DInterop) ∧
      (XR_KHR_opengl_enable ∉ (rt 1).extensionNames →
        (∃ e ∈ (Init rt WGLEW_NV_DX_interop2 { vr := vr, log := [] }).2.log,
          e.call = XrCall.xrCreateInstance XR_KHR_D3D11_enable) ∧
        (Init rt WGLEW_NV_DX_interop2 { vr := vr, log := [] }).2.vr.m_useD3DInterop = true)) := by
  have hgl : XR_KHR_opengl_enable ≠ "" := by decide
  have hd3d : XR_KHR_D3D11_enable ≠ "" := by decide
  have e1 := mem_filledVector (rt 0).count "" XR_KHR_opengl_enable _ hext hgl
  have e2 := mem_filledVector (rt 0).count "" XR_KHR_D3D11_enable _ hext hd3d
  have e3 := count_ne_zero_filledVector (rt 4).count XR_VIEW_CONFIGURATION_TYPE_PRIMARY_STEREO
    _ hview (by decide)
  have e4 := count_ne_zero_filledVector (rt 6).count XR_ENVIRONMENT_BLEND_MODE_OPAQUE
    _ hblend (by decide)
  simp only [Init, Init_system, xr, hok, Init_scanExtensions_eq, List.length_nil,
    List.length_append, List.length_singleton, List.nil_append, Bool.false_eq_true, if_false,
    e1, e2, e3, e4, Nat.reduceAdd, zero_add]
  by_cases hA : XR_KHR_opengl_enable ∈ (rt 1).extensionNames <;>
    by_cases hB : XR_KHR_D3D11_enable ∈ (rt 1).extensionNames <;>
    by_cases hS : XR_VIEW_CONFIGURATION_TYPE_PRIMARY_STEREO ∈ (rt 5).viewConfigurations <;>
    by_cases hO : XR_ENVIRONMENT_BLEND_MODE_OPAQUE ∈ (rt 7).blendModes <;>
    cases WGLEW_NV_DX_interop2 <;>
    simp [hA, hB, hS, hO]

/-- Witness of C12: a runtime that lists only `XR_KHR_D3D11_enable`, with
`NV_DX_interop2` present, stereo and opaque: `Init` returns `1`. -/
theorem Init_returns_one_iff_witness :
    (Init d3dOnlyRuntime true (freshBackend false)).1 = IntExit.returned 1 :=
  (Init_returns_one_iff d3dOnlyRuntime true (freshBackend false).vr
      (tapeOf_ok _ (by decide)) (by decide) (by decide) (by decide)).1.mpr
    ⟨Or.inr ⟨by decide, rfl⟩, by decide, by decide⟩

/-- C13, at the failing inputs: when `xrWaitFrame` fails, `wrapper_frameStart`
is left by the exception, and so is `wrapper_frameEnd` when
`xrReleaseSwapchainImage` fails; `wrapper_init`, which has a `try`, returns
`0` when its first runtime call fails. -/
theorem wrapper_frame_exception_escapes :
    (wrapper failingWaitRuntime 4 Op.frameStart (freshBackend false)).1 = Exit.threw ∧
    (wrapper failingRuntime 4 Op.frameEnd (freshBackend false)).1 = Exit.threw ∧
    (Init failingRuntime true (freshBackend false)).1 = IntExit.threw ∧
    (wrapper_init failingRuntime true (freshBackend false)).1 = 0 := by
  decide

end InitClaims

section FrameEndClaims

theorem FrameEnd_flip_shape (rt : Nat → XrAnswer) (s : Sys) :
    ∃ q, (if s.vr.m_useD3DInterop then FrameEnd_flip rt 1 (FrameEnd_flip rt 0 s) else s).log
        = s.log ++ q
      ∧ (if s.vr.m_useD3DInterop then FrameEnd_flip rt 1 (FrameEnd_flip rt 0 s) else s).vr = s.vr
      ∧ q.map (fun e => e.call)
        = if s.vr.m_useD3DInterop then
            [XrCall.wglDXUnlockObjectsNV 0 (s.vr.m_currentSwapchainImageIndex 0),
             XrCall.d3dFlipDraw 0 (s.vr.m_currentSwapchainImageIndex 0)
               (s.vr.m_currentSwapchainImageIndex 0),
             XrCall.wglDXUnlockObjectsNV 1 (s.vr.m_currentSwapchainImageIndex 1),
             XrCall.d3dFlipDraw 1 (s.vr.m_currentSwapchainImageIndex 1)
               (s.vr.m_currentSwapchainImageIndex 1)]
          else [] := by
  simp only [FrameEnd_flip, xr]
  split_ifs
  · simp only [List.append_assoc, List.singleton_append, List.cons_append, List.nil_append]
    exact ⟨_, rfl, trivial, rfl⟩
  · exact ⟨[], by simp, rfl, rfl⟩

/-- The shape of what `FrameEnd` logs: the interop calls (when interop is in
use), then only releases and the `xrEndFrame` call, whose `layerCount` is `0`. -/
theorem FrameEnd_shape (rt : Nat → XrAnswer) (s : Sys) :
    ∃ q rest, FrameEnd_calls rt s = q ++ rest
      ∧ q.map (fun e => e.call)
        = (if s.vr.m_useD3DInterop then
            [XrCall.wglDXUnlockObjectsNV 0 (s.vr.m_currentSwapchainImageIndex 0),
             XrCall.d3dFlipDraw 0 (s.vr.m_currentSwapchainImageIndex 0)
               (s.vr.m_currentSwapchainImageIndex 0),
             XrCall.wglDXUnlockObjectsNV 1 (s.vr.m_currentSwapchainImageIndex 1),
             XrCall.d3dFlipDraw 1 (s.vr.m_currentSwapchainImageIndex 1)
               (s.vr.m_currentSwapchainImageIndex 1)]
          else [])
      ∧ ∀ e ∈ rest, (∃ eye, e.call = XrCall.xrReleaseSwapchainImage eye)
          ∨ e.call = XrCall.xrEndFrame
              { displayTime := s.vr.m_xrFrameState.predictedDisplayTime
                layerCount := 0
                projectionViews := [{ view := s.vr.m_xrViews 0, swapchain := 0 },
                                    { view := s.vr.m_xrViews 1, swapchain := 1 }] } := by
  obtain ⟨q, hq, hvq, hmq⟩ := FrameEnd_flip_shape rt s
  simp only [FrameEnd_calls, FrameEnd]
  generalize (if s.vr.m_useD3DInterop then FrameEnd_flip rt 1 (FrameEnd_flip rt 0 s) else s) = s0
    at hq hvq ⊢
  obtain ⟨hl0, hv0, hx0⟩ := FrameEnd_release_spec rt 0 s0
  rcases h0 : FrameEnd_release rt 0 s0 with ⟨x0, s1⟩
  rw [h0] at hl0 hx0 hv0
  simp only at hl0 hx0 hv0
  rcases hx0 with hx0 | hx0
  · subst hx0
    simp only
    obtain ⟨hl1, hv1, hx1⟩ := FrameEnd_release_spec rt 1 s1
    rcases h1 : FrameEnd_release rt 1 s1 with ⟨x1, s2⟩
    rw [h1] at hl1 hx1 hv1
    simp only at hl1 hx1 hv1
    rcases hx1 with hx1 | hx1
    · subst hx1
      simp only [xr]
      refine ⟨q, [{ call := XrCall.xrReleaseSwapchainImage 0, answer := rt s0.log.length },
        { call := XrCall.xrReleaseSwapchainImage 1, answer := rt s1.log.length },
        { call := XrCall.xrEndFrame
            { displayTime := s2.vr.m_xrFrameState.predictedDisplayTime, layerCount := 0
              projectionViews := [{ view := s0.vr.m_xrViews 0, swapchain := 0 },
                                  { view := s0.vr.m_xrViews 1, swapchain := 1 }] }
          answer := rt s2.log.length }], ?_, hmq, ?_⟩
      · split_ifs <;> simp only [hl1, hl0, hq] <;> simp
      · intro e he
        simp only [List.mem_cons, List.mem_singleton, List.not_mem_nil, or_false] at he
        rcases he with he | he | he
        · exact Or.inl ⟨0, by rw [he]⟩
        · exact Or.inl ⟨1, by rw [he]⟩
        · right
          rw [he, hv1, hv0, hvq]
    · subst hx1
      simp only
      refine ⟨q, [{ call := XrCall.xrReleaseSwapchainImage 0, answer := rt s0.log.length },
        { call := XrCall.xrReleaseSwapchainImage 1, answer := rt s1.log.length }], ?_, hmq, ?_⟩
      · simp only [hl1, hl0, hq]; simp
      · intro e he
        simp only [List.mem_cons, List.mem_singleton, List.not_mem_nil, or_false] at he
        rcases he with he | he
        · exact Or.inl ⟨0, by rw [he]⟩
        · exact Or.inl ⟨1, by rw [he]⟩
  · subst hx0
    simp only
    refine ⟨q, [{ call := XrCall.xrReleaseSwapchainImage 0, answer := rt s0.log.length }],
      ?_, hmq, ?_⟩
    · simp only [hl0, hq]; simp
    · intro e he
      exact Or.inl ⟨0, by rw [List.mem_singleton.mp he]⟩

/-- C19. In every `FrameEnd` call with `m_useD3DInterop` set, the calls
begin with: unlock of the interop buffer of eye 0 at its current image
index, one flip draw for eye 0 into the swapchain image of that index from
the intermediate buffer of that index, then the same two calls for eye 1;
every later call is an `xrReleaseSwapchainImage` or the `xrEndFrame`. With
interop not in use, `FrameEnd` makes no unlock and no flip draw: every call
is a release or the `xrEndFrame`. -/
theorem FrameEnd_flips_before_release (rt : Nat → XrAnswer) (s : Sys) :
    (s.vr.m_useD3DInterop = true →
      ∃ rest, (FrameEnd_calls rt s).map (fun e => e.call)
          = [XrCall.wglDXUnlockObjectsNV 0 (s.vr.m_currentSwapchainImageIndex 0),
             XrCall.d3dFlipDraw 0 (s.vr.m_currentSwapchainImageIndex 0)
               (s.vr.m_currentSwapchainImageIndex 0),
             XrCall.wglDXUnlockObjectsNV 1 (s.vr.m_currentSwapchainImageIndex 1),
             XrCall.d3dFlipDraw 1 (s.vr.m_currentSwapchainImageIndex 1)
               (s.vr.m_currentSwapchainImageIndex 1)] ++ rest
        ∧ ∀ c ∈ rest, (∃ eye, c = XrCall.xrReleaseSwapchainImage eye)
            ∨ ∃ endInfo, c = XrCall.xrEndFrame endInfo) ∧
    (s.vr.m_useD3DInterop = false →
      ∀ c ∈ (FrameEnd_calls rt s).map (fun e => e.call),
        (∃ eye, c = XrCall.xrReleaseSwapchainImage eye)
          ∨ ∃ endInfo, c = XrCall.xrEndFrame endInfo) := by
  obtain ⟨q, rest, hc, hq, hrest⟩ := FrameEnd_shape rt s
  have hr : ∀ c ∈ rest.map (fun e => e.call), (∃ eye, c = XrCall.xrReleaseSwapchainImage eye)
      ∨ ∃ endInfo, c = XrCall.xrEndFrame endInfo := by
    intro c hcm
    obtain ⟨e, he, rfl⟩ := List.mem_map.mp hcm
    rcases hrest e he with h | h
    · exact Or.inl h
    · exact Or.inr ⟨_, h⟩
  refine ⟨?_, ?_⟩
  · intro hi
    rw [hi] at hq
    exact ⟨rest.map (fun e => e.call), by rw [hc, List.map_append, hq]; rfl, hr⟩
  · intro hi
    rw [hi] at hq
    have hq2 : q = [] := by simpa using hq
    rw [hc, hq2, List.nil_append]
    exact hr

/-- C20, at the failing input: after a `FrameStart` in which `xrWaitFrame`
reported `shouldRender = true`, `FrameEnd` (every call succeeding) passes
`layerCount = 0` to `xrEndFrame`, not `1`. -/
theorem FrameEnd_layerCount_zero :
    (runOps frameLoopRuntime 4 [Op.frameStart] (freshBackend false)).2.vr.m_xrFrameState.shouldRender
      = true ∧
    ((runOps frameLoopRuntime 4 [Op.frameStart, Op.frameEnd] (freshBackend false)).2.log.map
        (fun e => e.call)).getLast?
      = some (XrCall.xrEndFrame
          { displayTime := 1000, layerCount := 0
            projectionViews := [{ view := 0, swapchain := 0 }, { view := 1, swapchain := 1 }] }) := by
  decide

end FrameEndClaims


/-! ## Part 5. Theorems about the renderer state of `r_vr_rift.c` -/

section RendererLemmas

variable {K : Type} [LinearOrderedField K]

theorem calculateState_eyeFBO (env : RiftEnv K) (g : RiftGlobals K) (junk : vr_param_t K)
    (eye : Fin 2) :
    ((Rift_CalculateState env g junk).1.renderInfo eye).eyeFBO = (g.renderInfo eye).eyeFBO := by
  fin_cases eye <;> simp [Rift_CalculateState, Rift_CalculateState_eye, Function.update]

/-- What lines 163-179 of `Rift_SetOffscreenSize` do to the state. -/
theorem Rift_SetOffscreenSize_recreate_spec (env : RendererEnv K) (width height : Nat)
    (s : RiftState K) :
    (∀ eye, ((Rift_SetOffscreenSize_recreate env width height s).g.renderInfo eye).eyeFBO
        = (s.g.renderInfo eye).eyeFBO) ∧
    (∀ eye, ((Rift_SetOffscreenSize_recreate env width height s).g.renderInfo eye).eyeFov
        = selectEyeFov env.toRiftEnv eye) ∧
    (Rift_SetOffscreenSize_recreate env width height s).currentFBO = 0 ∧
    (Rift_SetOffscreenSize_recreate env width height s).vr_rift_maxfov_modified
        = s.vr_rift_maxfov_modified ∧
    (Rift_SetOffscreenSize_recreate env width height s).currentState
        = (Rift_CalculateState env.toRiftEnv s.g s.currentState).2 ∧
    (s.swapTextures.isSome = true →
      (Rift_SetOffscreenSize_recreate env width height s).swapTextures.isSome = true) ∧
    (∃ d, (Rift_SetOffscreenSize_recreate env width height s).log
        = s.log ++ (d ++ [RiftCall.ovrHmd_CreateSwapTextureSetGL width height,
                          RiftCall.ovrHmd_CreateMirrorTextureGL width height])
      ∧ (∀ c ∈ d, (∃ id, c = RiftCall.ovrHmd_DestroySwapTextureSet id)
          ∨ ∃ id, c = RiftCall.ovrHmd_DestroyMirrorTexture id)
      ∧ (∀ set, s.swapTextures = some set → RiftCall.ovrHmd_DestroySwapTextureSet set.id ∈ d)
      ∧ (∀ texture, s.mirrorTexture = some texture →
          RiftCall.ovrHmd_DestroyMirrorTexture texture.id ∈ d)) := by
  refine ⟨?_, ?_, ?_, ?_, ?_, ?_, ?_⟩
  · intro eye
    simp only [Rift_SetOffscreenSize_recreate]
    split <;> split <;> exact calculateState_eyeFBO _ _ _ _
  · intro eye
    simp only [Rift_SetOffscreenSize_recreate]
    split <;> split <;> exact calculateState_eyeFov _ _ _ _
  · rfl
  · simp only [Rift_SetOffscreenSize_recreate]
    split <;> split <;> rfl
  · simp only [Rift_SetOffscreenSize_recreate]
    split <;> split <;> rfl
  · intro hs
    obtain ⟨set, hset⟩ := Option.isSome_iff_exists.mp hs
    simp only [Rift_SetOffscreenSize_recreate, hset]
    split <;> cases env.createSwapTextureSet _ <;> simp [Option.orElse]
  · simp only [Rift_SetOffscreenSize_recreate]
    cases hs : s.swapTextures <;> cases hm : s.mirrorTexture <;>
      simp only [List.append_assoc, List.singleton_append, List.cons_append, List.nil_append]
    · exact ⟨[], by simp, by simp, by simp, by simp⟩
    · exact ⟨[_], rfl, by simp, by simp, by simp⟩
    · exact ⟨[_], rfl, by simp, by simp, by simp⟩
    · exact ⟨[_, _], rfl, by simp, by simp, by simp⟩

omit [LinearOrderedField K] in
/-- What the resize loop of `Rift_SetOffscreenSize` does to the state. -/
theorem Rift_SetOffscreenSize_loop_spec (env : RendererEnv K) (ovrScale : K) (t : RiftState K) :
    (∀ i, (([(0 : Fin 2), 1].foldl (Rift_SetOffscreenSize_eye env ovrScale) t).g.renderInfo
        i).renderTarget
        = env.ovrHmd_GetFovTextureSize i (t.g.renderInfo i).eyeFov ovrScale) ∧
    (∀ i, (([(0 : Fin 2), 1].foldl (Rift_SetOffscreenSize_eye env ovrScale) t).g.renderInfo
        i).eyeFBO
        = if (env.ovrHmd_GetFovTextureSize i (t.g.renderInfo i).eyeFov ovrScale).w
              ≠ (t.g.renderInfo i).eyeFBO.width
            ∨ (env.ovrHmd_GetFovTextureSize i (t.g.renderInfo i).eyeFov ovrScale).h
              ≠ (t.g.renderInfo i).eyeFBO.height then
            env.R_ClearFBO (env.R_ResizeFBO
              (env.ovrHmd_GetFovTextureSize i (t.g.renderInfo i).eyeFov ovrScale).w
              (env.ovrHmd_GetFovTextureSize i (t.g.renderInfo i).eyeFov ovrScale).h
              (t.g.renderInfo i).eyeFBO)
          else (t.g.renderInfo i).eyeFBO) ∧
    ([(0 : Fin 2), 1].foldl (Rift_SetOffscreenSize_eye env ovrScale) t).log
        = t.log ++
          ((if (env.ovrHmd_GetFovTextureSize 0 (t.g.renderInfo 0).eyeFov ovrScale).w
                ≠ (t.g.renderInfo 0).eyeFBO.width
              ∨ (env.ovrHmd_GetFovTextureSize 0 (t.g.renderInfo 0).eyeFov ovrScale).h
                ≠ (t.g.renderInfo 0).eyeFBO.height then
              [RiftCall.R_ResizeFBO 0
                (env.ovrHmd_GetFovTextureSize 0 (t.g.renderInfo 0).eyeFov ovrScale).w
                (env.ovrHmd_GetFovTextureSize 0 (t.g.renderInfo 0).eyeFov ovrScale).h,
               RiftCall.R_ClearFBO 0]
            else []) ++
           (if (env.ovrHmd_GetFovTextureSize 1 (t.g.renderInfo 1).eyeFov ovrScale).w
                ≠ (t.g.renderInfo 1).eyeFBO.width
              ∨ (env.ovrHmd_GetFovTextureSize 1 (t.g.renderInfo 1).eyeFov ovrScale).h
                ≠ (t.g.renderInfo 1).eyeFBO.height then
              [RiftCall.R_ResizeFBO 1
                (env.ovrHmd_GetFovTextureSize 1 (t.g.renderInfo 1).eyeFov ovrScale).w
                (env.ovrHmd_GetFovTextureSize 1 (t.g.renderInfo 1).eyeFov ovrScale).h,
               RiftCall.R_ClearFBO 1]
            else [])) ∧
    ([(0 : Fin 2), 1].foldl (Rift_SetOffscreenSize_eye env ovrScale) t).swapTextures
        = t.swapTextures ∧
    ([(0 : Fin 2), 1].foldl (Rift_SetOffscreenSize_eye env ovrScale) t).currentFBO
        = t.currentFBO ∧
    ([(0 : Fin 2), 1].foldl (Rift_SetOffscreenSize_eye env ovrScale) t).vr_rift_maxfov_modified
        = t.vr_rift_maxfov_modified ∧
    ([(0 : Fin 2), 1].foldl (Rift_SetOffscreenSize_eye env ovrScale) t).currentState
        = t.currentState := by
  simp only [List.foldl_cons, List.foldl_nil, Rift_SetOffscreenSize_eye]
  refine ⟨?_, ?_, ?_, ?_, ?_, ?_, ?_⟩
  · intro i
    fin_cases i <;> split_ifs <;> simp [Function.update]
  · intro i
    fin_cases i <;> split_ifs <;> simp_all [Function.update]
  · split_ifs <;> simp_all [Function.update]
  · split_ifs <;> rfl
  · split_ifs <;> rfl
  · split_ifs <;> rfl
  · split_ifs <;> rfl

/-- The calls of the resize loop for eye `i`, given the eye FBO it finds. -/
theorem Rift_SetOffscreenSize_spec (env : RendererEnv K) (width height : Nat)
    (s s2 : RiftState K) (hs : Rift_SetOffscreenSize env width height s = some s2) :
    (∀ i, (s2.g.renderInfo i).renderTarget = Rift_SetOffscreenSize_target env width height i) ∧
    (∀ i, (s2.g.renderInfo i).eyeFBO
        = if (Rift_SetOffscreenSize_target env width height i).w ≠ (s.g.renderInfo i).eyeFBO.width
            ∨ (Rift_SetOffscreenSize_target env width height i).h
              ≠ (s.g.renderInfo i).eyeFBO.height then
            env.R_ClearFBO (env.R_ResizeFBO (Rift_SetOffscreenSize_target env width height i).w
              (Rift_SetOffscreenSize_target env width height i).h (s.g.renderInfo i).eyeFBO)
          else (s.g.renderInfo i).eyeFBO) ∧
    (∃ d gw gh, s2.log = s.log ++ (d ++
          [RiftCall.ovrHmd_CreateSwapTextureSetGL width height,
           RiftCall.ovrHmd_CreateMirrorTextureGL width height,
           RiftCall.R_DelFBO FboRef.swapFBO,
           RiftCall.R_GenFBOWithoutTexture gw gh] ++
          ((if (Rift_SetOffscreenSize_target env width height 0).w
                ≠ (s.g.renderInfo 0).eyeFBO.width
              ∨ (Rift_SetOffscreenSize_target env width height 0).h
                ≠ (s.g.renderInfo 0).eyeFBO.height then
              [RiftCall.R_ResizeFBO 0 (Rift_SetOffscreenSize_target env width height 0).w
                (Rift_SetOffscreenSize_target env width height 0).h, RiftCall.R_ClearFBO 0]
            else []) ++
           (if (Rift_SetOffscreenSize_target env width height 1).w
                ≠ (s.g.renderInfo 1).eyeFBO.width
              ∨ (Rift_SetOffscreenSize_target env width height 1).h
                ≠ (s.g.renderInfo 1).eyeFBO.height then
              [RiftCall.R_ResizeFBO 1 (Rift_SetOffscreenSize_target env width height 1).w
                (Rift_SetOffscreenSize_target env width height 1).h, RiftCall.R_ClearFBO 1]
            else [])))
      ∧ (∀ c ∈ d, (∃ id, c = RiftCall.ovrHmd_DestroySwapTextureSet id)
          ∨ ∃ id, c = RiftCall.ovrHmd_DestroyMirrorTexture id)
      ∧ (∀ set, s.swapTextures = some set → RiftCall.ovrHmd_DestroySwapTextureSet set.id ∈ d)
      ∧ (∀ texture, s.mirrorTexture = some texture →
          RiftCall.ovrHmd_DestroyMirrorTexture texture.id ∈ d)) ∧
    s2.swapTextures.isSome = true ∧
    s2.currentFBO = 0 ∧
    s2.vr_rift_maxfov_modified = s.vr_rift_maxfov_modified ∧
    s2.currentState = (Rift_CalculateState env.toRiftEnv s.g s.currentState).2 := by
  obtain ⟨r1, r2, r3, r4, r5, -, d, r7, r8, r9, r10⟩ :=
    Rift_SetOffscreenSize_recreate_spec env width height s
  simp only [Rift_SetOffscreenSize] at hs
  cases hset : (Rift_SetOffscreenSize_recreate env width height s).swapTextures with
  | none => rw [hset] at hs; exact absurd hs (by simp)
  | some set =>
    rw [hset] at hs
    simp only [Option.some.injEq] at hs
    obtain ⟨l1, l2, l3, l4, l5, l6, l7⟩ := Rift_SetOffscreenSize_loop_spec env
      (Rift_SetOffscreenSize_scale env width height)
      (Rift_SetOffscreenSize_swapFBO env set (Rift_SetOffscreenSize_recreate env width height s))
    rw [hs] at l1 l2 l3 l4 l5 l6 l7
    have g1 : ∀ i, ((Rift_SetOffscreenSize_swapFBO env set
        (Rift_SetOffscreenSize_recreate env width height s)).g.renderInfo i).eyeFov
          = selectEyeFov env.toRiftEnv i := fun i => r2 i
    have g2 : ∀ i, ((Rift_SetOffscreenSize_swapFBO env set
        (Rift_SetOffscreenSize_recreate env width height s)).g.renderInfo i).eyeFBO
          = (s.g.renderInfo i).eyeFBO := fun i => r1 i
    simp only [g1, g2] at l1 l2 l3
    refine ⟨l1, l2,
      ⟨d, (set.Textures.getD 0 { TextureSize := { w := 0, h := 0 }, TexId := 0 }).TextureSize.w,
        (set.Textures.getD 0 { TextureSize := { w := 0, h := 0 }, TexId := 0 }).TextureSize.h,
        ?_, r8, r9, r10⟩, ?_, ?_, ?_, ?_⟩
    · rw [l3]
      show (Rift_SetOffscreenSize_recreate env width height s).log ++ _ ++ _ ++ _ = _
      rw [r7]
      simp only [Rift_SetOffscreenSize_target, List.append_assoc, List.singleton_append,
        List.cons_append, List.nil_append]
    · rw [l4]
      show (Rift_SetOffscreenSize_recreate env width height s).swapTextures.isSome = true
      rw [hset]; rfl
    · rw [l5]; exact r3
    · rw [l6]; exact r4
    · rw [l7]; exact r5

/-- With an `R_ResizeFBO` that gives the requested size and an `R_ClearFBO`
that keeps it, every eye FBO has the size of its render target after
`Rift_SetOffscreenSize`. -/
theorem Rift_SetOffscreenSize_sizes (env : RendererEnv K) (width height : Nat)
    (s s2 : RiftState K)
    (hResize : ∀ w h fbo, (env.R_ResizeFBO w h fbo).width = w
      ∧ (env.R_ResizeFBO w h fbo).height = h)
    (hClear : ∀ fbo, (env.R_ClearFBO fbo).width = fbo.width
      ∧ (env.R_ClearFBO fbo).height = fbo.height)
    (hs : Rift_SetOffscreenSize env width height s = some s2) (i : Fin 2) :
    (s2.g.renderInfo i).eyeFBO.width = (Rift_SetOffscreenSize_target env width height i).w ∧
    (s2.g.renderInfo i).eyeFBO.height = (Rift_SetOffscreenSize_target env width height i).h := by
  obtain ⟨-, f2, -⟩ := Rift_SetOffscreenSize_spec env width height s s2 hs
  rw [f2 i]
  split_ifs with hd
  · rw [(hClear _).1, (hClear _).2, (hResize _ _ _).1, (hResize _ _ _).2]
    exact ⟨rfl, rfl⟩
  · rw [not_or, not_not, not_not] at hd
    exact ⟨hd.1.symm, hd.2.symm⟩

theorem Rift_SetOffscreenSize_isSome (env : RendererEnv K) (width height : Nat)
    (s : RiftState K) (hs : s.swapTextures.isSome = true) :
    ∃ s2, Rift_SetOffscreenSize env width height s = some s2 := by
  have h := (Rift_SetOffscreenSize_recreate_spec env width height s).2.2.2.2.2.1 hs
  obtain ⟨set, hset⟩ := Option.isSome_iff_exists.mp h
  simp only [Rift_SetOffscreenSize, hset]
  exact ⟨_, rfl⟩

omit [LinearOrderedField K] in
theorem Rift_deleteEyeFBO_loop_swapTextures (env : RendererEnv K) (s : RiftState K) :
    ([(0 : Fin 2), 1].foldl (Rift_deleteEyeFBO env) s).swapTextures = s.swapTextures := by
  simp only [List.foldl_cons, List.foldl_nil, Rift_deleteEyeFBO]
  split_ifs <;> rfl

omit [LinearOrderedField K] in
theorem Rift_Disable_swapTextures (env : RendererEnv K) (s : RiftState K) :
    (Rift_Disable env s).swapTextures = s.swapTextures := by
  simp only [Rift_Disable, Rift_deleteEyeFBO_loop_swapTextures]
  cases hs : s.swapTextures <;> cases hm : s.mirrorTexture <;> simp [hs]

theorem Rift_Enable_swapTextures (env : RendererEnv K) (s : RiftState K) :
    (Rift_Enable env s).2.swapTextures = s.swapTextures := by
  simp only [Rift_Enable]
  split_ifs
  · rfl
  · exact Rift_deleteEyeFBO_loop_swapTextures env s

end RendererLemmas

section RendererClaims

variable {K : Type} [LinearOrderedField K]

/-- C11, at the failing input: with the left eye's target bound to GL
texture 21 and the right eye's to 22, `Rift_DrawToHMD` blits texture 21 into
both halves of the swap framebuffer (the right half should get 22), while
`Rift_Present` blits 21 into the left half and 22 into the right half. -/
theorem Rift_DrawToHMD_blits_left_eye_twice :
    ((Rift_SetOffscreenSize (sampleRendererEnv (0 : ℚ)) 2364 1464 sampleRiftState).map
        (fun s => ((s.g.renderInfo 0).eyeFBO.texture, (s.g.renderInfo 1).eyeFBO.texture)))
      = some (21, 22) ∧
    (((Rift_SetOffscreenSize (sampleRendererEnv (0 : ℚ)) 2364 1464 sampleRiftState).bind
        (Rift_DrawToHMD (sampleRendererEnv 0))).map (fun s => s.log.drop 8))
      = some [RiftCall.R_BindFBO FboRef.swapFBO,
              RiftCall.glFramebufferTexture2DEXT 31,
              RiftCall.R_Clear,
              RiftCall.R_SetupBlit,
              RiftCall.glViewport 0 0 1182 1464,
              RiftCall.R_BlitWithGammaFlipped 21,
              RiftCall.glViewport 1182 0 1182 1464,
              RiftCall.R_BlitWithGammaFlipped 21,
              RiftCall.R_TeardownBlit,
              RiftCall.glFramebufferTexture2DEXT 0,
              RiftCall.ovrHmd_SubmitFrame (some 100) (some 100) 0] ∧
    ((Rift_SetOffscreenSize (sampleRendererEnv (0 : ℚ)) 2364 1464 sampleRiftState).map
        (fun s => Rift_Present_blits { width := 2364, height := 1464, texture := 0, status := 1 } s))
      = some [RiftCall.R_SetupBlit,
              RiftCall.glViewport 0 0 1182 1464,
              RiftCall.R_BlitTextureToScreen 21,
              RiftCall.glViewport 1182 0 1182 1464,
              RiftCall.R_BlitTextureToScreen 22,
              RiftCall.R_TeardownBlit] := by
  decide

/-- C14, as stated, fails: the second of two `Rift_SetOffscreenSize` calls
with the same size destroys the swap texture set and the mirror texture
created by the first, creates new ones and deletes and regenerates the swap
FBO (it resizes no eye FBO). -/
theorem Rift_SetOffscreenSize_twice_recreates :
    (((Rift_SetOffscreenSize (sampleRendererEnv (0 : ℚ)) 2364 1464 sampleRiftState).bind
        (Rift_SetOffscreenSize (sampleRendererEnv 0) 2364 1464)).map (fun s => s.log.drop 8))
      = some [RiftCall.ovrHmd_DestroySwapTextureSet 100,
              RiftCall.ovrHmd_DestroyMirrorTexture 201,
              RiftCall.ovrHmd_CreateSwapTextureSetGL 2364 1464,
              RiftCall.ovrHmd_CreateMirrorTextureGL 2364 1464,
              RiftCall.R_DelFBO FboRef.swapFBO,
              RiftCall.R_GenFBOWithoutTexture 2364 1464] := by
  decide

/-- C14, amended. With an `R_ResizeFBO` that gives the requested size and an
`R_ClearFBO` that keeps it, the second of two consecutive
`Rift_SetOffscreenSize(width, height)` calls in the same environment resizes
no eye FBO: both eye FBOs and render targets stay as they are, and the calls
it makes are exactly the destruction of the existing swap texture set (and
mirror texture), the two creations, and the deletion and generation of the
swap FBO. -/
theorem Rift_SetOffscreenSize_twice (env : RendererEnv K) (width height : Nat)
    (s0 s1 s2 : RiftState K)
    (hResize : ∀ w h fbo, (env.R_ResizeFBO w h fbo).width = w
      ∧ (env.R_ResizeFBO w h fbo).height = h)
    (hClear : ∀ fbo, (env.R_ClearFBO fbo).width = fbo.width
      ∧ (env.R_ClearFBO fbo).height = fbo.height)
    (h1 : Rift_SetOffscreenSize env width height s0 = some s1)
    (h2 : Rift_SetOffscreenSize env width height s1 = some s2) :
    (∀ i, (s2.g.renderInfo i).eyeFBO = (s1.g.renderInfo i).eyeFBO
      ∧ (s2.g.renderInfo i).renderTarget = (s1.g.renderInfo i).renderTarget) ∧
    (∃ d gw gh, s2.log = s1.log ++ (d ++
          [RiftCall.ovrHmd_CreateSwapTextureSetGL width height,
           RiftCall.ovrHmd_CreateMirrorTextureGL width height,
           RiftCall.R_DelFBO FboRef.swapFBO,
           RiftCall.R_GenFBOWithoutTexture gw gh])
      ∧ (∀ c ∈ d, (∃ id, c = RiftCall.ovrHmd_DestroySwapTextureSet id)
          ∨ ∃ id, c = RiftCall.ovrHmd_DestroyMirrorTexture id)
      ∧ (∃ set, s1.swapTextures = some set
          ∧ RiftCall.ovrHmd_DestroySwapTextureSet set.id ∈ d)) := by
  obtain ⟨a1, -, -, a4, -⟩ := Rift_SetOffscreenSize_spec env width height s0 s1 h1
  obtain ⟨b1, b2, ⟨d, gw, gh, blog, bd, bset, -⟩, -⟩ :=
    Rift_SetOffscreenSize_spec env width height s1 s2 h2
  have hsz := Rift_SetOffscreenSize_sizes env width height s0 s1 hResize hClear h1
  have hno : ∀ i, ¬ ((Rift_SetOffscreenSize_target env width height i).w
        ≠ (s1.g.renderInfo i).eyeFBO.width
      ∨ (Rift_SetOffscreenSize_target env width height i).h
        ≠ (s1.g.renderInfo i).eyeFBO.height) := by
    intro i h
    rcases h with h | h
    · exact h (hsz i).1.symm
    · exact h (hsz i).2.symm
  refine ⟨?_, ?_⟩
  · intro i
    refine ⟨?_, ?_⟩
    · rw [b2 i, if_neg (hno i)]
    · rw [b1 i, a1 i]
  · obtain ⟨set, hset⟩ := Option.isSome_iff_exists.mp a4
    refine ⟨d, gw, gh, ?_, bd, set, hset, bset set hset⟩
    rw [blog, if_neg (hno 0), if_neg (hno 1)]
    simp

/-- Witness of C14 amended: the sample state and environment, size
2364 x 1464, twice. -/
theorem Rift_SetOffscreenSize_twice_witness :
    ∃ s1 s2 : RiftState ℚ,
      Rift_SetOffscreenSize (sampleRendererEnv 0) 2364 1464 sampleRiftState = some s1 ∧
      Rift_SetOffscreenSize (sampleRendererEnv 0) 2364 1464 s1 = some s2 ∧
      (s2.g.renderInfo 0).eyeFBO = (s1.g.renderInfo 0).eyeFBO ∧
      (s2.g.renderInfo 1).eyeFBO = (s1.g.renderInfo 1).eyeFBO := by
  have h1 : (Rift_SetOffscreenSize (sampleRendererEnv (0 : ℚ)) 2364 1464
      sampleRiftState).isSome = true := by decide
  obtain ⟨s1, hs1⟩ := Option.isSome_iff_exists.mp h1
  obtain ⟨s2, hs2⟩ := Rift_SetOffscreenSize_isSome (sampleRendererEnv (0 : ℚ)) 2364 1464 s1
    (Rift_SetOffscreenSize_spec _ _ _ _ _ hs1).2.2.2.1
  have h := Rift_SetOffscreenSize_twice (sampleRendererEnv (0 : ℚ)) 2364 1464 sampleRiftState
    s1 s2 (fun _ _ _ => ⟨rfl, rfl⟩) (fun _ => ⟨rfl, rfl⟩) hs1 hs2
  exact ⟨s1, s2, hs1, hs2, (h.1 0).1, (h.1 1).1⟩

/-- C15. With an `R_ResizeFBO` that gives the requested size and an
`R_ClearFBO` that keeps it: from a state produced by
`Rift_SetOffscreenSize(width, height)`, `Rift_Disable`, then `Rift_Enable`,
then the same `Rift_SetOffscreenSize(width, height)` in the same environment
gives, for both eyes, the same `renderTarget` and the same eye FBO width and
height as before the disable. -/
theorem Rift_Disable_Enable_same_sizes (env : RendererEnv K) (width height : Nat)
    (s0 s1 : RiftState K)
    (hResize : ∀ w h fbo, (env.R_ResizeFBO w h fbo).width = w
      ∧ (env.R_ResizeFBO w h fbo).height = h)
    (hClear : ∀ fbo, (env.R_ClearFBO fbo).width = fbo.width
      ∧ (env.R_ClearFBO fbo).height = fbo.height)
    (h1 : Rift_SetOffscreenSize env width height s0 = some s1) :
    ∃ s2, Rift_SetOffscreenSize env width height (Rift_Enable env (Rift_Disable env s1)).2
        = some s2 ∧
      ∀ i, (s2.g.renderInfo i).renderTarget = (s1.g.renderInfo i).renderTarget
        ∧ (s2.g.renderInfo i).eyeFBO.width = (s1.g.renderInfo i).eyeFBO.width
        ∧ (s2.g.renderInfo i).eyeFBO.height = (s1.g.renderInfo i).eyeFBO.height := by
  obtain ⟨a1, -, -, a4, -⟩ := Rift_SetOffscreenSize_spec env width height s0 s1 h1
  have hsome : (Rift_Enable env (Rift_Disable env s1)).2.swapTextures.isSome = true := by
    rw [Rift_Enable_swapTextures, Rift_Disable_swapTextures]
    exact a4
  obtain ⟨s2, h2⟩ := Rift_SetOffscreenSize_isSome env width height _ hsome
  refine ⟨s2, h2, ?_⟩
  intro i
  obtain ⟨b1, -⟩ := Rift_SetOffscreenSize_spec env width height _ s2 h2
  have z1 := Rift_SetOffscreenSize_sizes env width height s0 s1 hResize hClear h1 i
  have z2 := Rift_SetOffscreenSize_sizes env width height _ s2 hResize hClear h2 i
  exact ⟨by rw [b1 i, a1 i], by rw [z2.1, z1.1], by rw [z2.2, z1.2]⟩

/-- Witness of C15: the sample state and environment, size 2364 x 1464. -/
theorem Rift_Disable_Enable_same_sizes_witness :
    ∃ s1 s2 : RiftState ℚ,
      Rift_SetOffscreenSize (sampleRendererEnv 0) 2364 1464 sampleRiftState = some s1 ∧
      Rift_SetOffscreenSize (sampleRendererEnv 0) 2364 1464
        (Rift_Enable (sampleRendererEnv 0) (Rift_Disable (sampleRendererEnv 0) s1)).2 = some s2 ∧
      ∀ i, (s2.g.renderInfo i).renderTarget = (s1.g.renderInfo i).renderTarget
        ∧ (s2.g.renderInfo i).eyeFBO.width = (s1.g.renderInfo i).eyeFBO.width
        ∧ (s2.g.renderInfo i).eyeFBO.height = (s1.g.renderInfo i).eyeFBO.height := by
  have h1 : (Rift_SetOffscreenSize (sampleRendererEnv (0 : ℚ)) 2364 1464
      sampleRiftState).isSome = true := by decide
  obtain ⟨s1, hs1⟩ := Option.isSome_iff_exists.mp h1
  obtain ⟨s2, hs2, h⟩ := Rift_Disable_Enable_same_sizes (sampleRendererEnv (0 : ℚ)) 2364 1464
    sampleRiftState s1 (fun _ _ _ => ⟨rfl, rfl⟩) (fun _ => ⟨rfl, rfl⟩) hs1
  exact ⟨s1, s2, hs1, hs2, h⟩

/-- C16, at the failing inputs. After `Rift_SetOffscreenSize` has created
swap texture set 100 and mirror texture 201, two `Rift_Disable` calls in a
row destroy both of them twice; `Rift_Disable` followed by
`Rift_SetOffscreenSize` destroys them twice as well; and two `Shutdown` calls
on an enabled OpenXR backend destroy the swapchains 10 and 11 twice, while
`Shutdown` on a backend on which nothing was created still calls the destroy
functions, on null handles. -/
theorem Rift_Disable_twice_destroys_twice :
    ((Rift_SetOffscreenSize (sampleRendererEnv (0 : ℚ)) 2364 1464 sampleRiftState).map
        (fun s => (Rift_Disable (sampleRendererEnv 0) (Rift_Disable (sampleRendererEnv 0) s)).log.drop 8))
      = some [RiftCall.ovrHmd_DestroySwapTextureSet 100,
              RiftCall.ovrHmd_DestroyMirrorTexture 201,
              RiftCall.R_DelFBO (FboRef.eyeFBO 0),
              RiftCall.R_DelFBO (FboRef.eyeFBO 1),
              RiftCall.ovrHmd_DestroySwapTextureSet 100,
              RiftCall.ovrHmd_DestroyMirrorTexture 201] ∧
    (((Rift_SetOffscreenSize (sampleRendererEnv (0 : ℚ)) 2364 1464 sampleRiftState).bind
        (fun s => Rift_SetOffscreenSize (sampleRendererEnv 0) 2364 1464
          (Rift_Disable (sampleRendererEnv 0) s))).map (fun s => (s.log.drop 8).take 6))
      = some [RiftCall.ovrHmd_DestroySwapTextureSet 100,
              RiftCall.ovrHmd_DestroyMirrorTexture 201,
              RiftCall.R_DelFBO (FboRef.eyeFBO 0),
              RiftCall.R_DelFBO (FboRef.eyeFBO 1),
              RiftCall.ovrHmd_DestroySwapTextureSet 100,
              RiftCall.ovrHmd_DestroyMirrorTexture 201] ∧
    (Shutdown (tapeOf []) (Shutdown (tapeOf []) enabledBackend)).log.map (fun e => e.call)
      = [XrCall.xrDestroySwapchain 10, XrCall.xrDestroySwapchain 11,
         XrCall.xrDestroySession 8, XrCall.xrDestroyInstance 7,
         XrCall.xrDestroySwapchain 10, XrCall.xrDestroySwapchain 11,
         XrCall.xrDestroySession 0, XrCall.xrDestroyInstance 0] ∧
    (Shutdown (tapeOf []) (freshBackend false)).log.map (fun e => e.call)
      = [XrCall.xrDestroySwapchain 0, XrCall.xrDestroySwapchain 0,
         XrCall.xrDestroySession 0, XrCall.xrDestroyInstance 0] := by
  decide

omit [LinearOrderedField K] in
/-- One `Rift_DrawToHMD` call on a state whose texture index is in range. -/
theorem Rift_DrawToHMD_step (env : RendererEnv K) (s : RiftState K) (set : ovrSwapTextureSet)
    (N : Nat) (hset : s.swapTextures = some set) (hN : set.TextureCount = N)
    (hpos : 1 ≤ N) (hint : N < 2 ^ 31) (hcur : s.currentFBO < N) :
    ∃ s2, Rift_DrawToHMD env s = some s2
      ∧ s2.currentFBO = (s.currentFBO + 1) % N
      ∧ s2.swapTextures = some { set with CurrentIndex := s.currentFBO }
      ∧ s2.log = s.log ++
          [RiftCall.R_BindFBO FboRef.swapFBO,
           RiftCall.glFramebufferTexture2DEXT
             (set.Textures.getD s.currentFBO { TextureSize := { w := 0, h := 0 }, TexId := 0 }).TexId,
           RiftCall.R_Clear,
           RiftCall.R_SetupBlit,
           RiftCall.glViewport 0 0 (Int.tdiv s.swapFBO.width 2) s.swapFBO.height,
           RiftCall.R_BlitWithGammaFlipped (s.g.renderInfo 0).eyeFBO.texture,
           RiftCall.glViewport (Int.tdiv s.swapFBO.width 2) 0 (Int.tdiv s.swapFBO.width 2)
             s.swapFBO.height,
           RiftCall.R_BlitWithGammaFlipped (s.g.renderInfo 0).eyeFBO.texture,
           RiftCall.R_TeardownBlit,
           RiftCall.glFramebufferTexture2DEXT 0,
           RiftCall.ovrHmd_SubmitFrame (s.swapLayer.ColorTexture 0) (s.swapLayer.ColorTexture 1)
             s.currentFBO] := by
  have h32 : N % 2 ^ 32 = N := Nat.mod_eq_of_lt (by omega)
  have hc32 : (s.currentFBO + 1) % 2 ^ 32 = s.currentFBO + 1 := Nat.mod_eq_of_lt (by omega)
  have hne : ¬ N = 0 := by omega
  simp only [Rift_DrawToHMD, hset, hN, h32, hc32, hne, if_false]
  exact ⟨_, rfl, rfl, rfl, rfl⟩

omit [LinearOrderedField K] in
/-- After `k` draws from a state with texture index `0`, the index is
`k mod N` and the texture set is the same up to its `CurrentIndex`. -/
theorem Rift_DrawToHMD_times_spec (env : RendererEnv K) (s : RiftState K)
    (set : ovrSwapTextureSet) (N : Nat) (hset : s.swapTextures = some set)
    (hN : set.TextureCount = N) (hpos : 1 ≤ N) (hint : N < 2 ^ 31) (hcur : s.currentFBO = 0)
    (k : Nat) :
    ∃ sk setk, Rift_DrawToHMD_times env k s = some sk
      ∧ sk.currentFBO = k % N
      ∧ sk.swapTextures = some setk
      ∧ setk.TextureCount = N ∧ setk.Textures = set.Textures := by
  induction k with
  | zero => exact ⟨s, set, rfl, by rw [hcur, Nat.zero_mod], hset, hN, rfl⟩
  | succ k ih =>
    obtain ⟨sk, setk, hk, hcurk, hsetk, hNk, hTk⟩ := ih
    have hlt : sk.currentFBO < N := by rw [hcurk]; exact Nat.mod_lt _ (by omega)
    obtain ⟨s2, hd, hc2, hs2, -⟩ := Rift_DrawToHMD_step env sk setk N hsetk hNk hpos hint hlt
    refine ⟨s2, { setk with CurrentIndex := sk.currentFBO }, ?_, ?_, hs2, hNk, hTk⟩
    · simp only [Rift_DrawToHMD_times, hk, Option.some_bind, hd]
    · rw [hc2, hcurk, Nat.mod_add_mod]

/-- C17. After `Rift_SetOffscreenSize` has created a swap texture set of
`N` textures (`1 ≤ N`, an `int`), the `(k+1)`-th following `Rift_DrawToHMD`
call attaches exactly the texture of index `k mod N` of the set, submits the
frame with `CurrentIndex = k mod N`, and `k mod N < N`. -/
theorem Rift_DrawToHMD_round_robin (env : RendererEnv K) (width height : Nat)
    (s0 s1 : RiftState K) (set : ovrSwapTextureSet) (N : Nat)
    (h1 : Rift_SetOffscreenSize env width height s0 = some s1)
    (hset : s1.swapTextures = some set) (hN : set.TextureCount = N)
    (hpos : 1 ≤ N) (hint : N < 2 ^ 31) (k : Nat) :
    ∃ sk sk2, Rift_DrawToHMD_times env k s1 = some sk
      ∧ Rift_DrawToHMD env sk = some sk2
      ∧ Rift_DrawToHMD_times env (k + 1) s1 = some sk2
      ∧ k % N < N
      ∧ sk2.log = sk.log ++
          [RiftCall.R_BindFBO FboRef.swapFBO,
           RiftCall.glFramebufferTexture2DEXT
             (set.Textures.getD (k % N) { TextureSize := { w := 0, h := 0 }, TexId := 0 }).TexId,
           RiftCall.R_Clear,
           RiftCall.R_SetupBlit,
           RiftCall.glViewport 0 0 (Int.tdiv sk.swapFBO.width 2) sk.swapFBO.height,
           RiftCall.R_BlitWithGammaFlipped (sk.g.renderInfo 0).eyeFBO.texture,
           RiftCall.glViewport (Int.tdiv sk.swapFBO.width 2) 0 (Int.tdiv sk.swapFBO.width 2)
             sk.swapFBO.height,
           RiftCall.R_BlitWithGammaFlipped (sk.g.renderInfo 0).eyeFBO.texture,
           RiftCall.R_TeardownBlit,
           RiftCall.glFramebufferTexture2DEXT 0,
           RiftCall.ovrHmd_SubmitFrame (sk.swapLayer.ColorTexture 0) (sk.swapLayer.ColorTexture 1)
             (k % N)] := by
  have hcur : s1.currentFBO = 0 := (Rift_SetOffscreenSize_spec env width height s0 s1 h1).2.2.2.2.1
  obtain ⟨sk, setk, hk, hcurk, hsetk, hNk, hTk⟩ :=
    Rift_DrawToHMD_times_spec env s1 set N hset hN hpos hint hcur k
  have hlt : k % N < N := Nat.mod_lt _ (by omega)
  obtain ⟨s2, hd, -, -, hlog⟩ :=
    Rift_DrawToHMD_step env sk setk N hsetk hNk hpos hint (by rw [hcurk]; exact hlt)
  refine ⟨sk, s2, hk, hd, ?_, hlt, ?_⟩
  · simp only [Rift_DrawToHMD_times, hk, Option.some_bind, hd]
  · rw [hlog, hcurk, hTk]

/-- Witness of C17: the sample environment creates a set of two textures
(GL names 31 and 32); the fourth draw (`k = 3`) attaches texture 32, index 1. -/
theorem Rift_DrawToHMD_round_robin_witness :
    ∃ s1 sk sk2 : RiftState ℚ,
      Rift_SetOffscreenSize (sampleRendererEnv 0) 2364 1464 sampleRiftState = some s1 ∧
      Rift_DrawToHMD_times (sampleRendererEnv 0) 3 s1 = some sk ∧
      Rift_DrawToHMD (sampleRendererEnv 0) sk = some sk2 ∧
      RiftCall.glFramebufferTexture2DEXT 32 ∈ sk2.log.drop sk.log.length := by
  have h1 : (Rift_SetOffscreenSize (sampleRendererEnv (0 : ℚ)) 2364 1464
      sampleRiftState).isSome = true := by decide
  obtain ⟨s1, hs1⟩ := Option.isSome_iff_exists.mp h1
  have hset : s1.swapTextures = some
      { id := 100,
        Textures := [{ TextureSize := { w := 2364, h := 1464 }, TexId := 31 },
                     { TextureSize := { w := 2364, h := 1464 }, TexId := 32 }],
        TextureCount := 2, CurrentIndex := 0 } := by
    have h2 : (Rift_SetOffscreenSize (sampleRendererEnv (0 : ℚ)) 2364 1464
        sampleRiftState).map (fun s => s.swapTextures) = some (some
          { id := 100,
            Textures := [{ TextureSize := { w := 2364, h := 1464 }, TexId := 31 },
                         { TextureSize := { w := 2364, h := 1464 }, TexId := 32 }],
            TextureCount := 2, CurrentIndex := 0 }) := by decide
    rw [hs1] at h2
    exact Option.some.inj h2
  obtain ⟨sk, sk2, hk, hd, -, -, hlog⟩ := Rift_DrawToHMD_round_robin (sampleRendererEnv (0 : ℚ))
    2364 1464 sampleRiftState s1 _ 2 hs1 hset rfl (by decide) (by decide) 3
  refine ⟨s1, sk, sk2, hs1, hk, hd, ?_⟩
  rw [hlog, List.drop_left]
  simp

end RendererClaims

section FrameStartClaims

variable {K : Type} [LinearOrderedField K] [FloorRing K]

/-- A `Rift_FrameStart` call that finds the flag cleared changes nothing. -/
theorem Rift_FrameStart_clean (env : RendererEnv K) (s : RiftState K)
    (h : s.vr_rift_maxfov_modified = false) : Rift_FrameStart env s = some (env, s) := by
  simp [Rift_FrameStart, h]

/-- A `Rift_FrameStart` call that finds the flag set clears it, possibly
normalises the cvar, and runs `Rift_SetOffscreenSize`. -/
theorem Rift_FrameStart_dirty (env : RendererEnv K) (s : RiftState K)
    (h : s.vr_rift_maxfov_modified = true) :
    ∃ (env1 : RendererEnv K) (pre : List RiftCall) (w h : Nat),
      Rift_FrameStart env s
        = (Rift_SetOffscreenSize env1 w h
            { s with vr_rift_maxfov_modified := false, log := s.log ++ pre }).map
            (fun t => (env1, t))
      ∧ env1.createSwapTextureSet = env.createSwapTextureSet := by
  unfold Rift_FrameStart
  rw [if_pos h]
  by_cases hc : (if env.vr_rift_maxfov_value ≠ 0 then (1 : Int) else 0)
      ≠ truncToInt env.vr_rift_maxfov_value
  · refine ⟨
      { env with
        vr_rift_maxfov_value :=
          env.Cvar_SetInteger (if env.vr_rift_maxfov_value ≠ 0 then (1 : Int) else 0) },
      [RiftCall.Cvar_SetInteger (if env.vr_rift_maxfov_value ≠ 0 then (1 : Int) else 0)],
      (truncToInt ((env.render_width : K) * env.R_AntialiasGetScale)).toNat % 2 ^ 32,
      (truncToInt ((env.render_height : K) * env.R_AntialiasGetScale)).toNat % 2 ^ 32, ?_, rfl⟩
    simp only [if_pos hc]
  · refine ⟨env, [],
      (truncToInt ((env.render_width : K) * env.R_AntialiasGetScale)).toNat % 2 ^ 32,
      (truncToInt ((env.render_height : K) * env.R_AntialiasGetScale)).toNat % 2 ^ 32, ?_, rfl⟩
    simp only [if_neg hc, List.append_nil]

/-- C18. `Rift_FrameStart` finds the flag cleared: it returns without any
call and without any change. It finds the flag set: it runs
`Rift_SetOffscreenSize` (which recomputes the state), and it returns when
the SDK yields a swap texture set. Whenever it returns, the flag is cleared,
a swap texture set was created during the call if and only if the flag was
set on entry, and a second `Rift_FrameStart` right after it changes
nothing. -/
theorem Rift_FrameStart_dirty_flag (env : RendererEnv K) (s : RiftState K) :
    (s.vr_rift_maxfov_modified = false → Rift_FrameStart env s = some (env, s)) ∧
    (s.vr_rift_maxfov_modified = true →
      ∃ (env1 : RendererEnv K) (pre : List RiftCall) (w h : Nat),
        Rift_FrameStart env s
          = (Rift_SetOffscreenSize env1 w h
              { s with vr_rift_maxfov_modified := false, log := s.log ++ pre }).map
              (fun t => (env1, t))) ∧
    ((∀ n, (env.createSwapTextureSet n).isSome = true) →
      ∃ env2 s2, Rift_FrameStart env s = some (env2, s2)) ∧
    (∀ env2 s2, Rift_FrameStart env s = some (env2, s2) →
      s2.vr_rift_maxfov_modified = false ∧
      (s.vr_rift_maxfov_modified = true ↔
        ∃ w h, RiftCall.ovrHmd_CreateSwapTextureSetGL w h ∈ s2.log.drop s.log.length) ∧
      (s.vr_rift_maxfov_modified = true →
        s2.currentState = (Rift_CalculateState env2.toRiftEnv s.g s.currentState).2) ∧
      Rift_FrameStart env2 s2 = some (env2, s2)) := by
  refine ⟨Rift_FrameStart_clean env s, ?_, ?_, ?_⟩
  · intro h
    obtain ⟨env1, pre, w, h2, heq, -⟩ := Rift_FrameStart_dirty env s h
    exact ⟨env1, pre, w, h2, heq⟩
  · intro hcreate
    cases hm : s.vr_rift_maxfov_modified with
    | false => exact ⟨env, s, Rift_FrameStart_clean env s hm⟩
    | true =>
      obtain ⟨env1, pre, w, h2, heq, hsame⟩ := Rift_FrameStart_dirty env s hm
      have hsome : ∃ t, Rift_SetOffscreenSize env1 w h2
          { s with vr_rift_maxfov_modified := false, log := s.log ++ pre } = some t := by
        have hc : ∀ n, ∃ set, env1.createSwapTextureSet n = some set := fun n =>
          Option.isSome_iff_exists.mp (by rw [hsame]; exact hcreate n)
        simp only [Rift_SetOffscreenSize, Rift_SetOffscreenSize_recreate]
        obtain ⟨set, hset⟩ := hc _
        rw [hset]
        exact ⟨_, rfl⟩
      obtain ⟨t, ht⟩ := hsome
      exact ⟨env1, t, by rw [heq, ht]; rfl⟩
  · intro env2 s2 hret
    cases hm : s.vr_rift_maxfov_modified with
    | false =>
      rw [Rift_FrameStart_clean env s hm] at hret
      simp only [Option.some.injEq, Prod.mk.injEq] at hret
      obtain ⟨he, hs⟩ := hret
      subst he; subst hs
      refine ⟨hm, ?_, ?_, Rift_FrameStart_clean env s hm⟩
      · simp
      · intro h; exact absurd h (by simp)
    | true =>
      obtain ⟨env1, pre, w, h2, heq, -⟩ := Rift_FrameStart_dirty env s hm
      rw [heq] at hret
      cases ht : Rift_SetOffscreenSize env1 w h2
          { s with vr_rift_maxfov_modified := false, log := s.log ++ pre } with
      | none => rw [ht] at hret; exact absurd hret (by simp)
      | some t =>
        rw [ht] at hret
        simp only [Option.map_some', Option.some.injEq, Prod.mk.injEq] at hret
        obtain ⟨he, hs⟩ := hret
        subst he; subst hs
        obtain ⟨-, -, ⟨d, gw, gh, hlog, -⟩, -, -, hmod, hstate⟩ :=
          Rift_SetOffscreenSize_spec env1 w h2 _ t ht
        have hclean : t.vr_rift_maxfov_modified = false := hmod
        refine ⟨hclean, ?_, fun _ => hstate, Rift_FrameStart_clean env1 t hclean⟩
        refine ⟨fun _ => ⟨w, h2, ?_⟩, fun _ => rfl⟩
        rw [hlog]
        simp only [List.append_assoc, List.drop_left]
        simp

/-- Witness of C18: on the sample state the flag is set, the first
`Rift_FrameStart` returns with the flag cleared after creating a swap texture
set, and a second call right after it changes nothing. -/
theorem Rift_FrameStart_dirty_flag_witness :
    ∃ (env2 : RendererEnv ℚ) (s2 : RiftState ℚ),
      Rift_FrameStart (sampleRendererEnv 1) sampleRiftState = some (env2, s2) ∧
      s2.vr_rift_maxfov_modified = false ∧
      (∃ w h, RiftCall.ovrHmd_CreateSwapTextureSetGL w h
        ∈ s2.log.drop (sampleRiftState : RiftState ℚ).log.length) ∧
      Rift_FrameStart env2 s2 = some (env2, s2) := by
  obtain ⟨-, -, hret, hall⟩ :=
    Rift_FrameStart_dirty_flag (sampleRendererEnv (1 : ℚ)) sampleRiftState
  obtain ⟨env2, s2, h⟩ := hret (fun _ => rfl)
  obtain ⟨h1, h2, -, h4⟩ := hall env2 s2 h
  exact ⟨env2, s2, h, h1, h2.mp rfl, h4⟩

end FrameStartClaims

/-! ## Part 6. The viewports of the submitted layer, and `Enable` after a failed `Init` -/

section ViewportLemmas

variable {K : Type} [LinearOrderedField K]

omit [LinearOrderedField K] in
/-- The resize loop of `Rift_SetOffscreenSize` keeps the swap FBO and stores,
for each eye, the viewport computed from it. -/
theorem Rift_SetOffscreenSize_loop_viewport (env : RendererEnv K) (ovrScale : K)
    (t : RiftState K) :
    ([(0 : Fin 2), 1].foldl (Rift_SetOffscreenSize_eye env ovrScale) t).swapFBO = t.swapFBO ∧
    ∀ i : Fin 2,
      ([(0 : Fin 2), 1].foldl (Rift_SetOffscreenSize_eye env ovrScale) t).swapLayer.Viewport i
        = { x := Int.tdiv ((i.val : Int) * t.swapFBO.width) 2, y := 0
            w := Int.tdiv t.swapFBO.width 2, h := t.swapFBO.height } := by
  simp only [List.foldl_cons, List.foldl_nil, Rift_SetOffscreenSize_eye]
  refine ⟨?_, ?_⟩
  · split_ifs <;> rfl
  · intro i
    fin_cases i <;> split_ifs <;> simp [Function.update]

/-- The viewports that `Rift_SetOffscreenSize` leaves in `swapLayer`, in
terms of the swap FBO it leaves. -/
theorem Rift_SetOffscreenSize_viewport (env : RendererEnv K) (width height : Nat)
    (s s2 : RiftState K) (hs : Rift_SetOffscreenSize env width height s = some s2)
    (i : Fin 2) :
    s2.swapLayer.Viewport i
      = { x := Int.tdiv ((i.val : Int) * s2.swapFBO.width) 2, y := 0
          w := Int.tdiv s2.swapFBO.width 2, h := s2.swapFBO.height } := by
  simp only [Rift_SetOffscreenSize] at hs
  cases hset : (Rift_SetOffscreenSize_recreate env width height s).swapTextures with
  | none => rw [hset] at hs; exact absurd hs (by simp)
  | some set =>
    rw [hset] at hs
    simp only [Option.some.injEq] at hs
    obtain ⟨l1, l2⟩ := Rift_SetOffscreenSize_loop_viewport env
      (Rift_SetOffscreenSize_scale env width height)
      (Rift_SetOffscreenSize_swapFBO env set (Rift_SetOffscreenSize_recreate env width height s))
    rw [hs] at l1 l2
    rw [l2 i, l1]

/-- Division by two with truncation, for a non-negative dividend. -/
theorem tdiv_two_of_nonneg (a : Int) (h : 0 ≤ a) : Int.tdiv a 2 = a / 2 :=
  Int.tdiv_eq_ediv h (by norm_num)

/-- Division by two with truncation, for a negative dividend. -/
theorem tdiv_two_of_neg (a : Int) (h : a < 0) : Int.tdiv a 2 = -((-a) / 2) := by
  have h2 : Int.tdiv (-(-a)) 2 = -(Int.tdiv (-a) 2) := Int.neg_tdiv _ _
  rw [neg_neg] at h2
  rw [h2, Int.tdiv_eq_ediv (by omega) (by norm_num)]

end ViewportLemmas

section ViewportClaims

variable {K : Type} [LinearOrderedField K]

/-- C21. After `Rift_SetOffscreenSize`, with `W` and `H` the width and
height of the swap FBO: the viewport of eye `i` stored in `swapLayer` has
`x = i * W / 2` and width `W / 2` (truncated), `y = 0` and height `H`; no
pixel lies in both viewports; every pixel of a viewport lies in
`[0, W) x [0, H)`; for `0 ≤ W` the left viewport starts at `0`, the right one
where the left one ends, and the right one ends at or before `W`; and when
`W` is even, the pixels of the two viewports together are exactly those of
`[0, W) x [0, H)`. -/
theorem Rift_SetOffscreenSize_viewports_tile (env : RendererEnv K) (width height : Nat)
    (s s2 : RiftState K) (hs : Rift_SetOffscreenSize env width height s = some s2) :
    (∀ i : Fin 2, s2.swapLayer.Viewport i
      = { x := Int.tdiv ((i.val : Int) * s2.swapFBO.width) 2, y := 0
          w := Int.tdiv s2.swapFBO.width 2, h := s2.swapFBO.height }) ∧
    (∀ px py, ¬ (ovrRecti_contains (s2.swapLayer.Viewport 0) px py
      ∧ ovrRecti_contains (s2.swapLayer.Viewport 1) px py)) ∧
    (∀ (i : Fin 2) (px py : Int), ovrRecti_contains (s2.swapLayer.Viewport i) px py →
      0 ≤ px ∧ px < s2.swapFBO.width ∧ 0 ≤ py ∧ py < s2.swapFBO.height) ∧
    (0 ≤ s2.swapFBO.width →
      (s2.swapLayer.Viewport 0).x = 0
      ∧ (s2.swapLayer.Viewport 1).x = (s2.swapLayer.Viewport 0).x + (s2.swapLayer.Viewport 0).w
      ∧ (s2.swapLayer.Viewport 1).x + (s2.swapLayer.Viewport 1).w ≤ s2.swapFBO.width) ∧
    (s2.swapFBO.width % 2 = 0 →
      ∀ px py, (0 ≤ px ∧ px < s2.swapFBO.width ∧ 0 ≤ py ∧ py < s2.swapFBO.height) ↔
        (ovrRecti_contains (s2.swapLayer.Viewport 0) px py
          ∨ ovrRecti_contains (s2.swapLayer.Viewport 1) px py)) := by
  have hv := Rift_SetOffscreenSize_viewport env width height s s2 hs
  have h0 := hv 0
  have h1 := hv 1
  simp only [Fin.val_zero, Fin.val_one, Nat.cast_zero, Nat.cast_one, zero_mul, one_mul] at h0 h1
  have hz : Int.tdiv 0 2 = 0 := by decide
  rw [hz] at h0
  refine ⟨hv, ?_, ?_, ?_, ?_⟩
  · intro px py
    rw [h0, h1]
    simp only [ovrRecti_contains]
    rcases lt_or_le s2.swapFBO.width 0 with hneg | hpos
    · rw [tdiv_two_of_neg _ hneg]; omega
    · rw [tdiv_two_of_nonneg _ hpos]; omega
  · intro i px py
    fin_cases i
    · show ovrRecti_contains (s2.swapLayer.Viewport 0) px py → _
      rw [h0]
      simp only [ovrRecti_contains]
      rcases lt_or_le s2.swapFBO.width 0 with hneg | hpos
      · rw [tdiv_two_of_neg _ hneg]; omega
      · rw [tdiv_two_of_nonneg _ hpos]; omega
    · show ovrRecti_contains (s2.swapLayer.Viewport 1) px py → _
      rw [h1]
      simp only [ovrRecti_contains]
      rcases lt_or_le s2.swapFBO.width 0 with hneg | hpos
      · rw [tdiv_two_of_neg _ hneg]; omega
      · rw [tdiv_two_of_nonneg _ hpos]; omega
  · intro hpos
    rw [h0, h1]
    show (0 : Int) = 0 ∧ Int.tdiv s2.swapFBO.width 2 = 0 + Int.tdiv s2.swapFBO.width 2
      ∧ Int.tdiv s2.swapFBO.width 2 + Int.tdiv s2.swapFBO.width 2 ≤ s2.swapFBO.width
    rw [tdiv_two_of_nonneg _ hpos]
    omega
  · intro heven px py
    rw [h0, h1]
    simp only [ovrRecti_contains]
    rcases lt_or_le s2.swapFBO.width 0 with hneg | hpos
    · rw [tdiv_two_of_neg _ hneg]; omega
    · rw [tdiv_two_of_nonneg _ hpos]; omega

/-- Witness of C21: the sample environment, whose swap FBO is 2364 x 1464;
the viewports are `(0, 0, 1182, 1464)` and `(1182, 0, 1182, 1464)`. -/
theorem Rift_SetOffscreenSize_viewports_tile_witness :
    ∃ s2 : RiftState ℚ,
      Rift_SetOffscreenSize (sampleRendererEnv 0) 2364 1464 sampleRiftState = some s2 ∧
      s2.swapFBO.width = 2364 ∧ s2.swapFBO.height = 1464 ∧
      s2.swapLayer.Viewport 0 = { x := 0, y := 0, w := 1182, h := 1464 } ∧
      s2.swapLayer.Viewport 1 = { x := 1182, y := 0, w := 1182, h := 1464 } ∧
      ∀ px py, ¬ (ovrRecti_contains (s2.swapLayer.Viewport 0) px py
        ∧ ovrRecti_contains (s2.swapLayer.Viewport 1) px py) := by
  have h1 : (Rift_SetOffscreenSize (sampleRendererEnv (0 : ℚ)) 2364 1464
      sampleRiftState).isSome = true := by decide
  obtain ⟨s2, hs2⟩ := Option.isSome_iff_exists.mp h1
  have hw : (Rift_SetOffscreenSize (sampleRendererEnv (0 : ℚ)) 2364 1464
      sampleRiftState).map (fun s => (s.swapFBO.width, s.swapFBO.height))
        = some (2364, 1464) := by decide
  rw [hs2] at hw
  simp only [Option.map_some', Option.some.injEq, Prod.mk.injEq] at hw
  obtain ⟨hv, hdis, -⟩ := Rift_SetOffscreenSize_viewports_tile (sampleRendererEnv (0 : ℚ))
    2364 1464 sampleRiftState s2 hs2
  refine ⟨s2, hs2, hw.1, hw.2, ?_, ?_, hdis⟩
  · rw [hv 0, hw.1, hw.2]; decide
  · rw [hv 1, hw.1, hw.2]; decide

end ViewportClaims

section EnableClaims

/-- `Enable` on a backend without an instance returns `0` at once. -/
theorem Enable_null_instance (rt : Nat → XrAnswer) (fuel : Nat) (s : Sys)
    (h : s.vr.m_xrInstance = XR_NULL_HANDLE) :
    Enable rt fuel s = some (IntExit.returned 0, s) := by
  simp [Enable, h]

/-- When the part of `Init` after the creation of the instance returns `0`,
it has destroyed the instance and reset the handle. -/
theorem Init_system_returned_zero (rt : Nat → XrAnswer) (s : Sys)
    (h : (Init_system rt s).1 = IntExit.returned 0) :
    (Init_system rt s).2.vr.m_xrInstance = XR_NULL_HANDLE := by
  revert h
  simp only [Init_system, xr]
  split_ifs <;> simp

/-- When `Init`, entered without an instance, leaves by `return 0`, there is
no instance afterwards. -/
theorem Init_returned_zero (rt : Nat → XrAnswer) (WGLEW_NV_DX_interop2 : Bool) (s : Sys)
    (h0 : s.vr.m_xrInstance = XR_NULL_HANDLE)
    (h : (Init rt WGLEW_NV_DX_interop2 s).1 = IntExit.returned 0) :
    (Init rt WGLEW_NV_DX_interop2 s).2.vr.m_xrInstance = XR_NULL_HANDLE := by
  revert h
  simp only [Init, xr]
  split_ifs
  · simp
  · simp
  · intro _; exact h0
  · simp
  · exact Init_system_returned_zero rt _
  · simp
  · exact Init_system_returned_zero rt _
  · intro _; exact h0

/-- When `Init`, entered without an instance, leaves by `return 0`, the
following `wrapper_enable` returns `0` and makes no call. -/
theorem wrapper_enable_after_returned_zero (rt : Nat → XrAnswer) (WGLEW_NV_DX_interop2 : Bool)
    (fuel : Nat) (s : Sys) (h0 : s.vr.m_xrInstance = XR_NULL_HANDLE)
    (h : (Init rt WGLEW_NV_DX_interop2 s).1 = IntExit.returned 0) :
    (wrapper_init rt WGLEW_NV_DX_interop2 s).1 = 0 ∧
    wrapper_enable rt fuel (wrapper_init rt WGLEW_NV_DX_interop2 s).2
      = some (0, (wrapper_init rt WGLEW_NV_DX_interop2 s).2) := by
  have hnull := Init_returned_zero rt WGLEW_NV_DX_interop2 s h0 h
  have hw : wrapper_init rt WGLEW_NV_DX_interop2 s = (0, (Init rt WGLEW_NV_DX_interop2 s).2) := by
    rcases hI : Init rt WGLEW_NV_DX_interop2 s with ⟨e, t⟩
    rw [hI] at h
    simp only at h
    subst h
    simp only [wrapper_init, hI]
  rw [hw]
  refine ⟨rfl, ?_⟩
  simp only [wrapper_enable, Enable_null_instance rt fuel _ hnull, Option.map_some']

/-- C22, at the failing input. The runtime lists `XR_KHR_opengl_enable` and
creates instance `7`, then `xrGetSystem` fails because no headset is
connected: `Init` throws, `wrapper_init` returns `0`, and `m_xrInstance` is
still `7` (no `xrDestroyInstance` was called). With the headset connected
afterwards, the following `wrapper_enable` returns `1` and has created
session `8` on instance `7`. On the path where `Init` itself returns `0`
(only a mono view configuration), the instance is destroyed, `m_xrInstance`
is null, and `wrapper_enable` returns `0` without any call. -/
theorem wrapper_enable_after_failed_init :
    (wrapper_init unpluggedRuntime true (freshBackend false)).1 = 0 ∧
    (wrapper_init unpluggedRuntime true (freshBackend false)).2.vr.m_xrInstance = 7 ∧
    (wrapper_init unpluggedRuntime true (freshBackend false)).2.log.map (fun e => e.call)
      = [XrCall.xrEnumerateInstanceExtensionProperties 0,
         XrCall.xrEnumerateInstanceExtensionProperties 1,
         XrCall.xrCreateInstance XR_KHR_opengl_enable,
         XrCall.xrGetSystem 7] ∧
    (∀ fuel, (wrapper_enable unpluggedRuntime fuel
        (wrapper_init unpluggedRuntime true (freshBackend false)).2).map
        (fun r => (r.1, r.2.vr.m_xrSession, (r.2.log.drop 4).map (fun e => e.call)))
      = some (1, 8,
         [XrCall.xrGetSystem 7,
          XrCall.xrGetSystemProperties 7 9,
          XrCall.xrCreateSession 7 9 false,
          XrCall.xrEnumerateViewConfigurationViews 7 9 0,
          XrCall.xrEnumerateViewConfigurationViews 7 9 2,
          XrCall.xrCreateSwapchain 8 none 1000 (some 1100),
          XrCall.xrEnumerateSwapchainImages 10 0,
          XrCall.xrEnumerateSwapchainImages 10 1,
          XrCall.xrCreateSwapchain 8 none 1000 (some 1100),
          XrCall.xrEnumerateSwapchainImages 11 0,
          XrCall.xrEnumerateSwapchainImages 11 1,
          XrCall.xrCreateReferenceSpace 8])) ∧
    (wrapper_init monoRuntime true (freshBackend false)).1 = 0 ∧
    (wrapper_init monoRuntime true (freshBackend false)).2.vr.m_xrInstance = XR_NULL_HANDLE ∧
    ((wrapper_init monoRuntime true (freshBackend false)).2.log.map (fun e => e.call)).getLast?
      = some (XrCall.xrDestroyInstance 7) ∧
    (∀ fuel, (wrapper_enable monoRuntime fuel
        (wrapper_init monoRuntime true (freshBackend false)).2).map
        (fun r => (r.1, r.2.vr.m_xrSession, (r.2.log.drop 7).map (fun e => e.call)))
      = some (0, 0, [])) := by
  refine ⟨by decide, by decide, by decide, ?_, by decide, by decide, by decide, ?_⟩
  · intro fuel
    rfl
  · intro fuel
    rfl

end EnableClaims

end Quake2VR
